import Mathlib

/-!
S3Random / S3Randomfreq: tiered admission and eviction

A shallow embedding of `S3Random.c` (plain variant) and `S3Randomfreq.c`
(frequency variant).  Both policies own three single-tier random-eviction
caches (Small, Ghost, Main).  The single-tier cache `Random_init` creates and
the driver `cache_get_base` live outside the two source files; they are
modelled from the interface the specification gives for them.

Integers: identifiers, sizes and capacities are naturals (`obj_size`,
`cache_size` are never negative); the per-object counters are `Int`, and the
one arithmetic write that can leave the range of the 32-bit field, `freq++`,
wraps around explicitly (`wrap_int32`).  Random candidate selection is driven by an
explicit stream of naturals, so every statement quantified over the stream
holds for every sequence of random draws.
-/

namespace S3

/-! ## Data model -/

/-- The part of `request_t` the policies read: `req->obj_id`, `req->obj_size`. -/
structure Request where
  obj_id : Nat
  obj_size : Nat
deriving DecidableEq, Repr

/-- The part of `cache_obj_t` the policies touch.  `freq` is
`obj->S3Randomfreq.freq`, `promotion` is `obj->S3Random.promotion` and
`misc_freq` is `obj->misc.freq`, a field distinct from the policy counter. -/
structure CacheObj where
  obj_id : Nat
  obj_size : Nat
  freq : Int
  promotion : Bool
  misc_freq : Int
deriving DecidableEq, Repr

/-- Source of random draws: draw `k` of a call is `rs k`. -/
abbrev Rng := Nat → Nat

/-- The stream after one draw has been taken. -/
def Rng.tail (rs : Rng) : Rng := fun i => rs (i + 1)

/-- Modelled from the spec: the single-tier store `Random_init` creates (the
RandomTier collaborator of section 6), a byte capacity and the resident
objects.  The newest object is at the head, as in a chained hash table. -/
structure Tier where
  cache_size : Nat
  objs : List CacheObj
deriving DecidableEq, Repr

/-- Modelled from the spec: RandomTier `occupied_bytes()`, the sum of the
sizes of the resident objects. -/
def Tier.get_occupied_byte (t : Tier) : Nat := (t.objs.map CacheObj.obj_size).sum

/-- Modelled from the spec: RandomTier `count()`. -/
def Tier.get_n_obj (t : Tier) : Nat := t.objs.length

/-- Identifiers resident in a tier, in storage order. -/
def Tier.ids (t : Tier) : List Nat := t.objs.map CacheObj.obj_id

/-- Residency of an identifier in a tier. -/
def Tier.resident (t : Tier) (id : Nat) : Prop := id ∈ t.ids

instance (t : Tier) (id : Nat) : Decidable (t.resident id) := by
  unfold Tier.resident; exact inferInstance

/-- Modelled from the spec: RandomTier `find(id, update)`, exact-match lookup
returning the resident object or nothing.  The tier keeps no policy metadata
of its own, so the `update` flag changes nothing the policy can observe. -/
def Tier.find (t : Tier) (id : Nat) : Option CacheObj :=
  t.objs.find? (fun o => decide (o.obj_id = id))

/-- Write through the pointer returned by `find` or `insert`: apply `f` to the
first resident object with identifier `id`. -/
def updateFirst (id : Nat) (f : CacheObj → CacheObj) : List CacheObj → List CacheObj
  | [] => []
  | o :: os => if o.obj_id = id then f o :: os else o :: updateFirst id f os

/-- Tier-level wrapper of `updateFirst`. -/
def Tier.update (t : Tier) (id : Nat) (f : CacheObj → CacheObj) : Tier :=
  { t with objs := updateFirst id f t.objs }

/-- The object a tier creates for a request: identifier and size come from
the request, every metadata field starts at its zero value. -/
def CacheObj.ofRequest (req : Request) : CacheObj :=
  { obj_id := req.obj_id, obj_size := req.obj_size, freq := 0, promotion := false,
    misc_freq := 0 }

/-- Modelled from the spec: RandomTier `insert(object)`.  The primitive only
does the accounting; having room is the caller's duty ("caller must
pre-evict"), which is why the policies can observe a tier above its
capacity (`main occupied > main->cache_size` in `evict`). -/
def Tier.insert (t : Tier) (req : Request) : Tier :=
  { t with objs := CacheObj.ofRequest req :: t.objs }

/-- Modelled from the spec: RandomTier `remove(id)`: drops the object with this
identifier and reports whether there was one. -/
def Tier.remove (t : Tier) (id : Nat) : Tier × Bool :=
  if (t.find id).isSome then
    ({ t with objs := t.objs.eraseP (fun o => decide (o.obj_id = id)) }, true)
  else (t, false)

/-- Slot picked by random draw `r`. -/
def Tier.slot (t : Tier) (r : Nat) : Nat := r % t.objs.length

/-- Modelled from the spec: RandomTier `select_eviction_candidate()`: a
read-only choice among the resident objects, decided by the draw `r`;
nothing when the tier holds no object. -/
def Tier.to_evict (t : Tier) (r : Nat) : Option CacheObj := t.objs[t.slot r]?

/-- Write through the pointer returned by `to_evict`: replace the object in
the slot of draw `r`. -/
def Tier.set_slot (t : Tier) (r : Nat) (o : CacheObj) : Tier :=
  { t with objs := t.objs.set (t.slot r) o }

/-- Modelled from the spec: a tier evicting for itself drops the candidate it
selected. -/
def Tier.evict (t : Tier) (r : Nat) : Tier :=
  { t with objs := t.objs.eraseIdx (t.slot r) }

/-- Modelled from the spec: the admission gate of a plain tier, the request
fits under the capacity. -/
def Tier.can_insert (t : Tier) (req : Request) : Bool := decide (req.obj_size ≤ t.cache_size)

/-- Modelled from the spec: the eviction loop of the tier-level `get`,
`while (occupied + size > capacity) evict`.  Each round drops one object, so
`fuel` = number of resident objects is enough. -/
def Tier.make_room : Nat → Tier → Nat → Rng → Tier × Rng
  | 0, t, _, rs => (t, rs)
  | fuel + 1, t, size, rs =>
    if t.get_occupied_byte + size > t.cache_size then
      Tier.make_room fuel (t.evict (rs 0)) size rs.tail
    else (t, rs)

/-- Modelled from the spec: `get(request)` of a single tier, as called on
Ghost by the Small eviction: hit when the identifier is resident; on a miss
that passes the gate, evict random entries until the request fits and
insert it. -/
def Tier.get (t : Tier) (req : Request) (rs : Rng) : Tier × Rng × Bool :=
  if (t.find req.obj_id).isSome then (t, rs, true)
  else if t.can_insert req then
    let r := Tier.make_room t.objs.length t req.obj_size rs
    (r.1.insert req, r.2, false)
  else (t, rs, false)

/-! ## Frequency variant (`S3Randomfreq.c`) -/

/-- The cache of the frequency variant: total capacity `cache->cache_size`
and the fields of `S3Randomfreq_params_t`. -/
structure FreqCache where
  cache_size : Nat
  small_random : Tier
  ghost_random : Tier
  main_random : Tier
  hit_on_ghost : Bool
  threshold : Int
  n_obj_admit_to_small : Int
  n_obj_admit_to_main : Int
  n_obj_move_to_main : Int
  n_byte_admit_to_small : Int
  n_byte_admit_to_main : Int
  n_byte_move_to_main : Int
  req_local : Request
deriving DecidableEq, Repr

/-- Number of low bits a significand `p` loses when it is brought to the 53
bits of a double: 0 below `2 ^ 53`, one more for every halving needed. -/
def excess_bits : Nat → Nat → Nat
  | 0, _ => 0
  | fuel + 1, p => if p < 2 ^ 53 then 0 else excess_bits fuel (p / 2) + 1

/-- Rounding of the natural number `p` to a double (IEEE 754 binary64, round
to nearest, ties to even): the pair `(m, s)` stands for the double
`m * 2 ^ s`. -/
def round53 (p : Nat) : Nat × Nat :=
  let s := excess_bits p p
  let m := p / 2 ^ s
  let rem := p % 2 ^ s
  if 2 * rem > 2 ^ s ∨ (2 * rem = 2 ^ s ∧ m % 2 = 1) then (m + 1, s) else (m, s)

/-- The C expression `(int64_t)(C * d)` for an integer `C` and the double
constant `d = M / 2 ^ K`: `C` is converted to a double, the product is
rounded to a double, and the cast truncates it.  The literal `0.1` is the
double `3602879701896397 / 2 ^ 55` and `0.9` is `8106479329266893 / 2 ^ 53`.
Capacities are taken below `2 ^ 63`, where the integer casts do not wrap. -/
def double_mul_trunc (C M K : Nat) : Nat :=
  let c := round53 C
  let p := round53 (c.1 * M)
  p.1 * 2 ^ (p.2 + c.2) / 2 ^ K

/-- Source function `S3Randomfreq_init`: Small gets `cache_size * 0.1`
truncated, Main the rest, Ghost `cache_size * 0.9` truncated, the products
being computed in double precision.  All tiers start empty, the flag is
clear and the threshold is 2. -/
def S3Randomfreq_init (cache_size : Nat) : FreqCache :=
  let small_size := double_mul_trunc cache_size 3602879701896397 55
  let main_cache_size := cache_size - small_size
  let ghost_cache_size := double_mul_trunc cache_size 8106479329266893 53
  { cache_size := cache_size
    small_random := { cache_size := small_size, objs := [] }
    ghost_random := { cache_size := ghost_cache_size, objs := [] }
    main_random := { cache_size := main_cache_size, objs := [] }
    hit_on_ghost := false
    threshold := 2
    n_obj_admit_to_small := 0
    n_obj_admit_to_main := 0
    n_obj_move_to_main := 0
    n_byte_admit_to_small := 0
    n_byte_admit_to_main := 0
    n_byte_move_to_main := 0
    req_local := { obj_id := 0, obj_size := 0 } }

/-- The value a 32-bit signed field holds after a write of `x`: two's-complement
wrap-around into `-2147483648 .. 2147483647`. -/
def wrap_int32 (x : Int) : Int := (x + 2147483648) % 4294967296 - 2147483648

/-- The write `obj->S3Randomfreq.freq++`.  The counter is a 32-bit signed field (line 390
reads it into an `int`) and the increment has no clamp: it adds one, and at 2147483647
it wraps around to -2147483648. -/
def CacheObj.incr_freq (o : CacheObj) : CacheObj :=
  { o with freq := wrap_int32 (o.freq + 1) }

/-- Source function `S3Randomfreq_find`: returns the new cache and the object found (after
the write through its pointer), `none` for NULL. -/
def S3Randomfreq_find (s : FreqCache) (req : Request) (update_cache : Bool) :
    FreqCache × Option CacheObj :=
  if !update_cache then
    match s.small_random.find req.obj_id with
    | some obj => (s, some obj)
    | none =>
      match s.main_random.find req.obj_id with
      | some obj => (s, some obj)
      | none => (s, none)
  else
    let s1 := { s with hit_on_ghost := false }
    match s1.small_random.find req.obj_id with
    | some obj =>
      ({ s1 with small_random := s1.small_random.update req.obj_id CacheObj.incr_freq },
        some obj.incr_freq)
    | none =>
      let g := s1.ghost_random.remove req.obj_id
      let s2 := if g.2 then { s1 with ghost_random := g.1, hit_on_ghost := true }
                else { s1 with ghost_random := g.1 }
      match s2.main_random.find req.obj_id with
      | some obj =>
        ({ s2 with main_random := s2.main_random.update req.obj_id CacheObj.incr_freq },
          some obj.incr_freq)
      | none => (s2, none)

/-- The write `obj->S3Randomfreq.freq = 0`. -/
def CacheObj.reset_freq (o : CacheObj) : CacheObj := { o with freq := 0 }

/-- Source function `S3Randomfreq_insert`: returns the new cache and the inserted object,
`none` for NULL. -/
def S3Randomfreq_insert (s : FreqCache) (req : Request) : FreqCache × Option CacheObj :=
  if s.hit_on_ghost then
    let s1 := { s with hit_on_ghost := false,
                       n_obj_admit_to_main := s.n_obj_admit_to_main + 1,
                       n_byte_admit_to_main := s.n_byte_admit_to_main + req.obj_size }
    if req.obj_size ≥ s1.main_random.cache_size then (s1, none)
    else
      ({ s1 with main_random :=
            (s1.main_random.insert req).update req.obj_id CacheObj.reset_freq },
        some (CacheObj.ofRequest req).reset_freq)
  else
    if req.obj_size ≥ s.small_random.cache_size then (s, none)
    else
      let s1 := { s with n_obj_admit_to_small := s.n_obj_admit_to_small + 1,
                         n_byte_admit_to_small := s.n_byte_admit_to_small + req.obj_size }
      ({ s1 with small_random :=
            (s1.small_random.insert req).update req.obj_id CacheObj.reset_freq },
        some (CacheObj.ofRequest req).reset_freq)

/-- Source call `copy_cache_obj_to_request(params->req_local, obj)`. -/
def copy_cache_obj_to_request (o : CacheObj) : Request :=
  { obj_id := o.obj_id, obj_size := o.obj_size }

/-- The promotion branch of one round of `S3Randomfreq_evict_small`
(`freq >= threshold`): statistics, `main->insert`, copy of `misc.freq` into
the new object, then `small->remove`. -/
def S3Randomfreq_promote (s : FreqCache) (obj_to_evict : CacheObj) : FreqCache :=
  let s1 := { s with req_local := copy_cache_obj_to_request obj_to_evict }
  let s2 := { s1 with
    n_obj_move_to_main := s1.n_obj_move_to_main + 1,
    n_byte_move_to_main := s1.n_byte_move_to_main + obj_to_evict.obj_size,
    main_random := ((s1.main_random.insert s1.req_local).update s1.req_local.obj_id
      (fun new_obj => { new_obj with misc_freq := obj_to_evict.misc_freq })) }
  { s2 with small_random := (s2.small_random.remove s2.req_local.obj_id).1 }

/-- The demotion branch of one round of `S3Randomfreq_evict_small`
(`freq < threshold`): `ghost->get`, then `small->remove`. -/
def S3Randomfreq_demote (s : FreqCache) (obj_to_evict : CacheObj) (rs : Rng) :
    FreqCache × Rng :=
  let s1 := { s with req_local := copy_cache_obj_to_request obj_to_evict }
  let g := s1.ghost_random.get s1.req_local rs
  let s2 := { s1 with ghost_random := g.1 }
  ({ s2 with small_random := (s2.small_random.remove s2.req_local.obj_id).1 }, g.2.1)

/-- The `while (!evicted && small occupied > 0)` loop of
`S3Randomfreq_evict_small`; a round that demotes returns at once
(`evicted = true`).  The `none` branch is the failed
`DEBUG_ASSERT(obj_to_evict != NULL)`. -/
def S3Randomfreq_evict_small_loop : Nat → FreqCache → Rng → FreqCache × Rng
  | 0, s, rs => (s, rs)
  | fuel + 1, s, rs =>
    if 0 < s.small_random.get_occupied_byte then
      match s.small_random.to_evict (rs 0) with
      | none => (s, rs.tail)
      | some obj_to_evict =>
        if obj_to_evict.freq ≥ s.threshold then
          S3Randomfreq_evict_small_loop fuel (S3Randomfreq_promote s obj_to_evict) rs.tail
        else S3Randomfreq_demote s obj_to_evict rs.tail
    else (s, rs)

/-- Source function `S3Randomfreq_evict_small`.  Every round removes one object from Small, so
the number of objects in Small bounds the number of rounds. -/
def S3Randomfreq_evict_small (s : FreqCache) (rs : Rng) : FreqCache × Rng :=
  S3Randomfreq_evict_small_loop s.small_random.objs.length s rs

/-- Rounds the second-chance loop can spend sparing objects: every spared
candidate has `freq > 0` and leaves with a strictly smaller `freq`. -/
def spareBudget (l : List CacheObj) : Nat := (l.map (fun o => o.freq.toNat)).sum

/-- The second-chance branch of one round of `S3Randomfreq_evict_main`
(`freq > 0`): the candidate in the slot of draw `r` stays, with
`freq = MIN(freq, 3) - 1` and `misc.freq = freq`. -/
def S3Randomfreq_spare (s : FreqCache) (r : Nat) (obj_to_evict : CacheObj) : FreqCache :=
  let freq := obj_to_evict.freq
  let s1 := { s with req_local := copy_cache_obj_to_request obj_to_evict }
  let spared : CacheObj := { obj_to_evict with freq := min freq 3 - 1, misc_freq := freq }
  { s1 with main_random := s1.main_random.set_slot r spared }

/-- The removal branch of one round of `S3Randomfreq_evict_main`
(`freq <= 0`): `main->remove(obj_to_evict->obj_id)`. -/
def S3Randomfreq_drop (s : FreqCache) (obj_to_evict : CacheObj) : FreqCache :=
  let s1 := { s with req_local := copy_cache_obj_to_request obj_to_evict }
  { s1 with main_random := (s1.main_random.remove obj_to_evict.obj_id).1 }

/-- The `while (!evicted && main occupied > 0)` loop of
`S3Randomfreq_evict_main`; the round that removes returns at once.  The
`none` branch is the failed `DEBUG_ASSERT(obj_to_evict != NULL)`. -/
def S3Randomfreq_evict_main_loop : Nat → FreqCache → Rng → FreqCache × Rng
  | 0, s, rs => (s, rs)
  | fuel + 1, s, rs =>
    if 0 < s.main_random.get_occupied_byte then
      match s.main_random.to_evict (rs 0) with
      | none => (s, rs.tail)
      | some obj_to_evict =>
        if obj_to_evict.freq > 0 then
          S3Randomfreq_evict_main_loop fuel (S3Randomfreq_spare s (rs 0) obj_to_evict) rs.tail
        else (S3Randomfreq_drop s obj_to_evict, rs.tail)
    else (s, rs)

/-- Source function `S3Randomfreq_evict_main`, with the round budget `spareBudget + 1`. -/
def S3Randomfreq_evict_main (s : FreqCache) (rs : Rng) : FreqCache × Rng :=
  S3Randomfreq_evict_main_loop (spareBudget s.main_random.objs + 1) s rs

/-- Source function `S3Randomfreq_evict`: Main when Main is over its capacity or Small holds no
byte, Small otherwise. -/
def S3Randomfreq_evict (s : FreqCache) (rs : Rng) : FreqCache × Rng :=
  if s.main_random.get_occupied_byte > s.main_random.cache_size
      ∨ s.small_random.get_occupied_byte = 0 then
    S3Randomfreq_evict_main s rs
  else S3Randomfreq_evict_small s rs

/-- Source function `S3Randomfreq_remove`: Small, then Ghost, then Main, stopping at the first
tier that held the identifier. -/
def S3Randomfreq_remove (s : FreqCache) (obj_id : Nat) : FreqCache × Bool :=
  let r1 := s.small_random.remove obj_id
  if r1.2 then ({ s with small_random := r1.1 }, true)
  else
    let r2 := s.ghost_random.remove obj_id
    if r2.2 then ({ s with ghost_random := r2.1 }, true)
    else
      let r3 := s.main_random.remove obj_id
      ({ s with main_random := r3.1 }, r3.2)

/-- Source function `S3Randomfreq_get_occupied_byte`. -/
def S3Randomfreq_get_occupied_byte (s : FreqCache) : Nat :=
  s.small_random.get_occupied_byte + s.main_random.get_occupied_byte

/-- Source function `S3Randomfreq_get_n_obj`. -/
def S3Randomfreq_get_n_obj (s : FreqCache) : Nat :=
  s.small_random.get_n_obj + s.main_random.get_n_obj

/-- Source function `S3Randomfreq_can_insert`. -/
def S3Randomfreq_can_insert (s : FreqCache) (req : Request) : Bool :=
  decide (req.obj_size ≤ s.small_random.cache_size)

/-- Modelled from the spec: the eviction loop of the driver `cache_get_base`,
`while (occupied_bytes + size > cache_size) evict` (`obj_md_size` is 0). -/
def S3Randomfreq_make_room : Nat → FreqCache → Request → Rng → FreqCache × Rng
  | 0, s, _, rs => (s, rs)
  | fuel + 1, s, req, rs =>
    if S3Randomfreq_get_occupied_byte s + req.obj_size > s.cache_size then
      let r := S3Randomfreq_evict s rs
      S3Randomfreq_make_room fuel r.1 req r.2
    else (s, rs)

/-- Rounds `S3Randomfreq_make_room` can need: every `evict` either takes an
object out of Small and Main, or leaves Small without a byte. -/
def roomBudget (s : FreqCache) : Nat := 2 * S3Randomfreq_get_n_obj s + 1

/-- Modelled from the spec: `S3Randomfreq_get` hands the request to the driver
`cache_get_base`, which is not part of the two source files.  Its logic is
the one the docstring of `S3Randomfreq_get` gives (hit: update metadata;
miss: evict until there is space, insert): lookup with update; on a miss the
`can_insert` gate, then `evict` while the object does not fit under the
total capacity, then `insert`.  The `DEBUG_ASSERT` at the entry of the
source function is the byte invariant proved below.  Returns the new cache
and whether the request was a hit. -/
def S3Randomfreq_get (s : FreqCache) (req : Request) (rs : Rng) : FreqCache × Bool :=
  let f := S3Randomfreq_find s req true
  if f.2.isSome then (f.1, true)
  else if S3Randomfreq_can_insert f.1 req then
    let r := S3Randomfreq_make_room (roomBudget f.1) f.1 req rs
    ((S3Randomfreq_insert r.1 req).1, false)
  else (f.1, false)

/-! ## Plain variant (`S3Random.c`) -/

/-- The cache of the plain variant: total capacity `cache->cache_size` and the
fields of `S3Random_params_t`.  `random_ghost` is `none` for the NULL
pointer.  The two size ratios are kept as rationals. -/
structure PlainCache where
  cache_size : Nat
  small_random : Tier
  main_random : Tier
  random_ghost : Option Tier
  hit_on_ghost : Bool
  n_obj_admit_to_small_random : Int
  n_obj_admit_to_main_random : Int
  n_obj_move_to_main : Int
  n_byte_admit_to_small_random : Int
  n_byte_admit_to_main_random : Int
  n_byte_move_to_main : Int
  move_to_main_threshold : Int
  small_random_size_ratio : Rat
  ghost_size_ratio : Rat
  req_local : Request
deriving DecidableEq

/-- The write `obj->S3Random.promotion = true`. -/
def CacheObj.set_promotion (o : CacheObj) : CacheObj := { o with promotion := true }

/-- The write `obj->S3Random.promotion = false`. -/
def CacheObj.clear_promotion (o : CacheObj) : CacheObj := { o with promotion := false }

/-- Source function `S3Random_find`: returns the new cache and the object found (after the
write through its pointer), `none` for NULL. -/
def S3Random_find (s : PlainCache) (req : Request) (update_cache : Bool) :
    PlainCache × Option CacheObj :=
  if !update_cache then
    match s.small_random.find req.obj_id with
    | some obj => (s, some obj)
    | none =>
      match s.main_random.find req.obj_id with
      | some obj => (s, some obj)
      | none => (s, none)
  else
    let s1 := { s with hit_on_ghost := false }
    match s1.small_random.find req.obj_id with
    | some obj =>
      ({ s1 with small_random := s1.small_random.update req.obj_id CacheObj.set_promotion },
        some obj.set_promotion)
    | none =>
      let s2 :=
        match s1.random_ghost with
        | none => s1
        | some ghost =>
          let g := ghost.remove req.obj_id
          if g.2 then { s1 with random_ghost := some g.1, hit_on_ghost := true }
          else { s1 with random_ghost := some g.1 }
      (s2, s2.main_random.find req.obj_id)

/-- Source function `S3Random_insert`: the ghost-hit block is followed, not replaced, by the
Small block.  Returns the new cache and the inserted object, `none` for
NULL. -/
def S3Random_insert (s : PlainCache) (req : Request) : PlainCache × Option CacheObj :=
  let s1 :=
    if s.hit_on_ghost then
      { s with hit_on_ghost := false,
               n_obj_move_to_main := s.n_obj_move_to_main + 1,
               n_byte_admit_to_main_random := s.n_byte_admit_to_main_random + req.obj_size,
               main_random := s.main_random.insert req }
    else s
  if req.obj_size ≥ s1.small_random.cache_size then (s1, none)
  else
    let s2 := { s1 with
      n_byte_admit_to_small_random := s1.n_byte_admit_to_small_random + req.obj_size,
      n_obj_admit_to_small_random := s1.n_obj_admit_to_small_random + 1 }
    ({ s2 with small_random :=
          (s2.small_random.insert req).update req.obj_id CacheObj.clear_promotion },
      some (CacheObj.ofRequest req).clear_promotion)

/-- Source function `S3Random_evict_small_random`: one candidate, recorded in Ghost when Ghost
exists, then removed from Small; the `promotion` flag is not read.  The
`none` branch is the failed `DEBUG_ASSERT(obj_to_evict != NULL)`. -/
def S3Random_evict_small_random (s : PlainCache) (rs : Rng) : PlainCache × Rng :=
  if 0 < s.small_random.get_occupied_byte then
    match s.small_random.to_evict (rs 0) with
    | none => (s, rs.tail)
    | some obj_to_evict =>
      let s1 := { s with req_local := copy_cache_obj_to_request obj_to_evict }
      match s1.random_ghost with
      | some ghost =>
        let g := ghost.get s1.req_local rs.tail
        let s2 := { s1 with random_ghost := some g.1 }
        ({ s2 with small_random := (s2.small_random.remove s2.req_local.obj_id).1 }, g.2.1)
      | none =>
        ({ s1 with small_random := (s1.small_random.remove s1.req_local.obj_id).1 }, rs.tail)
  else (s, rs)

/-- The constant `DEFAULT_CACHE_PARAMS` of the source.  No function of
`S3Random.c` reads it. -/
def DEFAULT_CACHE_PARAMS : String :=
  "small-random-size-ratio=0.10,ghost-size-ratio=0.9,move-to-main-threshold=2"

/-- The cast `(int64_t)(cache_size * ratio)` of `S3Random_init`, with the
product taken exactly; for the ratio 0 the floating-point product is exactly
0 as well. -/
def scaled_size (cache_size : Nat) (ratio : Rat) : Nat :=
  (Int.floor ((cache_size : Rat) * ratio)).toNat

/-- Source function `S3Random_init`.  The parameters are cleared by `memset`
and then only `req_local` and `hit_on_ghost` are assigned: the function never
parses `DEFAULT_CACHE_PARAMS` or `cache_specific_params`, so both size ratios
and the threshold are still 0 when the tier sizes are computed.  Ghost is
created only for a positive size. -/
def S3Random_init (cache_size : Nat) : PlainCache :=
  let small_random_size_ratio : Rat := 0
  let ghost_size_ratio : Rat := 0
  let small_random_cache_size := scaled_size cache_size small_random_size_ratio
  let main_random_cache_size := cache_size - small_random_cache_size
  let ghost_random_cache_size := scaled_size cache_size ghost_size_ratio
  { cache_size := cache_size
    small_random := { cache_size := small_random_cache_size, objs := [] }
    main_random := { cache_size := main_random_cache_size, objs := [] }
    random_ghost :=
      if ghost_random_cache_size > 0 then
        some { cache_size := ghost_random_cache_size, objs := [] }
      else none
    hit_on_ghost := false
    n_obj_admit_to_small_random := 0
    n_obj_admit_to_main_random := 0
    n_obj_move_to_main := 0
    n_byte_admit_to_small_random := 0
    n_byte_admit_to_main_random := 0
    n_byte_move_to_main := 0
    move_to_main_threshold := 0
    small_random_size_ratio := small_random_size_ratio
    ghost_size_ratio := ghost_size_ratio
    req_local := { obj_id := 0, obj_size := 0 } }

/-- Source function `S3Random_evict_main_random`.  The source fills
`req_local` with `copy_request_to_cache_obj(params->req_local, obj_to_evict)`,
a call that passes the request where the object is expected and the object
where the request is expected; what it leaves in `req_local` depends on the
memory layout of the two structs and is the parameter `confused_copy` (old
`req_local`, candidate, new `req_local`).  The object removed is the one
whose identifier `req_local` then holds.  The `none` branch is the failed
`DEBUG_ASSERT(obj_to_evict != NULL)`. -/
def S3Random_evict_main_random (confused_copy : Request → CacheObj → Request)
    (s : PlainCache) (rs : Rng) : PlainCache × Rng :=
  if 0 < s.main_random.get_occupied_byte then
    match s.main_random.to_evict (rs 0) with
    | none => (s, rs.tail)
    | some obj_to_evict =>
      let s1 := { s with req_local := confused_copy s.req_local obj_to_evict }
      ({ s1 with main_random := (s1.main_random.remove s1.req_local.obj_id).1 }, rs.tail)
  else (s, rs)

/-- Source function `S3Random_evict`: Main when Main is over its capacity or
Small holds no byte, Small otherwise. -/
def S3Random_evict (confused_copy : Request → CacheObj → Request)
    (s : PlainCache) (rs : Rng) : PlainCache × Rng :=
  if s.main_random.get_occupied_byte > s.main_random.cache_size
      ∨ s.small_random.get_occupied_byte = 0 then
    S3Random_evict_main_random confused_copy s rs
  else S3Random_evict_small_random s rs

/-! ## Reachable states and state predicates -/

/-- States of the frequency variant reachable from a fresh cache of total
capacity `C` by `get` calls, under any random draws. -/
inductive FreqReachableGet (C : Nat) : FreqCache → Prop
  | init : FreqReachableGet C (S3Randomfreq_init C)
  | get (s : FreqCache) (req : Request) (rs : Rng) :
      FreqReachableGet C s → FreqReachableGet C (S3Randomfreq_get s req rs).1

/-- States of the frequency variant reachable from a fresh cache by `get` and
`remove` calls. -/
inductive FreqReachable (C : Nat) : FreqCache → Prop
  | init : FreqReachable C (S3Randomfreq_init C)
  | get (s : FreqCache) (req : Request) (rs : Rng) :
      FreqReachable C s → FreqReachable C (S3Randomfreq_get s req rs).1
  | remove (s : FreqCache) (obj_id : Nat) :
      FreqReachable C s → FreqReachable C (S3Randomfreq_remove s obj_id).1

/-- States of the frequency variant reachable from a fresh cache by
lookup-with-update, `insert` and `evict` calls in any order. -/
inductive FreqReachableOps (C : Nat) : FreqCache → Prop
  | init : FreqReachableOps C (S3Randomfreq_init C)
  | find (s : FreqCache) (req : Request) :
      FreqReachableOps C s → FreqReachableOps C (S3Randomfreq_find s req true).1
  | insert (s : FreqCache) (req : Request) :
      FreqReachableOps C s → FreqReachableOps C (S3Randomfreq_insert s req).1
  | evict (s : FreqCache) (rs : Rng) :
      FreqReachableOps C s → FreqReachableOps C (S3Randomfreq_evict s rs).1

/-- Every identifier is resident in at most one of Small, Ghost and Main, and
at most once there. -/
def FreqCache.exclusive (s : FreqCache) : Prop :=
  (s.small_random.ids ++ s.ghost_random.ids ++ s.main_random.ids).Nodup

/-- The identifier is resident in none of the three tiers. -/
def FreqCache.absent (s : FreqCache) (id : Nat) : Prop :=
  id ∉ s.small_random.ids ∧ id ∉ s.ghost_random.ids ∧ id ∉ s.main_random.ids

/-- Same capacities and threshold: no operation after `init` changes them. -/
def FreqCache.sameConfig (s t : FreqCache) : Prop :=
  t.cache_size = s.cache_size ∧
  t.small_random.cache_size = s.small_random.cache_size ∧
  t.ghost_random.cache_size = s.ghost_random.cache_size ∧
  t.main_random.cache_size = s.main_random.cache_size ∧
  t.threshold = s.threshold

/-- A state predicate kept by each of the four elementary moves of the
eviction routines, whenever the move acts on a candidate the tier really
selected. -/
structure FreqStepInv (Q : FreqCache → Prop) : Prop where
  promote : ∀ (s : FreqCache) (r : Nat) (o : CacheObj), Q s →
    s.small_random.to_evict r = some o → Q (S3Randomfreq_promote s o)
  demote : ∀ (s : FreqCache) (r : Nat) (o : CacheObj) (rs : Rng), Q s →
    s.small_random.to_evict r = some o → Q (S3Randomfreq_demote s o rs).1
  spare : ∀ (s : FreqCache) (r : Nat) (o : CacheObj), Q s →
    s.main_random.to_evict r = some o → 0 < o.freq → Q (S3Randomfreq_spare s r o)
  drop : ∀ (s : FreqCache) (r : Nat) (o : CacheObj), Q s →
    s.main_random.to_evict r = some o → Q (S3Randomfreq_drop s o)

/-- Rounds of `evict` still needed at most: two per object of Small and Main,
one more while Small holds a byte. -/
def evictMeasure (s : FreqCache) : Nat :=
  2 * S3Randomfreq_get_n_obj s + (if 0 < s.small_random.get_occupied_byte then 1 else 0)

/-! ## Concrete states used in examples -/

/-- The stream that always draws 0. -/
def zeroRng : Rng := fun _ => 0

/-- A fresh cache of capacity 100 after three misses of size 5. -/
def threeGets : FreqCache :=
  (S3Randomfreq_get (S3Randomfreq_get (S3Randomfreq_get (S3Randomfreq_init 100)
    ⟨1, 5⟩ zeroRng).1 ⟨2, 5⟩ zeroRng).1 ⟨3, 5⟩ zeroRng).1

/-- An object inserted into a fresh cache of capacity 100 and then hit by four
lookups with update. -/
def fourHits : FreqCache :=
  (S3Randomfreq_find (S3Randomfreq_find (S3Randomfreq_find (S3Randomfreq_find
    (S3Randomfreq_insert (S3Randomfreq_init 100) ⟨1, 5⟩).1
    ⟨1, 5⟩ true).1 ⟨1, 5⟩ true).1 ⟨1, 5⟩ true).1 ⟨1, 5⟩ true).1

/-- A plain-variant cache with capacities 10 (Small), 90 (Main) and 90
(Ghost), all tiers empty.  The capacities are set by hand, as the documented
defaults would give them: `S3Random_init` itself gives Small capacity 0 and
no Ghost tier, so this state and the ones built from it are not reachable
from `S3Random_init`. -/
def plainEmpty : PlainCache :=
  { cache_size := 100
    small_random := { cache_size := 10, objs := [] }
    main_random := { cache_size := 90, objs := [] }
    random_ghost := some { cache_size := 90, objs := [] }
    hit_on_ghost := false
    n_obj_admit_to_small_random := 0
    n_obj_admit_to_main_random := 0
    n_obj_move_to_main := 0
    n_byte_admit_to_small_random := 0
    n_byte_admit_to_main_random := 0
    n_byte_move_to_main := 0
    move_to_main_threshold := 2
    small_random_size_ratio := 1 / 10
    ghost_size_ratio := 9 / 10
    req_local := { obj_id := 0, obj_size := 0 } }

/-- Plain variant: object 1 (size 5) inserted into Small and then demoted by a
Small eviction, so that Ghost holds identifier 1. -/
def plainGhostOne : PlainCache :=
  (S3Random_evict_small_random (S3Random_insert plainEmpty ⟨1, 5⟩).1 zeroRng).1

/-- Plain variant: the state after the lookup of identifier 1 that finds it in
Ghost. -/
def plainGhostHit : PlainCache := (S3Random_find plainGhostOne ⟨1, 5⟩ true).1

/-- Plain variant: object 1 (size 5) inserted into Small and then hit by two
lookups with update. -/
def plainAccessed : PlainCache :=
  (S3Random_find (S3Random_find (S3Random_insert plainEmpty ⟨1, 5⟩).1 ⟨1, 5⟩ true).1
    ⟨1, 5⟩ true).1

/-- Frequency variant: object 1 (size 5) inserted into a fresh cache of
capacity 100 and then hit by two lookups with update. -/
def twoHits : FreqCache :=
  (S3Randomfreq_find (S3Randomfreq_find (S3Randomfreq_insert (S3Randomfreq_init 100) ⟨1, 5⟩).1
    ⟨1, 5⟩ true).1 ⟨1, 5⟩ true).1

/-- Frequency variant: `twoHits` after a Small eviction, which promotes
object 1. -/
def twoHitsPromoted : FreqCache := (S3Randomfreq_evict_small twoHits zeroRng).1

/-- Frequency variant: object 1 (size 5) inserted into a fresh cache of
capacity 100, never accessed. -/
def oneInsert : FreqCache := (S3Randomfreq_insert (S3Randomfreq_init 100) ⟨1, 5⟩).1

/-- Frequency variant: `oneInsert` after a Small eviction, which demotes
object 1 to Ghost. -/
def freqGhostOne : FreqCache := (S3Randomfreq_evict_small oneInsert zeroRng).1

/-- Draws that always pick slot 11. -/
def lastRng : Rng := fun _ => 11

/-- A fresh cache of capacity 100 after a miss on object 1 of size 0 and
misses on objects 2 to 12 of size 9 each: Small holds 99 bytes. -/
def fillSmall : FreqCache :=
  (List.range 11).foldl (fun s i => (S3Randomfreq_get s ⟨i + 2, 9⟩ zeroRng).1)
    (S3Randomfreq_get (S3Randomfreq_init 100) ⟨1, 0⟩ zeroRng).1

/-- The cache `fillSmall` after a miss on object 13 (which demotes object 1 to
Ghost) and a second request for object 1, which is admitted to Main: Main
holds one object of size 0. -/
def zeroSizeInMain : FreqCache :=
  (S3Randomfreq_get (S3Randomfreq_get fillSmall ⟨13, 9⟩ lastRng).1 ⟨1, 0⟩ zeroRng).1

/-- Frequency variant: `twoHitsPromoted` after one more lookup with update of
object 1, which is now in Main with `freq = 1`. -/
def promotedHit : FreqCache := (S3Randomfreq_find twoHitsPromoted ⟨1, 5⟩ true).1

/-- Plain variant: after the Ghost hit on identifier 1, the insert of object 1
with size 10 (Small's capacity): the object is resident in Main only. -/
def plainMainOnly : PlainCache := (S3Random_insert plainGhostHit ⟨1, 10⟩).1

/-- Plain variant: the state after a lookup of identifier 1, now requested
with size 90, that finds it in Ghost. -/
def plainGhostHitBig : PlainCache := (S3Random_find plainGhostOne ⟨1, 90⟩ true).1

/-- States of the frequency variant reachable from a fresh cache of total
capacity `C` by lookup-with-update, `insert` and `evict` calls, together with
the number of lookups made on the way. -/
inductive FreqReachableOpsN (C : Nat) : Nat → FreqCache → Prop
  | init : FreqReachableOpsN C 0 (S3Randomfreq_init C)
  | find (s : FreqCache) (n : Nat) (req : Request) :
      FreqReachableOpsN C n s → FreqReachableOpsN C (n + 1) (S3Randomfreq_find s req true).1
  | insert (s : FreqCache) (n : Nat) (req : Request) :
      FreqReachableOpsN C n s → FreqReachableOpsN C n (S3Randomfreq_insert s req).1
  | evict (s : FreqCache) (n : Nat) (rs : Rng) :
      FreqReachableOpsN C n s → FreqReachableOpsN C n (S3Randomfreq_evict s rs).1

/-- Every object resident in Small or Main has its counter between `lo` and
`hi`. -/
def FreqCache.freq_between (lo hi : Int) (s : FreqCache) : Prop :=
  (∀ o ∈ s.small_random.objs, lo ≤ o.freq ∧ o.freq ≤ hi) ∧
    (∀ o ∈ s.main_random.objs, lo ≤ o.freq ∧ o.freq ≤ hi)

/-- The state after `n` lookups with update of the request (1, 5), starting
from `s`. -/
def hitTimes : Nat → FreqCache → FreqCache
  | 0, s => s
  | n + 1, s => (S3Randomfreq_find (hitTimes n s) { obj_id := 1, obj_size := 5 } true).1

/-- States of the plain variant reachable from a fresh cache of total capacity
`C` by lookups, `insert` and the three eviction routines, under any random
draws and whatever the mistyped copy call of the Main eviction leaves in
`req_local`. -/
inductive PlainReachable (C : Nat) : PlainCache → Prop
  | init : PlainReachable C (S3Random_init C)
  | find (s : PlainCache) (req : Request) (update_cache : Bool) :
      PlainReachable C s → PlainReachable C (S3Random_find s req update_cache).1
  | insert (s : PlainCache) (req : Request) :
      PlainReachable C s → PlainReachable C (S3Random_insert s req).1
  | evict (confused_copy : Request → CacheObj → Request) (s : PlainCache) (rs : Rng) :
      PlainReachable C s → PlainReachable C (S3Random_evict confused_copy s rs).1
  | evict_small (s : PlainCache) (rs : Rng) :
      PlainReachable C s → PlainReachable C (S3Random_evict_small_random s rs).1
  | evict_main (confused_copy : Request → CacheObj → Request) (s : PlainCache) (rs : Rng) :
      PlainReachable C s → PlainReachable C (S3Random_evict_main_random confused_copy s rs).1

/-! ## Lemmas on the single-tier store -/

theorem Tier.find_isSome_iff (t : Tier) (id : Nat) : (t.find id).isSome ↔ id ∈ t.ids := by
  simp [Tier.find, Tier.ids, List.find?_isSome]

theorem Tier.find_eq_none_iff (t : Tier) (id : Nat) : t.find id = none ↔ id ∉ t.ids := by
  simp [Tier.find, Tier.ids, List.find?_eq_none]

theorem Tier.find_some (t : Tier) (id : Nat) (o : CacheObj) (h : t.find id = some o) :
    o ∈ t.objs ∧ o.obj_id = id := by
  unfold Tier.find at h
  exact ⟨List.mem_of_find?_eq_some h, by simpa using List.find?_some h⟩

theorem Tier.remove_fst (t : Tier) (id : Nat) :
    (t.remove id).1 = { t with objs := t.objs.eraseP (fun o => decide (o.obj_id = id)) } := by
  unfold Tier.remove
  split
  · rfl
  · rename_i h
    have h2 : t.find id = none := by simpa using h
    have h3 : ∀ a ∈ t.objs, ¬ (decide (a.obj_id = id)) = true := by
      simpa [Tier.find, List.find?_eq_none] using h2
    simp [List.eraseP_of_forall_not h3]

theorem Tier.remove_snd (t : Tier) (id : Nat) : (t.remove id).2 = true ↔ id ∈ t.ids := by
  unfold Tier.remove
  split
  · rename_i h; simpa [Tier.find_isSome_iff] using h
  · rename_i h; simpa [Tier.find_isSome_iff] using h

theorem Tier.remove_cache_size (t : Tier) (id : Nat) :
    (t.remove id).1.cache_size = t.cache_size := by
  rw [Tier.remove_fst]

theorem Tier.remove_objs_sublist (t : Tier) (id : Nat) :
    (t.remove id).1.objs.Sublist t.objs := by
  rw [Tier.remove_fst]; exact List.eraseP_sublist _

theorem Tier.remove_ids_sublist (t : Tier) (id : Nat) :
    (t.remove id).1.ids.Sublist t.ids :=
  (Tier.remove_objs_sublist t id).map _

theorem Tier.remove_of_not_mem (t : Tier) (id : Nat) (h : id ∉ t.ids) :
    (t.remove id).1 = t := by
  unfold Tier.remove
  have : ¬ (t.find id).isSome := by rw [Tier.find_isSome_iff]; exact h
  simp [this]

theorem eraseP_ids_not_mem (id : Nat) (l : List CacheObj)
    (h : (l.map CacheObj.obj_id).Nodup) :
    id ∉ (l.eraseP (fun o => decide (o.obj_id = id))).map CacheObj.obj_id := by
  induction l with
  | nil => simp
  | cons a l ih =>
    simp only [List.map_cons, List.nodup_cons] at h
    by_cases ha : a.obj_id = id
    · rw [List.eraseP_cons_of_pos (by simpa using ha)]
      rw [← ha]; exact h.1
    · rw [List.eraseP_cons_of_neg (by simpa using ha)]
      simp only [List.map_cons, List.mem_cons, not_or]
      exact ⟨fun e => ha e.symm, ih h.2⟩

theorem eraseP_ids_mem_of_ne (id id2 : Nat) (l : List CacheObj) (hne : id2 ≠ id) :
    id2 ∈ (l.eraseP (fun o => decide (o.obj_id = id))).map CacheObj.obj_id ↔
      id2 ∈ l.map CacheObj.obj_id := by
  induction l with
  | nil => simp
  | cons a l ih =>
    by_cases ha : a.obj_id = id
    · rw [List.eraseP_cons_of_pos (by simpa using ha)]
      simp only [List.map_cons, List.mem_cons]
      constructor
      · exact fun h => Or.inr h
      · rintro (h | h)
        · exact absurd (h.trans ha) hne
        · exact h
    · rw [List.eraseP_cons_of_neg (by simpa using ha)]
      simp only [List.map_cons, List.mem_cons, ih]

theorem Tier.remove_not_mem (t : Tier) (id : Nat) (h : t.ids.Nodup) :
    id ∉ (t.remove id).1.ids := by
  rw [Tier.remove_fst]; exact eraseP_ids_not_mem id t.objs h

theorem Tier.remove_mem_of_ne (t : Tier) (id id2 : Nat) (hne : id2 ≠ id) :
    id2 ∈ (t.remove id).1.ids ↔ id2 ∈ t.ids := by
  rw [Tier.remove_fst]; exact eraseP_ids_mem_of_ne id id2 t.objs hne

theorem Tier.remove_length (t : Tier) (id : Nat) (h : id ∈ t.ids) :
    (t.remove id).1.objs.length + 1 = t.objs.length := by
  rw [Tier.remove_fst]
  obtain ⟨a, ha, rfl⟩ := List.mem_map.1 h
  exact List.length_eraseP_add_one ha (by simp)

theorem Tier.remove_occupied_le (t : Tier) (id : Nat) :
    (t.remove id).1.get_occupied_byte ≤ t.get_occupied_byte := by
  unfold Tier.get_occupied_byte
  exact List.Sublist.sum_le_sum ((Tier.remove_objs_sublist t id).map _) (fun _ _ => Nat.zero_le _)

theorem updateFirst_map (g : CacheObj → Nat) (id : Nat) (f : CacheObj → CacheObj)
    (hf : ∀ o, g (f o) = g o) (l : List CacheObj) :
    (updateFirst id f l).map g = l.map g := by
  induction l with
  | nil => rfl
  | cons a l ih =>
    unfold updateFirst
    split
    · simp [hf]
    · simp [ih]

theorem updateFirst_length (id : Nat) (f : CacheObj → CacheObj) (l : List CacheObj) :
    (updateFirst id f l).length = l.length := by
  induction l with
  | nil => rfl
  | cons a l ih =>
    unfold updateFirst
    split
    · simp
    · simp [ih]

theorem updateFirst_forall (P : CacheObj → Prop) (id : Nat) (f : CacheObj → CacheObj)
    (hf : ∀ o, P o → P (f o)) (l : List CacheObj) (h : ∀ o ∈ l, P o) :
    ∀ o ∈ updateFirst id f l, P o := by
  induction l with
  | nil => simp [updateFirst]
  | cons a l ih =>
    unfold updateFirst
    split
    · intro o ho
      rcases List.mem_cons.1 ho with rfl | ho
      · exact hf a (h a (List.mem_cons_self _ _))
      · exact h o (List.mem_cons_of_mem _ ho)
    · intro o ho
      rcases List.mem_cons.1 ho with rfl | ho
      · exact h _ (List.mem_cons_self _ _)
      · exact ih (fun o ho => h o (List.mem_cons_of_mem _ ho)) o ho

theorem Tier.update_ids (t : Tier) (id : Nat) (f : CacheObj → CacheObj)
    (hf : ∀ o, (f o).obj_id = o.obj_id) : (t.update id f).ids = t.ids :=
  updateFirst_map CacheObj.obj_id id f hf t.objs

theorem Tier.update_occupied (t : Tier) (id : Nat) (f : CacheObj → CacheObj)
    (hf : ∀ o, (f o).obj_size = o.obj_size) :
    (t.update id f).get_occupied_byte = t.get_occupied_byte := by
  unfold Tier.get_occupied_byte Tier.update
  simp only
  rw [updateFirst_map CacheObj.obj_size id f hf t.objs]

theorem Tier.to_evict_some (t : Tier) (r : Nat) (h : 0 < t.get_occupied_byte) :
    ∃ o, t.to_evict r = some o := by
  have hne : 0 < t.objs.length := by
    rcases Nat.eq_zero_or_pos t.objs.length with h0 | h0
    · rw [List.length_eq_zero] at h0
      simp [Tier.get_occupied_byte, h0] at h
    · exact h0
  have hlt : t.slot r < t.objs.length := Nat.mod_lt _ hne
  exact ⟨t.objs[t.slot r], by simp [Tier.to_evict, List.getElem?_eq_getElem hlt]⟩

theorem Tier.to_evict_mem (t : Tier) (r : Nat) (o : CacheObj) (h : t.to_evict r = some o) :
    o ∈ t.objs := by
  unfold Tier.to_evict at h
  obtain ⟨hlt, rfl⟩ := List.getElem?_eq_some.1 h
  exact List.getElem_mem _

theorem Tier.to_evict_mem_ids (t : Tier) (r : Nat) (o : CacheObj) (h : t.to_evict r = some o) :
    o.obj_id ∈ t.ids :=
  List.mem_map_of_mem _ (Tier.to_evict_mem t r o h)

theorem Tier.set_slot_map (g : CacheObj → Nat) (t : Tier) (r : Nat) (o o2 : CacheObj)
    (h : t.to_evict r = some o) (hg : g o2 = g o) :
    (t.set_slot r o2).objs.map g = t.objs.map g := by
  unfold Tier.to_evict at h
  obtain ⟨hlt, ho⟩ := List.getElem?_eq_some.1 h
  unfold Tier.set_slot
  simp only [List.map_set, hg, ← ho]
  apply List.ext_getElem?
  intro i
  rw [List.getElem?_set]
  split
  · rename_i hi
    subst hi
    simp [hlt]
  · rfl

theorem Tier.evict_objs_sublist (t : Tier) (r : Nat) : (t.evict r).objs.Sublist t.objs :=
  List.eraseIdx_sublist _ _

theorem Tier.evict_length (t : Tier) (r : Nat) (h : t.objs ≠ []) :
    (t.evict r).objs.length + 1 = t.objs.length := by
  have hne : 0 < t.objs.length := List.length_pos.2 h
  exact List.length_eraseIdx_add_one (Nat.mod_lt _ hne)

/-! ## The tier-level `get` (Ghost bookkeeping) -/

theorem Tier.make_room_cache_size (fuel : Nat) (t : Tier) (size : Nat) (rs : Rng) :
    (Tier.make_room fuel t size rs).1.cache_size = t.cache_size := by
  induction fuel generalizing t rs with
  | zero => rfl
  | succ n ih =>
    unfold Tier.make_room
    split
    · rw [ih]; rfl
    · rfl

theorem Tier.make_room_sublist (fuel : Nat) (t : Tier) (size : Nat) (rs : Rng) :
    (Tier.make_room fuel t size rs).1.objs.Sublist t.objs := by
  induction fuel generalizing t rs with
  | zero => exact List.Sublist.refl _
  | succ n ih =>
    unfold Tier.make_room
    split
    · exact (ih _ _).trans (Tier.evict_objs_sublist t _)
    · exact List.Sublist.refl _

/-- The tier-level eviction loop ends with room for the request whenever the
request passes the gate. -/
theorem Tier.make_room_fits (fuel : Nat) (t : Tier) (size : Nat) (rs : Rng)
    (hfuel : t.objs.length ≤ fuel) (hsize : size ≤ t.cache_size) :
    (Tier.make_room fuel t size rs).1.get_occupied_byte + size ≤ t.cache_size := by
  induction fuel generalizing t rs with
  | zero =>
    have : t.objs = [] := List.length_eq_zero.1 (Nat.le_zero.1 hfuel)
    simp [Tier.make_room, Tier.get_occupied_byte, this, hsize]
  | succ n ih =>
    unfold Tier.make_room
    split
    · rename_i hgt
      have hne : t.objs ≠ [] := by
        intro h0
        simp [Tier.get_occupied_byte, h0] at hgt
        omega
      have hlen := Tier.evict_length t (rs 0) hne
      have := ih (t.evict (rs 0)) rs.tail (by omega) hsize
      exact this
    · rename_i hgt
      simp only
      omega

theorem Tier.get_cache_size (t : Tier) (req : Request) (rs : Rng) :
    (t.get req rs).1.cache_size = t.cache_size := by
  unfold Tier.get
  split
  · rfl
  · split
    · simp [Tier.insert, Tier.make_room_cache_size]
    · rfl

theorem Tier.get_mem_ids (t : Tier) (req : Request) (rs : Rng) (id : Nat)
    (h : id ∈ (t.get req rs).1.ids) : id ∈ t.ids ∨ id = req.obj_id := by
  unfold Tier.get at h
  split at h
  · exact Or.inl h
  · split at h
    · simp only [Tier.insert, Tier.ids, List.map_cons, List.mem_cons, CacheObj.ofRequest] at h
      rcases h with h | h
      · exact Or.inr h
      · exact Or.inl (((Tier.make_room_sublist _ t _ rs).map _).subset h)
    · exact Or.inl h

theorem Tier.get_nodup (t : Tier) (req : Request) (rs : Rng) (h : t.ids.Nodup) :
    (t.get req rs).1.ids.Nodup := by
  unfold Tier.get
  split
  · exact h
  · rename_i hfind
    split
    · have hsub : (Tier.make_room t.objs.length t req.obj_size rs).1.ids.Sublist t.ids :=
        (Tier.make_room_sublist _ t _ rs).map _
      have hnot : req.obj_id ∉ t.ids := by
        rw [← Tier.find_isSome_iff]; exact hfind
      simp only [Tier.insert, Tier.ids, List.map_cons, List.nodup_cons, CacheObj.ofRequest]
      exact ⟨fun hm => hnot (hsub.subset hm), h.sublist hsub⟩
    · exact h

/-- After the tier-level `get` the identifier is resident whenever it was
resident before or the request passes the gate. -/
theorem Tier.get_resident (t : Tier) (req : Request) (rs : Rng)
    (h : req.obj_id ∈ t.ids ∨ req.obj_size ≤ t.cache_size) :
    req.obj_id ∈ (t.get req rs).1.ids := by
  unfold Tier.get
  split
  · rename_i hfind
    exact (Tier.find_isSome_iff t _).1 hfind
  · rename_i hfind
    have hnot : req.obj_id ∉ t.ids := by
      rw [← Tier.find_isSome_iff]; exact hfind
    have hsz : req.obj_size ≤ t.cache_size := h.resolve_left hnot
    simp [Tier.can_insert, hsz, Tier.insert, Tier.ids, CacheObj.ofRequest]

/-! ## Loop principles of the frequency variant -/

theorem S3Randomfreq_evict_small_loop_inv (Q : FreqCache → Prop) (hQ : FreqStepInv Q)
    (fuel : Nat) (s : FreqCache) (rs : Rng) (h : Q s) :
    Q (S3Randomfreq_evict_small_loop fuel s rs).1 := by
  induction fuel generalizing s rs with
  | zero => exact h
  | succ n ih =>
    unfold S3Randomfreq_evict_small_loop
    split
    · split
      · exact h
      · rename_i o ho
        split
        · exact ih _ _ (hQ.promote s _ o h ho)
        · exact hQ.demote s _ o _ h ho
    · exact h

theorem S3Randomfreq_evict_main_loop_inv (Q : FreqCache → Prop) (hQ : FreqStepInv Q)
    (fuel : Nat) (s : FreqCache) (rs : Rng) (h : Q s) :
    Q (S3Randomfreq_evict_main_loop fuel s rs).1 := by
  induction fuel generalizing s rs with
  | zero => exact h
  | succ n ih =>
    unfold S3Randomfreq_evict_main_loop
    split
    · split
      · exact h
      · rename_i o ho
        split
        · rename_i hf
          exact ih _ _ (hQ.spare s _ o h ho hf)
        · exact hQ.drop s _ o h ho
    · exact h

theorem S3Randomfreq_evict_inv (Q : FreqCache → Prop) (hQ : FreqStepInv Q)
    (s : FreqCache) (rs : Rng) (h : Q s) : Q (S3Randomfreq_evict s rs).1 := by
  unfold S3Randomfreq_evict
  split
  · exact S3Randomfreq_evict_main_loop_inv Q hQ _ s rs h
  · exact S3Randomfreq_evict_small_loop_inv Q hQ _ s rs h

theorem S3Randomfreq_make_room_inv (Q : FreqCache → Prop) (hQ : FreqStepInv Q)
    (fuel : Nat) (s : FreqCache) (req : Request) (rs : Rng) (h : Q s) :
    Q (S3Randomfreq_make_room fuel s req rs).1 := by
  induction fuel generalizing s rs with
  | zero => exact h
  | succ n ih =>
    unfold S3Randomfreq_make_room
    split
    · exact ih _ _ (S3Randomfreq_evict_inv Q hQ s rs h)
    · exact h

/-! ## Double-precision products -/

theorem excess_bits_of_lt (fuel p : Nat) (h : p < 2 ^ 53) : excess_bits fuel p = 0 := by
  cases fuel with
  | zero => rfl
  | succ n =>
    unfold excess_bits
    rw [if_pos h]

theorem excess_bits_lower (fuel p : Nat) (h : 0 < excess_bits fuel p) :
    2 ^ (excess_bits fuel p + 52) ≤ p := by
  induction fuel generalizing p with
  | zero => simp [excess_bits] at h
  | succ n ih =>
    unfold excess_bits at h ⊢
    split at h
    · simp at h
    · rename_i hp
      rw [if_neg hp]
      have hp2 : 2 ^ 53 ≤ p := Nat.le_of_not_lt hp
      rcases Nat.eq_zero_or_pos (excess_bits n (p / 2)) with h0 | h0
      · rw [h0]; exact hp2
      · have := ih (p / 2) h0
        have e : 2 ^ (excess_bits n (p / 2) + 1 + 52) = 2 * 2 ^ (excess_bits n (p / 2) + 52) := by
          rw [show excess_bits n (p / 2) + 1 + 52 = (excess_bits n (p / 2) + 52) + 1 by omega,
            pow_succ]
          omega
        rw [e]
        omega

theorem excess_bits_upper (fuel p : Nat) (h : p < 2 ^ (53 + fuel)) :
    p < 2 ^ (53 + excess_bits fuel p) := by
  induction fuel generalizing p with
  | zero => simpa [excess_bits] using h
  | succ n ih =>
    unfold excess_bits
    split
    · rename_i hp; simpa using hp
    · have h2 : p / 2 < 2 ^ (53 + n) := by
        rw [show 53 + (n + 1) = (53 + n) + 1 by omega, pow_succ] at h
        omega
      have := ih (p / 2) h2
      rw [show 53 + (excess_bits n (p / 2) + 1) = (53 + excess_bits n (p / 2)) + 1 by omega,
        pow_succ]
      omega

theorem round53_of_lt (p : Nat) (h : p < 2 ^ 53) : round53 p = (p, 0) := by
  unfold round53
  simp [excess_bits_of_lt p p h]
  omega

theorem round53_snd (p : Nat) : (round53 p).2 = excess_bits p p := by
  unfold round53
  simp only
  split <;> rfl

theorem round53_cases (p : Nat) :
    round53 p = (p / 2 ^ excess_bits p p, excess_bits p p) ∨
      (round53 p = (p / 2 ^ excess_bits p p + 1, excess_bits p p) ∧
        2 ^ excess_bits p p ≤ 2 * (p % 2 ^ excess_bits p p)) := by
  unfold round53
  simp only
  split
  · rename_i hc
    right
    refine ⟨rfl, ?_⟩
    rcases hc with hc | hc
    · omega
    · omega
  · left; rfl

theorem round53_value (p : Nat) :
    (round53 p).1 * 2 ^ (round53 p).2 ≤ 2 * p ∧
      2 ^ 53 * ((round53 p).1 * 2 ^ (round53 p).2) ≤ (2 ^ 53 + 1) * p ∧
      p / 2 ^ (round53 p).2 * 2 ^ (round53 p).2 ≤ (round53 p).1 * 2 ^ (round53 p).2 := by
  have hlow := excess_bits_lower p p
  have hdm := Nat.div_add_mod p (2 ^ excess_bits p p)
  have hrem := Nat.mod_lt p (Nat.two_pow_pos (excess_bits p p))
  have hpow : 2 ^ (excess_bits p p + 52) = 2 ^ excess_bits p p * 2 ^ 52 := pow_add _ _ _
  have h1 : 2 ^ excess_bits p p = 1 ∨ 0 < excess_bits p p := by
    rcases Nat.eq_zero_or_pos (excess_bits p p) with h0 | h0
    · left; rw [h0]; rfl
    · right; exact h0
  have hcomm : 2 ^ excess_bits p p * (p / 2 ^ excess_bits p p)
      = p / 2 ^ excess_bits p p * 2 ^ excess_bits p p := Nat.mul_comm _ _
  rcases round53_cases p with hc | ⟨hc, hhalf⟩
  · rw [hc]
    simp only
    generalize p / 2 ^ excess_bits p p * 2 ^ excess_bits p p = Y at *
    refine ⟨by omega, by omega, le_refl _⟩
  · rw [hc]
    simp only
    rw [Nat.add_mul, Nat.one_mul]
    have hpos : 0 < excess_bits p p := by
      rcases h1 with h1 | h1
      · rw [h1] at hhalf hrem; omega
      · exact h1
    have := hlow hpos
    generalize p / 2 ^ excess_bits p p * 2 ^ excess_bits p p = Y at *
    generalize 2 ^ excess_bits p p = X at *
    refine ⟨by omega, by omega, by omega⟩

theorem round53_lattice (p t K : Nat) (hK : (round53 p).2 ≤ K) (ht : t * 2 ^ K ≤ p) :
    t * 2 ^ K ≤ (round53 p).1 * 2 ^ (round53 p).2 := by
  refine le_trans ?_ (round53_value p).2.2
  have e : 2 ^ K = 2 ^ (K - (round53 p).2) * 2 ^ (round53 p).2 := by
    rw [← pow_add]; congr 1; omega
  rw [e, ← Nat.mul_assoc] at ht ⊢
  exact Nat.mul_le_mul_right _ ((Nat.le_div_iff_mul_le (Nat.two_pow_pos _)).2 ht)

theorem round53_snd_le (p K : Nat) (h : p < 2 ^ (53 + K)) : (round53 p).2 ≤ K := by
  rw [round53_snd]
  rcases Nat.eq_zero_or_pos (excess_bits p p) with h0 | h0
  · omega
  · have h1 := excess_bits_lower p p h0
    have h2 : 2 ^ (excess_bits p p + 52) < 2 ^ (53 + K) := lt_of_le_of_lt h1 h
    have := (Nat.pow_lt_pow_iff_right (by norm_num : 1 < 2)).1 h2
    omega

/-- The truncated product never exceeds the integer factor when the double
factor is at most one quarter. -/
theorem double_mul_trunc_le (C M K : Nat) (hM : 4 * M ≤ 2 ^ K) :
    double_mul_trunc C M K ≤ C := by
  unfold double_mul_trunc
  simp only
  apply Nat.div_le_of_le_mul
  have h1 := (round53_value C).1
  have h2 := (round53_value ((round53 C).1 * M)).1
  rw [pow_add, ← Nat.mul_assoc]
  calc (round53 ((round53 C).1 * M)).1 * 2 ^ (round53 ((round53 C).1 * M)).2 * 2 ^ (round53 C).2
      ≤ 2 * ((round53 C).1 * M) * 2 ^ (round53 C).2 := Nat.mul_le_mul_right _ h2
    _ = 2 * M * ((round53 C).1 * 2 ^ (round53 C).2) := by ring
    _ ≤ 2 * M * (2 * C) := Nat.mul_le_mul_left _ h1
    _ = 4 * M * C := by ring
    _ ≤ 2 ^ K * C := Nat.mul_le_mul_right _ hM

/-- Below `2 ^ 49` the double product with 0.1 truncates to the integer
quotient by 10. -/
theorem double_mul_trunc_tenth (C : Nat) (h : C < 2 ^ 49) :
    double_mul_trunc C 3602879701896397 55 = C / 10 := by
  unfold double_mul_trunc
  rw [round53_of_lt C (by omega)]
  simp only [Nat.add_zero]
  have hv := (round53_value (C * 3602879701896397)).2.1
  have hK : (round53 (C * 3602879701896397)).2 ≤ 55 :=
    round53_snd_le _ 55 (by norm_num; omega)
  have hl := round53_lattice (C * 3602879701896397) (C / 10) 55 hK (by norm_num; omega)
  apply Nat.div_eq_of_lt_le hl
  norm_num at hv hl ⊢
  omega

/-- Below `2 ^ 49` the double product with 0.9 truncates to the integer
quotient of `9 * C` by 10. -/
theorem double_mul_trunc_nine_tenths (C : Nat) (h : C < 2 ^ 49) :
    double_mul_trunc C 8106479329266893 53 = C * 9 / 10 := by
  unfold double_mul_trunc
  rw [round53_of_lt C (by omega)]
  simp only [Nat.add_zero]
  have hv := (round53_value (C * 8106479329266893)).2.1
  have hK : (round53 (C * 8106479329266893)).2 ≤ 53 :=
    round53_snd_le _ 53 (by norm_num; omega)
  have hl := round53_lattice (C * 8106479329266893) (C * 9 / 10) 53 hK (by norm_num; omega)
  apply Nat.div_eq_of_lt_le hl
  norm_num at hv hl ⊢
  omega

/-! ## Capacities and threshold never change -/

theorem FreqCache.sameConfig_refl (s : FreqCache) : s.sameConfig s :=
  ⟨rfl, rfl, rfl, rfl, rfl⟩

theorem sameConfig_step (s0 : FreqCache) : FreqStepInv (fun s => s0.sameConfig s) where
  promote := by
    intro s r o h _
    obtain ⟨h1, h2, h3, h4, h5⟩ := h
    refine ⟨h1, ?_, h3, ?_, h5⟩
    · simpa [S3Randomfreq_promote, Tier.remove_cache_size] using h2
    · simpa [S3Randomfreq_promote, Tier.update, Tier.insert] using h4
  demote := by
    intro s r o rs h _
    obtain ⟨h1, h2, h3, h4, h5⟩ := h
    refine ⟨h1, ?_, ?_, h4, h5⟩
    · simpa [S3Randomfreq_demote, Tier.remove_cache_size] using h2
    · simpa [S3Randomfreq_demote, Tier.get_cache_size] using h3
  spare := by
    intro s r o h _ _
    obtain ⟨h1, h2, h3, h4, h5⟩ := h
    exact ⟨h1, h2, h3, by simpa [S3Randomfreq_spare, Tier.set_slot] using h4, h5⟩
  drop := by
    intro s r o h _
    obtain ⟨h1, h2, h3, h4, h5⟩ := h
    exact ⟨h1, h2, h3, by simpa [S3Randomfreq_drop, Tier.remove_cache_size] using h4, h5⟩

theorem S3Randomfreq_find_sameConfig (s : FreqCache) (req : Request) (u : Bool) :
    s.sameConfig (S3Randomfreq_find s req u).1 := by
  unfold S3Randomfreq_find
  cases u
  · simp only [Bool.not_false, if_true]
    split
    · exact s.sameConfig_refl
    · split <;> exact s.sameConfig_refl
  · simp only [Bool.not_true, Bool.false_eq_true, if_false]
    split
    · exact ⟨rfl, rfl, rfl, rfl, rfl⟩
    · split
      · split <;> exact ⟨rfl, rfl, by simp [Tier.remove_cache_size], rfl, rfl⟩
      · split <;> exact ⟨rfl, rfl, by simp [Tier.remove_cache_size], rfl, rfl⟩

theorem S3Randomfreq_insert_sameConfig (s : FreqCache) (req : Request) :
    s.sameConfig (S3Randomfreq_insert s req).1 := by
  unfold S3Randomfreq_insert
  split
  · simp only
    split <;> exact ⟨rfl, rfl, rfl, rfl, rfl⟩
  · split <;> exact ⟨rfl, rfl, rfl, rfl, rfl⟩

/-! ## Main eviction: the second-chance loop ends and removes one object -/

theorem sum_map_set_lt (g : CacheObj → Nat) (l : List CacheObj) (i : Nat) (o o2 : CacheObj)
    (h : l[i]? = some o) (hg : g o2 < g o) :
    ((l.set i o2).map g).sum < (l.map g).sum := by
  induction l generalizing i with
  | nil => simp at h
  | cons a l ih =>
    cases i with
    | zero =>
      simp only [List.getElem?_cons_zero, Option.some.injEq] at h
      subst h
      simpa using hg
    | succ j =>
      simp only [List.getElem?_cons_succ] at h
      have := ih j h
      simpa using this

theorem S3Randomfreq_spare_budget (s : FreqCache) (r : Nat) (o : CacheObj)
    (ho : s.main_random.to_evict r = some o) (hf : 0 < o.freq) :
    spareBudget (S3Randomfreq_spare s r o).main_random.objs < spareBudget s.main_random.objs := by
  unfold spareBudget S3Randomfreq_spare Tier.set_slot
  apply sum_map_set_lt (fun o => o.freq.toNat) _ _ o _ ho
  simp only
  omega

theorem S3Randomfreq_spare_main_sizes (s : FreqCache) (r : Nat) (o : CacheObj)
    (ho : s.main_random.to_evict r = some o) :
    (S3Randomfreq_spare s r o).main_random.objs.map CacheObj.obj_size
      = s.main_random.objs.map CacheObj.obj_size :=
  Tier.set_slot_map CacheObj.obj_size s.main_random r o _ ho rfl

theorem S3Randomfreq_spare_main_ids (s : FreqCache) (r : Nat) (o : CacheObj)
    (ho : s.main_random.to_evict r = some o) :
    (S3Randomfreq_spare s r o).main_random.ids = s.main_random.ids :=
  Tier.set_slot_map CacheObj.obj_id s.main_random r o _ ho rfl

theorem S3Randomfreq_spare_main_occupied (s : FreqCache) (r : Nat) (o : CacheObj)
    (ho : s.main_random.to_evict r = some o) :
    (S3Randomfreq_spare s r o).main_random.get_occupied_byte
      = s.main_random.get_occupied_byte := by
  unfold Tier.get_occupied_byte
  rw [S3Randomfreq_spare_main_sizes s r o ho]

theorem S3Randomfreq_spare_main_length (s : FreqCache) (r : Nat) (o : CacheObj) :
    (S3Randomfreq_spare s r o).main_random.objs.length = s.main_random.objs.length := by
  simp [S3Randomfreq_spare, Tier.set_slot]

/-- More fuel than the budget never changes the result of the second-chance
loop: within the budget the loop has left through its own exit. -/
theorem S3Randomfreq_evict_main_loop_fuel (n m : Nat) (s : FreqCache) (rs : Rng)
    (hn : spareBudget s.main_random.objs < n) (hm : spareBudget s.main_random.objs < m) :
    S3Randomfreq_evict_main_loop n s rs = S3Randomfreq_evict_main_loop m s rs := by
  induction n generalizing m s rs with
  | zero => omega
  | succ k ih =>
    cases m with
    | zero => omega
    | succ j =>
      unfold S3Randomfreq_evict_main_loop
      split
      · split
        · rfl
        · rename_i o ho
          split
          · rename_i hf
            have hb := S3Randomfreq_spare_budget s (rs 0) o ho hf
            exact ih j _ _ (by omega) (by omega)
          · rfl
      · rfl

/-- With bytes in Main, the second-chance loop removes exactly one object of
Main and touches neither Small nor Ghost. -/
theorem S3Randomfreq_evict_main_loop_removes (fuel : Nat) (s : FreqCache) (rs : Rng)
    (hfuel : spareBudget s.main_random.objs < fuel)
    (hocc : 0 < s.main_random.get_occupied_byte) :
    (S3Randomfreq_evict_main_loop fuel s rs).1.main_random.objs.length + 1
        = s.main_random.objs.length ∧
      (S3Randomfreq_evict_main_loop fuel s rs).1.small_random = s.small_random ∧
      (S3Randomfreq_evict_main_loop fuel s rs).1.ghost_random = s.ghost_random := by
  induction fuel generalizing s rs with
  | zero => omega
  | succ k ih =>
    unfold S3Randomfreq_evict_main_loop
    rw [if_pos hocc]
    obtain ⟨o, ho⟩ := Tier.to_evict_some s.main_random (rs 0) hocc
    rw [ho]
    simp only
    split
    · rename_i hf
      have hb := S3Randomfreq_spare_budget s (rs 0) o ho hf
      have hocc2 : 0 < (S3Randomfreq_spare s (rs 0) o).main_random.get_occupied_byte := by
        rw [S3Randomfreq_spare_main_occupied s (rs 0) o ho]; exact hocc
      have := ih (S3Randomfreq_spare s (rs 0) o) rs.tail (by omega) hocc2
      rw [S3Randomfreq_spare_main_length] at this
      exact ⟨this.1, this.2.1, this.2.2⟩
    · refine ⟨?_, rfl, rfl⟩
      exact Tier.remove_length s.main_random o.obj_id (Tier.to_evict_mem_ids _ _ _ ho)

/-! ## Small eviction: every round takes one object out of Small -/

theorem S3Randomfreq_promote_lengths (s : FreqCache) (r : Nat) (o : CacheObj)
    (ho : s.small_random.to_evict r = some o) :
    (S3Randomfreq_promote s o).small_random.objs.length + 1 = s.small_random.objs.length ∧
      (S3Randomfreq_promote s o).main_random.objs.length = s.main_random.objs.length + 1 := by
  constructor
  · exact Tier.remove_length s.small_random o.obj_id (Tier.to_evict_mem_ids _ _ _ ho)
  · simp [S3Randomfreq_promote, Tier.update, Tier.insert, updateFirst_length]

theorem S3Randomfreq_demote_lengths (s : FreqCache) (r : Nat) (o : CacheObj) (rs : Rng)
    (ho : s.small_random.to_evict r = some o) :
    (S3Randomfreq_demote s o rs).1.small_random.objs.length + 1 = s.small_random.objs.length ∧
      (S3Randomfreq_demote s o rs).1.main_random = s.main_random := by
  constructor
  · exact Tier.remove_length s.small_random o.obj_id (Tier.to_evict_mem_ids _ _ _ ho)
  · rfl

/-- The Small sweep either takes one object out of Small and Main together (a
demotion), or keeps their number and leaves Small without a byte. -/
theorem S3Randomfreq_evict_small_loop_progress (fuel : Nat) (s : FreqCache) (rs : Rng)
    (hfuel : s.small_random.objs.length ≤ fuel) :
    S3Randomfreq_get_n_obj (S3Randomfreq_evict_small_loop fuel s rs).1 + 1
        = S3Randomfreq_get_n_obj s ∨
      (S3Randomfreq_get_n_obj (S3Randomfreq_evict_small_loop fuel s rs).1
          = S3Randomfreq_get_n_obj s ∧
        (S3Randomfreq_evict_small_loop fuel s rs).1.small_random.get_occupied_byte = 0) := by
  induction fuel generalizing s rs with
  | zero =>
    right
    have : s.small_random.objs = [] := List.length_eq_zero.1 (Nat.le_zero.1 hfuel)
    simp [S3Randomfreq_evict_small_loop, Tier.get_occupied_byte, this]
  | succ k ih =>
    unfold S3Randomfreq_evict_small_loop
    split
    · rename_i hocc
      obtain ⟨o, ho⟩ := Tier.to_evict_some s.small_random (rs 0) hocc
      rw [ho]
      simp only
      split
      · have hl := S3Randomfreq_promote_lengths s (rs 0) o ho
        have hn : S3Randomfreq_get_n_obj (S3Randomfreq_promote s o)
            = S3Randomfreq_get_n_obj s := by
          unfold S3Randomfreq_get_n_obj Tier.get_n_obj
          omega
        have := ih (S3Randomfreq_promote s o) rs.tail (by omega)
        rw [hn] at this
        exact this
      · left
        have hl := S3Randomfreq_demote_lengths s (rs 0) o rs.tail ho
        unfold S3Randomfreq_get_n_obj Tier.get_n_obj
        rw [hl.2]
        omega
    · rename_i hocc
      right
      exact ⟨rfl, by simpa using hocc⟩

/-! ## The eviction loop of `get` ends with room for the request -/

theorem S3Randomfreq_evict_sameConfig (s : FreqCache) (rs : Rng) :
    s.sameConfig (S3Randomfreq_evict s rs).1 :=
  S3Randomfreq_evict_inv _ (sameConfig_step s) s rs s.sameConfig_refl

theorem S3Randomfreq_make_room_sameConfig (fuel : Nat) (s : FreqCache) (req : Request)
    (rs : Rng) : s.sameConfig (S3Randomfreq_make_room fuel s req rs).1 :=
  S3Randomfreq_make_room_inv _ (sameConfig_step s) fuel s req rs s.sameConfig_refl

/-- Every `evict` on a cache that holds a byte lowers the measure. -/
theorem S3Randomfreq_evict_progress (s : FreqCache) (rs : Rng)
    (hocc : 0 < S3Randomfreq_get_occupied_byte s) :
    evictMeasure (S3Randomfreq_evict s rs).1 < evictMeasure s := by
  unfold S3Randomfreq_evict
  split
  · rename_i hc
    have hm : 0 < s.main_random.get_occupied_byte := by
      unfold S3Randomfreq_get_occupied_byte at hocc
      rcases hc with hc | hc <;> omega
    obtain ⟨h1, h2, _⟩ := S3Randomfreq_evict_main_loop_removes
      (spareBudget s.main_random.objs + 1) s rs (by omega) hm
    unfold S3Randomfreq_evict_main evictMeasure S3Randomfreq_get_n_obj Tier.get_n_obj
    rw [h2]
    omega
  · rename_i hc
    have hs : 0 < s.small_random.get_occupied_byte := by omega
    unfold S3Randomfreq_evict_small
    rcases S3Randomfreq_evict_small_loop_progress s.small_random.objs.length s rs le_rfl
      with h | ⟨h, h0⟩
    · unfold evictMeasure
      rw [if_pos hs]
      split <;> omega
    · unfold evictMeasure
      rw [if_pos hs, h0, h]
      simp

theorem S3Randomfreq_make_room_fits (fuel : Nat) (s : FreqCache) (req : Request) (rs : Rng)
    (hfuel : evictMeasure s ≤ fuel) (hsize : req.obj_size ≤ s.cache_size) :
    S3Randomfreq_get_occupied_byte (S3Randomfreq_make_room fuel s req rs).1 + req.obj_size
      ≤ s.cache_size := by
  induction fuel generalizing s rs with
  | zero =>
    have h0 : evictMeasure s = 0 := Nat.le_zero.1 hfuel
    unfold evictMeasure S3Randomfreq_get_n_obj Tier.get_n_obj at h0
    have hs : s.small_random.objs = [] := List.length_eq_zero.1 (by omega)
    have hm : s.main_random.objs = [] := List.length_eq_zero.1 (by omega)
    simp [S3Randomfreq_make_room, S3Randomfreq_get_occupied_byte, Tier.get_occupied_byte,
      hs, hm, hsize]
  | succ k ih =>
    unfold S3Randomfreq_make_room
    split
    · rename_i hgt
      have hocc : 0 < S3Randomfreq_get_occupied_byte s := by omega
      have hp := S3Randomfreq_evict_progress s rs hocc
      have hc := (S3Randomfreq_evict_sameConfig s rs).1
      have := ih (S3Randomfreq_evict s rs).1 (S3Randomfreq_evict s rs).2 (by omega)
        (by rw [hc]; exact hsize)
      rw [hc] at this
      exact this
    · rename_i hgt
      simp only
      omega

theorem evictMeasure_le_roomBudget (s : FreqCache) : evictMeasure s ≤ roomBudget s := by
  unfold evictMeasure roomBudget
  split <;> omega

/-! ## Byte accounting of `find`, `insert` and `get` -/

theorem S3Randomfreq_find_occupied (s : FreqCache) (req : Request) (u : Bool) :
    (S3Randomfreq_find s req u).1.small_random.get_occupied_byte
        = s.small_random.get_occupied_byte ∧
      (S3Randomfreq_find s req u).1.main_random.get_occupied_byte
        = s.main_random.get_occupied_byte := by
  unfold S3Randomfreq_find
  cases u
  · simp only [Bool.not_false, if_true]
    split
    · exact ⟨rfl, rfl⟩
    · split <;> exact ⟨rfl, rfl⟩
  · simp only [Bool.not_true, Bool.false_eq_true, if_false]
    split
    · exact ⟨Tier.update_occupied _ _ _ (fun _ => rfl), rfl⟩
    · split
      · split <;> exact ⟨rfl, Tier.update_occupied _ _ _ (fun _ => rfl)⟩
      · split <;> exact ⟨rfl, rfl⟩

theorem Tier.insert_occupied (t : Tier) (req : Request) :
    (t.insert req).get_occupied_byte = t.get_occupied_byte + req.obj_size := by
  simp [Tier.insert, Tier.get_occupied_byte, CacheObj.ofRequest, Nat.add_comm]

theorem S3Randomfreq_insert_occupied_le (s : FreqCache) (req : Request) :
    S3Randomfreq_get_occupied_byte (S3Randomfreq_insert s req).1
      ≤ S3Randomfreq_get_occupied_byte s + req.obj_size := by
  unfold S3Randomfreq_insert S3Randomfreq_get_occupied_byte
  split
  · simp only
    split
    · simp
    · simp only
      rw [Tier.update_occupied _ _ CacheObj.reset_freq (fun _ => rfl), Tier.insert_occupied]
      omega
  · split
    · simp
    · simp only
      rw [Tier.update_occupied _ _ CacheObj.reset_freq (fun _ => rfl), Tier.insert_occupied]
      omega

/-- The byte invariant together with the configuration facts that carry it. -/
theorem S3Randomfreq_get_fits (C : Nat) (s : FreqCache) (req : Request) (rs : Rng)
    (h : s.cache_size = C ∧ s.small_random.cache_size ≤ C ∧
      S3Randomfreq_get_occupied_byte s ≤ C) :
    (S3Randomfreq_get s req rs).1.cache_size = C ∧
      (S3Randomfreq_get s req rs).1.small_random.cache_size ≤ C ∧
      S3Randomfreq_get_occupied_byte (S3Randomfreq_get s req rs).1 ≤ C := by
  obtain ⟨hC, hsmall, hocc⟩ := h
  have hf := S3Randomfreq_find_sameConfig s req true
  have hfo := S3Randomfreq_find_occupied s req true
  have hbase : (S3Randomfreq_find s req true).1.cache_size = C ∧
      (S3Randomfreq_find s req true).1.small_random.cache_size ≤ C ∧
      S3Randomfreq_get_occupied_byte (S3Randomfreq_find s req true).1 ≤ C := by
    refine ⟨by rw [hf.1, hC], by rw [hf.2.1]; exact hsmall, ?_⟩
    unfold S3Randomfreq_get_occupied_byte at hocc ⊢
    rw [hfo.1, hfo.2]; exact hocc
  unfold S3Randomfreq_get
  simp only
  split
  · exact hbase
  · split
    · rename_i hgate
      have hsz : req.obj_size ≤ (S3Randomfreq_find s req true).1.small_random.cache_size := by
        simpa [S3Randomfreq_can_insert] using hgate
      have hroom := S3Randomfreq_make_room_fits (roomBudget (S3Randomfreq_find s req true).1)
        (S3Randomfreq_find s req true).1 req rs (evictMeasure_le_roomBudget _)
        (by rw [hbase.1]; exact hsz.trans hbase.2.1)
      have hmc := S3Randomfreq_make_room_sameConfig
        (roomBudget (S3Randomfreq_find s req true).1) (S3Randomfreq_find s req true).1 req rs
      have hic := S3Randomfreq_insert_sameConfig
        (S3Randomfreq_make_room (roomBudget (S3Randomfreq_find s req true).1)
          (S3Randomfreq_find s req true).1 req rs).1 req
      have hio := S3Randomfreq_insert_occupied_le
        (S3Randomfreq_make_room (roomBudget (S3Randomfreq_find s req true).1)
          (S3Randomfreq_find s req true).1 req rs).1 req
      refine ⟨by rw [hic.1, hmc.1]; exact hbase.1, by rw [hic.2.1, hmc.2.1]; exact hbase.2.1, ?_⟩
      rw [hbase.1] at hroom
      exact hio.trans hroom
    · exact hbase

theorem FreqReachableGet_fits (C : Nat) (s : FreqCache) (h : FreqReachableGet C s) :
    s.cache_size = C ∧ s.small_random.cache_size ≤ C ∧
      S3Randomfreq_get_occupied_byte s ≤ C := by
  induction h with
  | init =>
    refine ⟨rfl, double_mul_trunc_le _ _ _ (by norm_num), ?_⟩
    simp [S3Randomfreq_init, S3Randomfreq_get_occupied_byte, Tier.get_occupied_byte]
  | get s req rs _ ih => exact S3Randomfreq_get_fits C s req rs ih

/-- C1 (frequency variant): in every state reachable from a freshly
initialised cache of total capacity `C` by `get` calls, whatever the random
eviction candidates, the bytes occupied in Small plus the bytes occupied in
Main do not exceed `C`. -/
theorem S3Randomfreq_total_bytes_le_capacity (C : Nat) (s : FreqCache)
    (h : FreqReachableGet C s) :
    s.small_random.get_occupied_byte + s.main_random.get_occupied_byte ≤ C :=
  (FreqReachableGet_fits C s h).2.2

theorem threeGets_reachable : FreqReachableGet 100 threeGets :=
  FreqReachableGet.get _ _ _ (FreqReachableGet.get _ _ _
    (FreqReachableGet.get _ _ _ FreqReachableGet.init))

/-- Witness of C1 on a cache of capacity 100 after three misses of size 5. -/
theorem S3Randomfreq_total_bytes_le_capacity_witness :
    FreqReachableGet 100 threeGets ∧
      threeGets.small_random.get_occupied_byte
        + threeGets.main_random.get_occupied_byte ≤ 100 :=
  ⟨threeGets_reachable, S3Randomfreq_total_bytes_le_capacity 100 threeGets threeGets_reachable⟩

/-! ## Exclusive residency -/

theorem FreqCache.exclusive_iff (s : FreqCache) :
    s.exclusive ↔ s.small_random.ids.Nodup ∧ s.ghost_random.ids.Nodup ∧
      s.main_random.ids.Nodup ∧ (∀ x ∈ s.small_random.ids, x ∉ s.ghost_random.ids) ∧
      (∀ x ∈ s.small_random.ids, x ∉ s.main_random.ids) ∧
      (∀ x ∈ s.ghost_random.ids, x ∉ s.main_random.ids) := by
  unfold FreqCache.exclusive
  simp only [List.nodup_append, List.Disjoint, List.mem_append]
  constructor
  · rintro ⟨⟨h1, h2, h3⟩, h4, h5⟩
    exact ⟨h1, h2, h4, fun x hx hg => h3 hx hg, fun x hx hm => h5 (Or.inl hx) hm,
      fun x hx hm => h5 (Or.inr hx) hm⟩
  · rintro ⟨h1, h2, h3, h4, h5, h6⟩
    refine ⟨⟨h1, h2, fun x hx hg => h4 _ hx hg⟩, h3, ?_⟩
    intro x hx hm
    rcases hx with hx | hx
    · exact h5 x hx hm
    · exact h6 x hx hm

/-- Shrinking the identifier lists of the tiers keeps residency exclusive. -/
theorem FreqCache.exclusive_of_sublist (s t : FreqCache) (h : s.exclusive)
    (h1 : t.small_random.ids.Sublist s.small_random.ids)
    (h2 : t.ghost_random.ids.Sublist s.ghost_random.ids)
    (h3 : t.main_random.ids.Sublist s.main_random.ids) : t.exclusive :=
  List.Nodup.sublist ((h1.append h2).append h3) h

theorem S3Randomfreq_promote_ids (s : FreqCache) (o : CacheObj) :
    (S3Randomfreq_promote s o).small_random = (s.small_random.remove o.obj_id).1 ∧
      (S3Randomfreq_promote s o).ghost_random = s.ghost_random ∧
      (S3Randomfreq_promote s o).main_random.ids = o.obj_id :: s.main_random.ids := by
  refine ⟨rfl, rfl, ?_⟩
  exact Tier.update_ids (s.main_random.insert (copy_cache_obj_to_request o)) _ _ (fun _ => rfl)

theorem S3Randomfreq_demote_ids (s : FreqCache) (o : CacheObj) (rs : Rng) :
    (S3Randomfreq_demote s o rs).1.small_random = (s.small_random.remove o.obj_id).1 ∧
      (S3Randomfreq_demote s o rs).1.ghost_random
        = (s.ghost_random.get (copy_cache_obj_to_request o) rs).1 ∧
      (S3Randomfreq_demote s o rs).1.main_random = s.main_random :=
  ⟨rfl, rfl, rfl⟩

theorem S3Randomfreq_promote_exclusive (s : FreqCache) (r : Nat) (o : CacheObj)
    (h : s.exclusive) (ho : s.small_random.to_evict r = some o) :
    (S3Randomfreq_promote s o).exclusive := by
  obtain ⟨e1, e2, e3⟩ := S3Randomfreq_promote_ids s o
  have hmem := Tier.to_evict_mem_ids _ _ _ ho
  rw [FreqCache.exclusive_iff] at h ⊢
  obtain ⟨n1, n2, n3, d1, d2, d3⟩ := h
  rw [e1, e2, e3]
  have hsub := Tier.remove_ids_sublist s.small_random o.obj_id
  refine ⟨n1.sublist hsub, n2, List.nodup_cons.2 ⟨d2 _ hmem, n3⟩,
    fun x hx => d1 x (hsub.subset hx), ?_, ?_⟩
  · intro x hx hm
    rcases List.mem_cons.1 hm with rfl | hm
    · exact Tier.remove_not_mem s.small_random _ n1 hx
    · exact d2 x (hsub.subset hx) hm
  · intro x hx hm
    rcases List.mem_cons.1 hm with rfl | hm
    · exact d1 _ hmem hx
    · exact d3 x hx hm

theorem S3Randomfreq_demote_exclusive (s : FreqCache) (r : Nat) (o : CacheObj) (rs : Rng)
    (h : s.exclusive) (ho : s.small_random.to_evict r = some o) :
    (S3Randomfreq_demote s o rs).1.exclusive := by
  obtain ⟨e1, e2, e3⟩ := S3Randomfreq_demote_ids s o rs
  have hmem := Tier.to_evict_mem_ids _ _ _ ho
  rw [FreqCache.exclusive_iff] at h ⊢
  obtain ⟨n1, n2, n3, d1, d2, d3⟩ := h
  rw [e1, e2, e3]
  have hsub := Tier.remove_ids_sublist s.small_random o.obj_id
  refine ⟨n1.sublist hsub, Tier.get_nodup _ _ _ n2, n3, ?_, fun x hx => d2 x (hsub.subset hx), ?_⟩
  · intro x hx hg
    rcases Tier.get_mem_ids _ _ _ _ hg with hg | hg
    · exact d1 x (hsub.subset hx) hg
    · have : x = o.obj_id := hg
      subst this
      exact Tier.remove_not_mem s.small_random _ n1 hx
  · intro x hg hm
    rcases Tier.get_mem_ids _ _ _ _ hg with hg | hg
    · exact d3 x hg hm
    · have : x = o.obj_id := hg
      subst this
      exact d2 _ hmem hm

theorem S3Randomfreq_spare_exclusive (s : FreqCache) (r : Nat) (o : CacheObj)
    (h : s.exclusive) (ho : s.main_random.to_evict r = some o) :
    (S3Randomfreq_spare s r o).exclusive := by
  refine FreqCache.exclusive_of_sublist s _ h ?_ ?_ ?_
  · exact List.Sublist.refl _
  · exact List.Sublist.refl _
  · rw [S3Randomfreq_spare_main_ids s r o ho]

theorem S3Randomfreq_drop_exclusive (s : FreqCache) (o : CacheObj) (h : s.exclusive) :
    (S3Randomfreq_drop s o).exclusive := by
  refine FreqCache.exclusive_of_sublist s _ h ?_ ?_ ?_
  · exact List.Sublist.refl _
  · exact List.Sublist.refl _
  · exact Tier.remove_ids_sublist _ _

theorem exclusive_step : FreqStepInv FreqCache.exclusive where
  promote := fun s r o h ho => S3Randomfreq_promote_exclusive s r o h ho
  demote := fun s r o rs h ho => S3Randomfreq_demote_exclusive s r o rs h ho
  spare := fun s r o h ho _ => S3Randomfreq_spare_exclusive s r o h ho
  drop := fun s _ o h _ => S3Randomfreq_drop_exclusive s o h

/-- Evictions never bring in an identifier that is resident nowhere. -/
theorem exclusive_absent_step (id : Nat) :
    FreqStepInv (fun s => s.exclusive ∧ s.absent id) where
  promote := by
    rintro s r o ⟨h, a1, a2, a3⟩ ho
    refine ⟨S3Randomfreq_promote_exclusive s r o h ho, ?_⟩
    obtain ⟨e1, e2, e3⟩ := S3Randomfreq_promote_ids s o
    unfold FreqCache.absent
    rw [e1, e2, e3]
    refine ⟨fun hx => a1 ((Tier.remove_ids_sublist _ _).subset hx), a2, ?_⟩
    intro hm
    rcases List.mem_cons.1 hm with rfl | hm
    · exact a1 (Tier.to_evict_mem_ids _ _ _ ho)
    · exact a3 hm
  demote := by
    rintro s r o rs ⟨h, a1, a2, a3⟩ ho
    refine ⟨S3Randomfreq_demote_exclusive s r o rs h ho, ?_⟩
    obtain ⟨e1, e2, e3⟩ := S3Randomfreq_demote_ids s o rs
    unfold FreqCache.absent
    rw [e1, e2, e3]
    refine ⟨fun hx => a1 ((Tier.remove_ids_sublist _ _).subset hx), ?_, a3⟩
    intro hg
    rcases Tier.get_mem_ids _ _ _ _ hg with hg | hg
    · exact a2 hg
    · have : id = o.obj_id := hg
      subst this
      exact a1 (Tier.to_evict_mem_ids _ _ _ ho)
  spare := by
    rintro s r o ⟨h, a1, a2, a3⟩ ho _
    refine ⟨S3Randomfreq_spare_exclusive s r o h ho, a1, a2, ?_⟩
    rw [S3Randomfreq_spare_main_ids s r o ho]
    exact a3
  drop := by
    rintro s r o ⟨h, a1, a2, a3⟩ _
    exact ⟨S3Randomfreq_drop_exclusive s o h, a1, a2,
      fun hx => a3 ((Tier.remove_ids_sublist _ _).subset hx)⟩

/-- Lookup with update keeps residency exclusive, and after a miss the
identifier is resident nowhere (a Ghost entry has been consumed). -/
theorem S3Randomfreq_find_exclusive (s : FreqCache) (req : Request) (h : s.exclusive) :
    (S3Randomfreq_find s req true).1.exclusive ∧
      ((S3Randomfreq_find s req true).2 = none →
        (S3Randomfreq_find s req true).1.absent req.obj_id) := by
  have hn := ((FreqCache.exclusive_iff s).1 h).2.1
  unfold S3Randomfreq_find
  simp only [Bool.not_true, Bool.false_eq_true, if_false]
  split
  · refine ⟨?_, by simp⟩
    refine FreqCache.exclusive_of_sublist s _ h ?_ ?_ ?_
    · simp only
      rw [Tier.update_ids _ _ CacheObj.incr_freq (fun _ => rfl)]
    · exact List.Sublist.refl _
    · exact List.Sublist.refl _
  · rename_i hs
    have hs2 : req.obj_id ∉ s.small_random.ids := (Tier.find_eq_none_iff _ _).1 hs
    split
    · refine ⟨?_, by simp⟩
      refine FreqCache.exclusive_of_sublist s _ h ?_ ?_ ?_
      · simp only
        split <;> exact List.Sublist.refl _
      · simp only
        split <;> exact Tier.remove_ids_sublist _ _
      · simp only
        rw [Tier.update_ids _ _ CacheObj.incr_freq (fun _ => rfl)]
        split <;> exact List.Sublist.refl _
    · rename_i hm
      refine ⟨?_, fun _ => ?_⟩
      · refine FreqCache.exclusive_of_sublist s _ h ?_ ?_ ?_
        · split <;> exact List.Sublist.refl _
        · split <;> exact Tier.remove_ids_sublist _ _
        · split <;> exact List.Sublist.refl _
      · refine ⟨?_, ?_, ?_⟩
        · split <;> exact hs2
        · split <;> exact Tier.remove_not_mem _ _ hn
        · exact (Tier.find_eq_none_iff _ _).1 hm

theorem S3Randomfreq_insert_exclusive (s : FreqCache) (req : Request) (h : s.exclusive)
    (ha : s.absent req.obj_id) : (S3Randomfreq_insert s req).1.exclusive := by
  obtain ⟨a1, a2, a3⟩ := ha
  have hx := h
  rw [FreqCache.exclusive_iff] at h
  obtain ⟨n1, n2, n3, d1, d2, d3⟩ := h
  unfold S3Randomfreq_insert
  split
  · simp only
    split
    · exact hx
    · rw [FreqCache.exclusive_iff]
      simp only
      rw [Tier.update_ids _ _ CacheObj.reset_freq (fun _ => rfl)]
      have e : (s.main_random.insert req).ids = req.obj_id :: s.main_random.ids := rfl
      rw [e]
      refine ⟨n1, n2, List.nodup_cons.2 ⟨a3, n3⟩, d1, ?_, ?_⟩
      · intro x hx hm
        rcases List.mem_cons.1 hm with rfl | hm
        · exact a1 hx
        · exact d2 x hx hm
      · intro x hx hm
        rcases List.mem_cons.1 hm with rfl | hm
        · exact a2 hx
        · exact d3 x hx hm
  · split
    · exact hx
    · rw [FreqCache.exclusive_iff]
      simp only
      rw [Tier.update_ids _ _ CacheObj.reset_freq (fun _ => rfl)]
      have e : (s.small_random.insert req).ids = req.obj_id :: s.small_random.ids := rfl
      rw [e]
      refine ⟨List.nodup_cons.2 ⟨a1, n1⟩, n2, n3, ?_, ?_, d3⟩
      · intro x hx
        rcases List.mem_cons.1 hx with rfl | hx
        · exact a2
        · exact d1 x hx
      · intro x hx
        rcases List.mem_cons.1 hx with rfl | hx
        · exact a3
        · exact d2 x hx

theorem S3Randomfreq_get_exclusive (s : FreqCache) (req : Request) (rs : Rng)
    (h : s.exclusive) : (S3Randomfreq_get s req rs).1.exclusive := by
  obtain ⟨hf, hmiss⟩ := S3Randomfreq_find_exclusive s req h
  unfold S3Randomfreq_get
  simp only
  split
  · exact hf
  · rename_i hnone
    have hnone2 : (S3Randomfreq_find s req true).2 = none := by simpa using hnone
    split
    · have hr := S3Randomfreq_make_room_inv _ (exclusive_absent_step req.obj_id)
        (roomBudget (S3Randomfreq_find s req true).1) (S3Randomfreq_find s req true).1 req rs
        ⟨hf, hmiss hnone2⟩
      exact S3Randomfreq_insert_exclusive _ req hr.1 hr.2
    · exact hf

theorem S3Randomfreq_remove_exclusive (s : FreqCache) (obj_id : Nat) (h : s.exclusive) :
    (S3Randomfreq_remove s obj_id).1.exclusive := by
  unfold S3Randomfreq_remove
  simp only
  split
  · refine FreqCache.exclusive_of_sublist s _ h ?_ ?_ ?_
    · exact Tier.remove_ids_sublist _ _
    · exact List.Sublist.refl _
    · exact List.Sublist.refl _
  · split
    · refine FreqCache.exclusive_of_sublist s _ h ?_ ?_ ?_
      · exact List.Sublist.refl _
      · exact Tier.remove_ids_sublist _ _
      · exact List.Sublist.refl _
    · refine FreqCache.exclusive_of_sublist s _ h ?_ ?_ ?_
      · exact List.Sublist.refl _
      · exact List.Sublist.refl _
      · exact Tier.remove_ids_sublist _ _

theorem FreqReachable_exclusive (C : Nat) (s : FreqCache) (h : FreqReachable C s) :
    s.exclusive := by
  induction h with
  | init => simp [FreqCache.exclusive, S3Randomfreq_init, Tier.ids]
  | get s req rs _ ih => exact S3Randomfreq_get_exclusive s req rs ih
  | remove s id _ ih => exact S3Randomfreq_remove_exclusive s id ih

/-- C2 (frequency variant): in every state reachable from a freshly
initialised cache by `get` and `remove` calls, whatever the random eviction
candidates, no identifier is resident in two of Small, Main and Ghost. -/
theorem S3Randomfreq_resident_in_at_most_one_tier (C : Nat) (s : FreqCache) (id : Nat)
    (h : FreqReachable C s) :
    ¬ (s.small_random.resident id ∧ s.main_random.resident id) ∧
      ¬ (s.small_random.resident id ∧ s.ghost_random.resident id) ∧
      ¬ (s.main_random.resident id ∧ s.ghost_random.resident id) := by
  obtain ⟨_, _, _, d1, d2, d3⟩ := (FreqCache.exclusive_iff s).1 (FreqReachable_exclusive C s h)
  exact ⟨fun hh => d2 id hh.1 hh.2, fun hh => d1 id hh.1 hh.2, fun hh => d3 id hh.2 hh.1⟩

theorem threeGets_reachable2 : FreqReachable 100 threeGets :=
  FreqReachable.get _ _ _ (FreqReachable.get _ _ _
    (FreqReachable.get _ _ _ FreqReachable.init))

/-- Witness of C2: identifier 1 after three misses on a cache of capacity 100. -/
theorem S3Randomfreq_resident_in_at_most_one_tier_witness :
    FreqReachable 100 threeGets ∧
      (¬ (threeGets.small_random.resident 1 ∧ threeGets.main_random.resident 1) ∧
        ¬ (threeGets.small_random.resident 1 ∧ threeGets.ghost_random.resident 1) ∧
        ¬ (threeGets.main_random.resident 1 ∧ threeGets.ghost_random.resident 1)) :=
  ⟨threeGets_reachable2,
    S3Randomfreq_resident_in_at_most_one_tier 100 threeGets 1 threeGets_reachable2⟩

/-! ## The frequency counter -/

theorem fourHits_reachable : FreqReachableOps 100 fourHits :=
  FreqReachableOps.find _ _ (FreqReachableOps.find _ _ (FreqReachableOps.find _ _
    (FreqReachableOps.find _ _ (FreqReachableOps.insert _ _ FreqReachableOps.init))))

/-! ## Per-tier capacities -/

theorem FreqCache.sameConfig_trans (a b c : FreqCache) (h1 : a.sameConfig b)
    (h2 : b.sameConfig c) : a.sameConfig c :=
  ⟨h2.1.trans h1.1, h2.2.1.trans h1.2.1, h2.2.2.1.trans h1.2.2.1,
    h2.2.2.2.1.trans h1.2.2.2.1, h2.2.2.2.2.trans h1.2.2.2.2⟩

theorem S3Randomfreq_get_sameConfig (s : FreqCache) (req : Request) (rs : Rng) :
    s.sameConfig (S3Randomfreq_get s req rs).1 := by
  have hf := S3Randomfreq_find_sameConfig s req true
  unfold S3Randomfreq_get
  simp only
  split
  · exact hf
  · split
    · exact FreqCache.sameConfig_trans _ _ _ hf
        (FreqCache.sameConfig_trans _ _ _ (S3Randomfreq_make_room_sameConfig _ _ _ _)
          (S3Randomfreq_insert_sameConfig _ _))
    · exact hf

theorem FreqReachableGet_sameConfig (C : Nat) (s : FreqCache) (h : FreqReachableGet C s) :
    (S3Randomfreq_init C).sameConfig s := by
  induction h with
  | init => exact FreqCache.sameConfig_refl _
  | get s req rs _ ih =>
    exact FreqCache.sameConfig_trans _ _ _ ih (S3Randomfreq_get_sameConfig s req rs)

/-- C4, counterexample: after three misses of size 5 on a fresh cache of
capacity 100, Small (capacity 10) holds 15 bytes. -/
theorem S3Randomfreq_small_exceeds_own_capacity :
    FreqReachableGet 100 threeGets ∧
      threeGets.small_random.get_occupied_byte = 15 ∧
      threeGets.small_random.cache_size = 10 ∧
      ¬ (threeGets.small_random.get_occupied_byte ≤ threeGets.small_random.cache_size ∧
        threeGets.main_random.get_occupied_byte ≤ threeGets.main_random.cache_size) :=
  ⟨FreqReachableGet.get _ _ _ (FreqReachableGet.get _ _ _
      (FreqReachableGet.get _ _ _ FreqReachableGet.init)),
    by decide, by decide, by decide⟩

/-- C4, amended: in every state reachable from a freshly initialised cache by
`get` calls, each data tier stays within the total capacity, which is the
sum of the two tier capacities: Small.occupied_bytes and Main.occupied_bytes
are each at most Small.capacity + Main.capacity. -/
theorem S3Randomfreq_tier_bytes_le_total (C : Nat) (s : FreqCache)
    (h : FreqReachableGet C s) :
    s.small_random.cache_size + s.main_random.cache_size = C ∧
      s.small_random.get_occupied_byte ≤ s.small_random.cache_size + s.main_random.cache_size ∧
      s.main_random.get_occupied_byte ≤ s.small_random.cache_size + s.main_random.cache_size := by
  obtain ⟨_, hs, _, hm, _⟩ := FreqReachableGet_sameConfig C s h
  have hocc := (FreqReachableGet_fits C s h).2.2
  unfold S3Randomfreq_get_occupied_byte at hocc
  have h1 : s.small_random.cache_size = double_mul_trunc C 3602879701896397 55 := hs
  have h2 : s.main_random.cache_size = C - double_mul_trunc C 3602879701896397 55 := hm
  have h3 : double_mul_trunc C 3602879701896397 55 ≤ C :=
    double_mul_trunc_le _ _ _ (by norm_num)
  refine ⟨by omega, by omega, by omega⟩

/-- Witness of the amended C4 after three misses on a cache of capacity 100. -/
theorem S3Randomfreq_tier_bytes_le_total_witness :
    FreqReachableGet 100 threeGets ∧
      threeGets.small_random.cache_size + threeGets.main_random.cache_size = 100 ∧
      threeGets.small_random.get_occupied_byte
        ≤ threeGets.small_random.cache_size + threeGets.main_random.cache_size ∧
      threeGets.main_random.get_occupied_byte
        ≤ threeGets.small_random.cache_size + threeGets.main_random.cache_size :=
  ⟨threeGets_reachable, S3Randomfreq_tier_bytes_le_total 100 threeGets threeGets_reachable⟩

/-! ## Ghost-biased admission -/

/-- C5 (frequency variant): for an identifier resident in Ghost (once) and in
neither Small nor Main, lookup with update returns a miss, removes the
identifier from Ghost and sets `hit_on_ghost`; a following insert of size
below Main's capacity makes it resident in Main with `freq = 0` and not
resident in Small. -/
theorem S3Randomfreq_ghost_hit_admits_to_main (s : FreqCache) (req : Request)
    (hg : s.ghost_random.resident req.obj_id) (hs : ¬ s.small_random.resident req.obj_id)
    (hm : ¬ s.main_random.resident req.obj_id) (hnodup : s.ghost_random.ids.Nodup) :
    (S3Randomfreq_find s req true).2 = none ∧
      ¬ (S3Randomfreq_find s req true).1.ghost_random.resident req.obj_id ∧
      (S3Randomfreq_find s req true).1.hit_on_ghost = true ∧
      (req.obj_size < (S3Randomfreq_find s req true).1.main_random.cache_size →
        (∃ o, (S3Randomfreq_insert (S3Randomfreq_find s req true).1 req).1.main_random.find
            req.obj_id = some o ∧ o.freq = 0) ∧
        ¬ (S3Randomfreq_insert (S3Randomfreq_find s req true).1 req).1.small_random.resident
            req.obj_id) := by
  have e1 : s.small_random.find req.obj_id = none := (Tier.find_eq_none_iff _ _).2 hs
  have e2 : s.main_random.find req.obj_id = none := (Tier.find_eq_none_iff _ _).2 hm
  have e3 : (s.ghost_random.remove req.obj_id).2 = true := (Tier.remove_snd _ _).2 hg
  have hfind : S3Randomfreq_find s req true
      = ({ s with hit_on_ghost := true,
                  ghost_random := (s.ghost_random.remove req.obj_id).1 }, none) := by
    unfold S3Randomfreq_find
    simp only [Bool.not_true, Bool.false_eq_true, if_false, e1, e3, if_true, e2]
  rw [hfind]
  refine ⟨rfl, Tier.remove_not_mem _ _ hnodup, rfl, ?_⟩
  intro hlt
  have hlt2 : ¬ req.obj_size ≥ s.main_random.cache_size := by simpa using hlt
  unfold S3Randomfreq_insert
  simp only [if_true, hlt2, if_false]
  constructor
  · refine ⟨(CacheObj.ofRequest req).reset_freq, ?_, rfl⟩
    simp [Tier.find, Tier.update, Tier.insert, updateFirst, CacheObj.ofRequest,
      CacheObj.reset_freq]
  · exact hs

/-- Witness of C5: identifier 1 after it was demoted to Ghost. -/
theorem S3Randomfreq_ghost_hit_admits_to_main_witness :
    (freqGhostOne.ghost_random.resident 1 ∧ ¬ freqGhostOne.small_random.resident 1 ∧
        ¬ freqGhostOne.main_random.resident 1 ∧ freqGhostOne.ghost_random.ids.Nodup) ∧
      ((S3Randomfreq_find freqGhostOne ⟨1, 5⟩ true).2 = none ∧
        ¬ (S3Randomfreq_find freqGhostOne ⟨1, 5⟩ true).1.ghost_random.resident 1 ∧
        (S3Randomfreq_find freqGhostOne ⟨1, 5⟩ true).1.hit_on_ghost = true ∧
        (5 < (S3Randomfreq_find freqGhostOne ⟨1, 5⟩ true).1.main_random.cache_size →
          (∃ o, (S3Randomfreq_insert (S3Randomfreq_find freqGhostOne ⟨1, 5⟩ true).1
              ⟨1, 5⟩).1.main_random.find 1 = some o ∧ o.freq = 0) ∧
          ¬ (S3Randomfreq_insert (S3Randomfreq_find freqGhostOne ⟨1, 5⟩ true).1
              ⟨1, 5⟩).1.small_random.resident 1)) :=
  ⟨⟨by decide, by decide, by decide, by decide⟩,
    S3Randomfreq_ghost_hit_admits_to_main freqGhostOne ⟨1, 5⟩ (by decide) (by decide)
      (by decide) (by decide)⟩

/-- The insert routine of the plain variant on the hand-configured cache with
a Ghost tier (a state that `S3Random_init` cannot lead to, see
`PlainReachable_empty`): after the lookup that finds identifier 1 in Ghost,
`hit_on_ghost` is true, and the insert of object 1 (size 5, below Small's
capacity 10) leaves it resident in Main and in Small at once. -/
theorem S3Random_ghost_hit_insert_in_both_tiers :
    plainGhostHit.hit_on_ghost = true ∧
      (S3Random_insert plainGhostHit ⟨1, 5⟩).1.main_random.resident 1 ∧
      (S3Random_insert plainGhostHit ⟨1, 5⟩).1.small_random.resident 1 := by
  decide

/-! ## Small eviction: promotion and demotion -/

/-- The Small eviction of the plain variant on the hand-configured cache (a
state that `S3Random_init` cannot lead to, see `PlainReachable_empty`):
object 1 was inserted into Small and hit twice (its `promotion` flag is set);
the Small eviction that selects it leaves it in Ghost and neither in Main nor
in Small. -/
theorem S3Random_accessed_object_demoted :
    plainAccessed.small_random.find 1
        = some { obj_id := 1, obj_size := 5, freq := 0, promotion := true, misc_freq := 0 } ∧
      plainAccessed.small_random.to_evict (zeroRng 0) = plainAccessed.small_random.find 1 ∧
      ¬ (S3Random_evict_small_random plainAccessed zeroRng).1.main_random.resident 1 ∧
      ¬ (S3Random_evict_small_random plainAccessed zeroRng).1.small_random.resident 1 ∧
      (S3Random_evict_small_random plainAccessed zeroRng).1.random_ghost
        = some { cache_size := 90, objs := [CacheObj.ofRequest ⟨1, 5⟩] } := by
  decide

/-- C8, counterexample: object 1 has `freq = 2` in Small; the Small eviction
promotes it, and in Main its `freq` is 0, not 2; the first Main eviction that
selects it removes it. -/
theorem S3Randomfreq_promotion_resets_freq :
    twoHits.small_random.find 1
        = some { obj_id := 1, obj_size := 5, freq := 2, promotion := false, misc_freq := 0 } ∧
      twoHitsPromoted.small_random.objs = [] ∧
      twoHitsPromoted.ghost_random.objs = [] ∧
      twoHitsPromoted.main_random.find 1
        = some { obj_id := 1, obj_size := 5, freq := 0, promotion := false, misc_freq := 0 } ∧
      (S3Randomfreq_evict_main twoHitsPromoted zeroRng).1.main_random.objs = [] := by
  decide

/-- One round of the Small sweep on a candidate at or above the threshold is
the promotion step followed by the rest of the sweep. -/
theorem S3Randomfreq_evict_small_loop_promote (fuel : Nat) (s : FreqCache) (rs : Rng)
    (o : CacheObj) (hocc : 0 < s.small_random.get_occupied_byte)
    (ho : s.small_random.to_evict (rs 0) = some o) (hf : o.freq ≥ s.threshold) :
    S3Randomfreq_evict_small_loop (fuel + 1) s rs
      = S3Randomfreq_evict_small_loop fuel (S3Randomfreq_promote s o) rs.tail := by
  rw [S3Randomfreq_evict_small_loop, if_pos hocc, ho]
  simp only [if_pos hf]

/-- One round of the Small sweep on a candidate below the threshold is the
demotion step, and the sweep ends there. -/
theorem S3Randomfreq_evict_small_loop_demote (fuel : Nat) (s : FreqCache) (rs : Rng)
    (o : CacheObj) (hocc : 0 < s.small_random.get_occupied_byte)
    (ho : s.small_random.to_evict (rs 0) = some o) (hf : ¬ o.freq ≥ s.threshold) :
    S3Randomfreq_evict_small_loop (fuel + 1) s rs = S3Randomfreq_demote s o rs.tail := by
  rw [S3Randomfreq_evict_small_loop, if_pos hocc, ho]
  simp only [if_neg hf]

/-- One round of the Main loop on a candidate with `freq <= 0` is the removal
step, and the loop ends there. -/
theorem S3Randomfreq_evict_main_loop_drop (fuel : Nat) (s : FreqCache) (rs : Rng)
    (o : CacheObj) (hocc : 0 < s.main_random.get_occupied_byte)
    (ho : s.main_random.to_evict (rs 0) = some o) (hf : ¬ o.freq > 0) :
    S3Randomfreq_evict_main_loop (fuel + 1) s rs = (S3Randomfreq_drop s o, rs.tail) := by
  rw [S3Randomfreq_evict_main_loop, if_pos hocc, ho]
  simp only [if_neg hf]

theorem Tier.find_insert_update (t : Tier) (req : Request) (f : CacheObj → CacheObj)
    (hf : ∀ o, (f o).obj_id = o.obj_id) :
    ((t.insert req).update req.obj_id f).find req.obj_id = some (f (CacheObj.ofRequest req)) := by
  have h1 : (CacheObj.ofRequest req).obj_id = req.obj_id := rfl
  have h2 := hf (CacheObj.ofRequest req)
  simp [Tier.find, Tier.update, Tier.insert, updateFirst, h1, h2]

/-- C8, amended: when the Small sweep selects a candidate with
`freq >= threshold` (Small storing each identifier once), the round is the
promotion step: the object is removed from Small, Ghost is left as it was,
and the object becomes resident in Main with a fresh counter `freq = 0`;
only `misc.freq` is copied.  The sweep then goes on with the next draw.
A Main eviction whose first draw selects an object with `freq = 0` removes
it at once, so an object promoted with `freq = 2` and not hit again is
removed by the first Main eviction that selects it. -/
theorem S3Randomfreq_promotion_round (fuel : Nat) (s : FreqCache) (rs : Rng) (o : CacheObj)
    (hocc : 0 < s.small_random.get_occupied_byte)
    (ho : s.small_random.to_evict (rs 0) = some o) (hf : o.freq ≥ s.threshold)
    (hnodup : s.small_random.ids.Nodup) :
    S3Randomfreq_evict_small_loop (fuel + 1) s rs
        = S3Randomfreq_evict_small_loop fuel (S3Randomfreq_promote s o) rs.tail ∧
      ¬ (S3Randomfreq_promote s o).small_random.resident o.obj_id ∧
      (S3Randomfreq_promote s o).ghost_random = s.ghost_random ∧
      (S3Randomfreq_promote s o).main_random.find o.obj_id
        = some { obj_id := o.obj_id, obj_size := o.obj_size, freq := 0, promotion := false,
                 misc_freq := o.misc_freq } ∧
      (∀ (t : FreqCache) (rt : Rng) (p : CacheObj), 0 < t.main_random.get_occupied_byte →
        t.main_random.to_evict (rt 0) = some p → p.freq = 0 →
        S3Randomfreq_evict_main t rt = (S3Randomfreq_drop t p, rt.tail)) := by
  refine ⟨S3Randomfreq_evict_small_loop_promote fuel s rs o hocc ho hf,
    Tier.remove_not_mem _ _ hnodup, rfl, ?_, ?_⟩
  · exact Tier.find_insert_update s.main_random (copy_cache_obj_to_request o) _ (fun _ => rfl)
  · intro t rt p htocc hp hp0
    exact S3Randomfreq_evict_main_loop_drop _ t rt p htocc hp (by omega)

/-- Witness of the amended C8 on the object hit twice. -/
theorem S3Randomfreq_promotion_round_witness :
    (0 < twoHits.small_random.get_occupied_byte ∧
        twoHits.small_random.to_evict (zeroRng 0)
          = some { obj_id := 1, obj_size := 5, freq := 2, promotion := false, misc_freq := 0 } ∧
        (2 : Int) ≥ twoHits.threshold ∧ twoHits.small_random.ids.Nodup) ∧
      (S3Randomfreq_evict_small_loop (0 + 1) twoHits zeroRng
          = S3Randomfreq_evict_small_loop 0 (S3Randomfreq_promote twoHits
              { obj_id := 1, obj_size := 5, freq := 2, promotion := false, misc_freq := 0 })
              zeroRng.tail ∧
        ¬ (S3Randomfreq_promote twoHits
            { obj_id := 1, obj_size := 5, freq := 2, promotion := false,
              misc_freq := 0 }).small_random.resident 1 ∧
        (S3Randomfreq_promote twoHits
            { obj_id := 1, obj_size := 5, freq := 2, promotion := false,
              misc_freq := 0 }).ghost_random = twoHits.ghost_random ∧
        (S3Randomfreq_promote twoHits
            { obj_id := 1, obj_size := 5, freq := 2, promotion := false,
              misc_freq := 0 }).main_random.find 1
          = some { obj_id := 1, obj_size := 5, freq := 0, promotion := false,
                   misc_freq := 0 }) :=
  have h := S3Randomfreq_promotion_round 0 twoHits zeroRng
    { obj_id := 1, obj_size := 5, freq := 2, promotion := false, misc_freq := 0 }
    (by decide) (by decide) (by decide) (by decide)
  ⟨⟨by decide, by decide, by decide, by decide⟩, h.1, h.2.1, h.2.2.1, h.2.2.2.1⟩

/-- C9 (both variants): when a Small eviction selects an object that was
never accessed (frequency variant: `freq = 0`, below a positive threshold;
plain variant: `promotion = false`), Ghost exists and can hold it, and the
object is resident only in Small (once), then after the eviction its
identifier is resident in Ghost and in neither Small nor Main; the sweep
ends with this object: the call is exactly one demotion step and Small holds
one object fewer. -/
theorem small_eviction_demotes_unaccessed :
    (∀ (s : FreqCache) (rs : Rng) (o : CacheObj),
      0 < s.small_random.get_occupied_byte → s.small_random.to_evict (rs 0) = some o →
      o.freq = 0 → 0 < s.threshold → o.obj_size ≤ s.ghost_random.cache_size →
      s.small_random.ids.Nodup → ¬ s.main_random.resident o.obj_id →
      S3Randomfreq_evict_small s rs = S3Randomfreq_demote s o rs.tail ∧
        (S3Randomfreq_evict_small s rs).1.ghost_random.resident o.obj_id ∧
        ¬ (S3Randomfreq_evict_small s rs).1.small_random.resident o.obj_id ∧
        ¬ (S3Randomfreq_evict_small s rs).1.main_random.resident o.obj_id ∧
        (S3Randomfreq_evict_small s rs).1.small_random.get_n_obj + 1
          = s.small_random.get_n_obj) ∧
    (∀ (s : PlainCache) (rs : Rng) (o : CacheObj) (ghost : Tier),
      0 < s.small_random.get_occupied_byte → s.small_random.to_evict (rs 0) = some o →
      o.promotion = false → s.random_ghost = some ghost → o.obj_size ≤ ghost.cache_size →
      s.small_random.ids.Nodup → ¬ s.main_random.resident o.obj_id →
      (∃ g, (S3Random_evict_small_random s rs).1.random_ghost = some g ∧
          g.resident o.obj_id) ∧
        ¬ (S3Random_evict_small_random s rs).1.small_random.resident o.obj_id ∧
        ¬ (S3Random_evict_small_random s rs).1.main_random.resident o.obj_id ∧
        (S3Random_evict_small_random s rs).1.small_random.get_n_obj + 1
          = s.small_random.get_n_obj) := by
  constructor
  · intro s rs o hocc ho hfreq hthr hsize hnodup hmain
    have hne : s.small_random.objs.length ≠ 0 := by
      intro h0
      rw [List.length_eq_zero] at h0
      simp [Tier.get_occupied_byte, h0] at hocc
    obtain ⟨k, hk⟩ := Nat.exists_eq_succ_of_ne_zero hne
    have hlt : ¬ o.freq ≥ s.threshold := by omega
    have hstep : S3Randomfreq_evict_small s rs = S3Randomfreq_demote s o rs.tail := by
      unfold S3Randomfreq_evict_small
      rw [hk]
      exact S3Randomfreq_evict_small_loop_demote k s rs o hocc ho hlt
    rw [hstep]
    refine ⟨rfl, ?_, Tier.remove_not_mem _ _ hnodup, hmain, ?_⟩
    · exact Tier.get_resident s.ghost_random (copy_cache_obj_to_request o) rs.tail
        (Or.inr hsize)
    · exact Tier.remove_length s.small_random o.obj_id (Tier.to_evict_mem_ids _ _ _ ho)
  · intro s rs o ghost hocc ho _ hghost hsize hnodup hmain
    have hstep : S3Random_evict_small_random s rs
        = ({ s with req_local := copy_cache_obj_to_request o,
                    random_ghost := some (ghost.get (copy_cache_obj_to_request o) rs.tail).1,
                    small_random := (s.small_random.remove o.obj_id).1 },
            (ghost.get (copy_cache_obj_to_request o) rs.tail).2.1) := by
      unfold S3Random_evict_small_random
      rw [if_pos hocc, ho]
      simp only [hghost]
      rfl
    rw [hstep]
    refine ⟨⟨_, rfl, ?_⟩, Tier.remove_not_mem _ _ hnodup, hmain, ?_⟩
    · exact Tier.get_resident ghost (copy_cache_obj_to_request o) rs.tail (Or.inr hsize)
    · exact Tier.remove_length s.small_random o.obj_id (Tier.to_evict_mem_ids _ _ _ ho)

/-- Witness of C9: the never-accessed object 1 of `oneInsert` (frequency
variant) and of a plain cache after one insert. -/
theorem small_eviction_demotes_unaccessed_witness :
    ((0 < oneInsert.small_random.get_occupied_byte ∧
        oneInsert.small_random.to_evict (zeroRng 0) = some (CacheObj.ofRequest ⟨1, 5⟩) ∧
        (CacheObj.ofRequest ⟨1, 5⟩).freq = 0 ∧ 0 < oneInsert.threshold ∧
        (CacheObj.ofRequest ⟨1, 5⟩).obj_size ≤ oneInsert.ghost_random.cache_size ∧
        oneInsert.small_random.ids.Nodup ∧ ¬ oneInsert.main_random.resident 1) ∧
      (S3Randomfreq_evict_small oneInsert zeroRng
          = S3Randomfreq_demote oneInsert (CacheObj.ofRequest ⟨1, 5⟩) zeroRng.tail ∧
        (S3Randomfreq_evict_small oneInsert zeroRng).1.ghost_random.resident 1 ∧
        ¬ (S3Randomfreq_evict_small oneInsert zeroRng).1.small_random.resident 1 ∧
        ¬ (S3Randomfreq_evict_small oneInsert zeroRng).1.main_random.resident 1 ∧
        (S3Randomfreq_evict_small oneInsert zeroRng).1.small_random.get_n_obj + 1
          = oneInsert.small_random.get_n_obj)) ∧
    ((0 < (S3Random_insert plainEmpty ⟨1, 5⟩).1.small_random.get_occupied_byte ∧
        (S3Random_insert plainEmpty ⟨1, 5⟩).1.small_random.to_evict (zeroRng 0)
          = some (CacheObj.ofRequest ⟨1, 5⟩) ∧
        (CacheObj.ofRequest ⟨1, 5⟩).promotion = false ∧
        (S3Random_insert plainEmpty ⟨1, 5⟩).1.random_ghost
          = some { cache_size := 90, objs := [] } ∧
        (CacheObj.ofRequest ⟨1, 5⟩).obj_size ≤ 90 ∧
        (S3Random_insert plainEmpty ⟨1, 5⟩).1.small_random.ids.Nodup ∧
        ¬ (S3Random_insert plainEmpty ⟨1, 5⟩).1.main_random.resident 1) ∧
      ((∃ g, plainGhostOne.random_ghost = some g ∧ g.resident 1) ∧
        ¬ plainGhostOne.small_random.resident 1 ∧
        ¬ plainGhostOne.main_random.resident 1 ∧
        plainGhostOne.small_random.get_n_obj + 1
          = (S3Random_insert plainEmpty ⟨1, 5⟩).1.small_random.get_n_obj)) :=
  ⟨⟨⟨by decide, by decide, by decide, by decide, by decide, by decide, by decide⟩,
      small_eviction_demotes_unaccessed.1 oneInsert zeroRng (CacheObj.ofRequest ⟨1, 5⟩)
        (by decide) (by decide) (by decide) (by decide) (by decide) (by decide) (by decide)⟩,
    ⟨⟨by decide, by decide, by decide, by decide, by decide, by decide, by decide⟩,
      small_eviction_demotes_unaccessed.2 (S3Random_insert plainEmpty ⟨1, 5⟩).1 zeroRng
        (CacheObj.ofRequest ⟨1, 5⟩) { cache_size := 90, objs := [] }
        (by decide) (by decide) (by decide) (by decide) (by decide) (by decide) (by decide)⟩⟩

/-! ## Forward progress of the Main eviction -/

theorem FreqReachableGet_foldl (C : Nat) (f : Nat → Request) (rs : Rng) (l : List Nat)
    (s : FreqCache) (h : FreqReachableGet C s) :
    FreqReachableGet C (l.foldl (fun s i => (S3Randomfreq_get s (f i) rs).1) s) := by
  induction l generalizing s with
  | nil => exact h
  | cons a l ih => exact ih _ (FreqReachableGet.get s (f a) rs h)

theorem zeroSizeInMain_reachable : FreqReachableGet 100 zeroSizeInMain :=
  FreqReachableGet.get _ _ _ (FreqReachableGet.get _ _ _
    (FreqReachableGet_foldl 100 (fun i => ⟨i + 2, 9⟩) zeroRng (List.range 11) _
      (FreqReachableGet.get _ _ _ FreqReachableGet.init)))

/-- C10, counterexample: in a state reached by `get` calls, Main holds one
object, of size 0; the Main eviction sees no occupied byte, does not enter
its loop, and Main still holds that object afterwards. -/
theorem S3Randomfreq_evict_main_skips_zero_byte_main :
    FreqReachableGet 100 zeroSizeInMain ∧
      zeroSizeInMain.main_random.get_n_obj = 1 ∧
      zeroSizeInMain.main_random.get_occupied_byte = 0 ∧
      (S3Randomfreq_evict_main zeroSizeInMain zeroRng).1.main_random.get_n_obj = 1 :=
  ⟨zeroSizeInMain_reachable, by decide, by decide, by decide⟩

/-- C10, amended: for every state in which Main holds at least one byte
(`Main.occupied_bytes > 0`) and for every sequence of candidate selections,
the Main eviction routine terminates (the loop leaves through its own exit:
more rounds than the budget change nothing) and Main holds exactly one object
fewer afterwards. -/
theorem S3Randomfreq_evict_main_removes_one (s : FreqCache) (rs : Rng)
    (hocc : 0 < s.main_random.get_occupied_byte) :
    (∀ fuel, spareBudget s.main_random.objs + 1 ≤ fuel →
        S3Randomfreq_evict_main_loop fuel s rs = S3Randomfreq_evict_main s rs) ∧
      (S3Randomfreq_evict_main s rs).1.main_random.get_n_obj + 1
        = s.main_random.get_n_obj := by
  constructor
  · intro fuel hfuel
    exact S3Randomfreq_evict_main_loop_fuel fuel _ s rs (by omega) (by omega)
  · exact (S3Randomfreq_evict_main_loop_removes _ s rs (by omega) hocc).1

/-- Witness of the amended C10 on the promoted object of `twoHitsPromoted`. -/
theorem S3Randomfreq_evict_main_removes_one_witness :
    0 < twoHitsPromoted.main_random.get_occupied_byte ∧
      (S3Randomfreq_evict_main twoHitsPromoted zeroRng).1.main_random.get_n_obj + 1
        = twoHitsPromoted.main_random.get_n_obj :=
  ⟨by decide, (S3Randomfreq_evict_main_removes_one twoHitsPromoted zeroRng (by decide)).2⟩

/-! ## One round of the Main eviction loop -/

theorem eraseP_eq_eraseIdx (l : List CacheObj) (i : Nat) (c : CacheObj)
    (h : l[i]? = some c) (hnodup : (l.map CacheObj.obj_id).Nodup) :
    l.eraseP (fun o => decide (o.obj_id = c.obj_id)) = l.eraseIdx i := by
  induction l generalizing i with
  | nil => simp at h
  | cons a l ih =>
    simp only [List.map_cons, List.nodup_cons] at hnodup
    cases i with
    | zero =>
      simp only [List.getElem?_cons_zero, Option.some.injEq] at h
      subst h
      simp
    | succ j =>
      simp only [List.getElem?_cons_succ] at h
      have hmem : c ∈ l := by
        obtain ⟨hlt, rfl⟩ := List.getElem?_eq_some.1 h
        exact List.getElem_mem _
      have hne : a.obj_id ≠ c.obj_id := by
        intro e
        exact hnodup.1 (e ▸ List.mem_map_of_mem _ hmem)
      rw [List.eraseP_cons_of_neg (by simpa using hne)]
      simp only [List.eraseIdx_cons_succ]
      rw [ih j h hnodup.2]

/-- C11 (frequency variant): one round of the Main eviction loop on the
selected candidate `c` (Main storing each identifier once).  If `c.freq > 0`,
`c` stays in its slot with `freq = min(freq, 3) - 1`, no object is removed,
every other slot is unchanged and the loop goes on with the next draw.  If
`c.freq = 0`, the round removes exactly the slot of `c` and the loop ends.
Small and Ghost are untouched in both cases. -/
theorem S3Randomfreq_evict_main_round (fuel : Nat) (s : FreqCache) (rs : Rng) (c : CacheObj)
    (hocc : 0 < s.main_random.get_occupied_byte)
    (hc : s.main_random.to_evict (rs 0) = some c)
    (hnodup : s.main_random.ids.Nodup) :
    (0 < c.freq →
      S3Randomfreq_evict_main_loop (fuel + 1) s rs
          = S3Randomfreq_evict_main_loop fuel (S3Randomfreq_spare s (rs 0) c) rs.tail ∧
        (S3Randomfreq_spare s (rs 0) c).main_random.objs
          = s.main_random.objs.set (s.main_random.slot (rs 0))
              { c with freq := min c.freq 3 - 1, misc_freq := c.freq } ∧
        (∀ j, j ≠ s.main_random.slot (rs 0) →
          (S3Randomfreq_spare s (rs 0) c).main_random.objs[j]? = s.main_random.objs[j]?) ∧
        (S3Randomfreq_spare s (rs 0) c).main_random.resident c.obj_id ∧
        (S3Randomfreq_spare s (rs 0) c).main_random.get_n_obj = s.main_random.get_n_obj ∧
        (S3Randomfreq_spare s (rs 0) c).small_random = s.small_random ∧
        (S3Randomfreq_spare s (rs 0) c).ghost_random = s.ghost_random) ∧
    (c.freq = 0 →
      S3Randomfreq_evict_main_loop (fuel + 1) s rs = (S3Randomfreq_drop s c, rs.tail) ∧
        (S3Randomfreq_drop s c).main_random.objs
          = s.main_random.objs.eraseIdx (s.main_random.slot (rs 0)) ∧
        ¬ (S3Randomfreq_drop s c).main_random.resident c.obj_id ∧
        (S3Randomfreq_drop s c).small_random = s.small_random ∧
        (S3Randomfreq_drop s c).ghost_random = s.ghost_random) := by
  constructor
  · intro hf
    refine ⟨?_, rfl, ?_, ?_, ?_, rfl, rfl⟩
    · rw [S3Randomfreq_evict_main_loop, if_pos hocc, hc]
      simp only [gt_iff_lt, if_pos hf]
    · intro j hj
      show (s.main_random.objs.set _ _)[j]? = _
      rw [List.getElem?_set]
      simp [Ne.symm hj]
    · show c.obj_id ∈ (S3Randomfreq_spare s (rs 0) c).main_random.ids
      rw [S3Randomfreq_spare_main_ids s (rs 0) c hc]
      exact Tier.to_evict_mem_ids _ _ _ hc
    · exact S3Randomfreq_spare_main_length s (rs 0) c
  · intro hf
    have hnot : ¬ c.freq > 0 := by omega
    refine ⟨S3Randomfreq_evict_main_loop_drop fuel s rs c hocc hc hnot, ?_, ?_, rfl, rfl⟩
    · show (s.main_random.remove c.obj_id).1.objs = _
      rw [Tier.remove_fst]
      exact eraseP_eq_eraseIdx _ _ c hc hnodup
    · exact Tier.remove_not_mem _ _ hnodup

/-! ## Choice of the eviction source -/

/-- C12 (both variants): `evict` is the Main eviction routine when
`Main.occupied_bytes > Main.capacity` or `Small.occupied_bytes = 0`, and the
Small eviction routine in every other state; each call is one of the two
routines, never both. -/
theorem evict_runs_main_iff_main_over_or_small_empty :
    (∀ (s : FreqCache) (rs : Rng),
      ((s.main_random.get_occupied_byte > s.main_random.cache_size
            ∨ s.small_random.get_occupied_byte = 0) →
          S3Randomfreq_evict s rs = S3Randomfreq_evict_main s rs) ∧
        (¬ (s.main_random.get_occupied_byte > s.main_random.cache_size
            ∨ s.small_random.get_occupied_byte = 0) →
          S3Randomfreq_evict s rs = S3Randomfreq_evict_small s rs)) ∧
    (∀ (confused_copy : Request → CacheObj → Request) (s : PlainCache) (rs : Rng),
      ((s.main_random.get_occupied_byte > s.main_random.cache_size
            ∨ s.small_random.get_occupied_byte = 0) →
          S3Random_evict confused_copy s rs
            = S3Random_evict_main_random confused_copy s rs) ∧
        (¬ (s.main_random.get_occupied_byte > s.main_random.cache_size
            ∨ s.small_random.get_occupied_byte = 0) →
          S3Random_evict confused_copy s rs = S3Random_evict_small_random s rs)) := by
  refine ⟨fun s rs => ⟨fun h => ?_, fun h => ?_⟩, fun cc s rs => ⟨fun h => ?_, fun h => ?_⟩⟩
  · unfold S3Randomfreq_evict; rw [if_pos h]
  · unfold S3Randomfreq_evict; rw [if_neg h]
  · unfold S3Random_evict; rw [if_pos h]
  · unfold S3Random_evict; rw [if_neg h]

/-- Witness of C12: a cache whose Small is empty (Main routine) and a cache
with bytes in Small and Main within its capacity (Small routine), for both
variants. -/
theorem evict_runs_main_iff_main_over_or_small_empty_witness :
    ((twoHitsPromoted.main_random.get_occupied_byte > twoHitsPromoted.main_random.cache_size
          ∨ twoHitsPromoted.small_random.get_occupied_byte = 0) ∧
        S3Randomfreq_evict twoHitsPromoted zeroRng
          = S3Randomfreq_evict_main twoHitsPromoted zeroRng) ∧
      (¬ (oneInsert.main_random.get_occupied_byte > oneInsert.main_random.cache_size
          ∨ oneInsert.small_random.get_occupied_byte = 0) ∧
        S3Randomfreq_evict oneInsert zeroRng = S3Randomfreq_evict_small oneInsert zeroRng) ∧
      ((plainEmpty.main_random.get_occupied_byte > plainEmpty.main_random.cache_size
          ∨ plainEmpty.small_random.get_occupied_byte = 0) ∧
        S3Random_evict (fun r _ => r) plainEmpty zeroRng
          = S3Random_evict_main_random (fun r _ => r) plainEmpty zeroRng) ∧
      (¬ (plainAccessed.main_random.get_occupied_byte > plainAccessed.main_random.cache_size
          ∨ plainAccessed.small_random.get_occupied_byte = 0) ∧
        S3Random_evict (fun r _ => r) plainAccessed zeroRng
          = S3Random_evict_small_random plainAccessed zeroRng) :=
  ⟨⟨by decide,
      (evict_runs_main_iff_main_over_or_small_empty.1 twoHitsPromoted zeroRng).1 (by decide)⟩,
    ⟨by decide,
      (evict_runs_main_iff_main_over_or_small_empty.1 oneInsert zeroRng).2 (by decide)⟩,
    ⟨by decide,
      (evict_runs_main_iff_main_over_or_small_empty.2 (fun r _ => r) plainEmpty zeroRng).1
        (by decide)⟩,
    ⟨by decide,
      (evict_runs_main_iff_main_over_or_small_empty.2 (fun r _ => r) plainAccessed zeroRng).2
        (by decide)⟩⟩

/-! ## Lookup -/

theorem S3Randomfreq_find_update_small (s : FreqCache) (req : Request) (o : CacheObj)
    (h : s.small_random.find req.obj_id = some o) :
    S3Randomfreq_find s req true
      = ({ s with hit_on_ghost := false,
                  small_random := s.small_random.update req.obj_id CacheObj.incr_freq },
          some o.incr_freq) := by
  unfold S3Randomfreq_find
  simp only [Bool.not_true, Bool.false_eq_true, if_false, h]

theorem S3Randomfreq_find_update_not_small (s : FreqCache) (req : Request)
    (h : s.small_random.find req.obj_id = none) :
    (S3Randomfreq_find s req true).1.small_random = s.small_random ∧
      (S3Randomfreq_find s req true).1.ghost_random = (s.ghost_random.remove req.obj_id).1 ∧
      (S3Randomfreq_find s req true).1.hit_on_ghost = (s.ghost_random.remove req.obj_id).2 ∧
      (S3Randomfreq_find s req true).1.main_random
        = (if (s.main_random.find req.obj_id).isSome
            then s.main_random.update req.obj_id CacheObj.incr_freq else s.main_random) ∧
      (S3Randomfreq_find s req true).2 = (s.main_random.find req.obj_id).map CacheObj.incr_freq := by
  unfold S3Randomfreq_find
  simp only [Bool.not_true, Bool.false_eq_true, if_false, h]
  cases hg : (s.ghost_random.remove req.obj_id).2 <;>
    cases hm : s.main_random.find req.obj_id <;> simp [hm]

theorem S3Random_find_update_small (s : PlainCache) (req : Request) (o : CacheObj)
    (h : s.small_random.find req.obj_id = some o) :
    S3Random_find s req true
      = ({ s with hit_on_ghost := false,
                  small_random := s.small_random.update req.obj_id CacheObj.set_promotion },
          some o.set_promotion) := by
  unfold S3Random_find
  simp only [Bool.not_true, Bool.false_eq_true, if_false, h]

theorem S3Random_find_update_not_small (s : PlainCache) (req : Request)
    (h : s.small_random.find req.obj_id = none) :
    (S3Random_find s req true).1.small_random = s.small_random ∧
      (S3Random_find s req true).1.main_random = s.main_random ∧
      (S3Random_find s req true).1.random_ghost
        = s.random_ghost.map (fun g => (g.remove req.obj_id).1) ∧
      (S3Random_find s req true).1.hit_on_ghost
        = (match s.random_ghost with
            | none => false
            | some g => (g.remove req.obj_id).2) ∧
      (S3Random_find s req true).2 = s.main_random.find req.obj_id := by
  unfold S3Random_find
  simp only [Bool.not_true, Bool.false_eq_true, if_false, h]
  cases hgo : s.random_ghost with
  | none => simp
  | some g =>
    cases hg : (g.remove req.obj_id).2 <;> simp [hg]

theorem Option.isSome_map_incr (x : Option CacheObj) :
    (x.map CacheObj.incr_freq).isSome = x.isSome := by
  cases x <;> rfl

/-- C13 (both variants): lookup with update returns a hit exactly when the
identifier is resident in Small or Main.  When it is resident only in Ghost
(Ghost storing it once) the result is a miss, the identifier is removed from
Ghost and `hit_on_ghost` is true afterwards.  When it is found in Small,
Ghost is not touched and `hit_on_ghost` is false afterwards. -/
theorem lookup_with_update_hit_iff_resident :
    (∀ (s : FreqCache) (req : Request),
      ((S3Randomfreq_find s req true).2.isSome ↔
          (s.small_random.resident req.obj_id ∨ s.main_random.resident req.obj_id)) ∧
        (s.ghost_random.resident req.obj_id → ¬ s.small_random.resident req.obj_id →
          ¬ s.main_random.resident req.obj_id → s.ghost_random.ids.Nodup →
          (S3Randomfreq_find s req true).2 = none ∧
            ¬ (S3Randomfreq_find s req true).1.ghost_random.resident req.obj_id ∧
            (S3Randomfreq_find s req true).1.hit_on_ghost = true) ∧
        (s.small_random.resident req.obj_id →
          (S3Randomfreq_find s req true).1.ghost_random = s.ghost_random ∧
            (S3Randomfreq_find s req true).1.hit_on_ghost = false)) ∧
    (∀ (s : PlainCache) (req : Request),
      ((S3Random_find s req true).2.isSome ↔
          (s.small_random.resident req.obj_id ∨ s.main_random.resident req.obj_id)) ∧
        (∀ ghost : Tier, s.random_ghost = some ghost → ghost.resident req.obj_id →
          ¬ s.small_random.resident req.obj_id → ¬ s.main_random.resident req.obj_id →
          ghost.ids.Nodup →
          (S3Random_find s req true).2 = none ∧
            (∃ g, (S3Random_find s req true).1.random_ghost = some g ∧
              ¬ g.resident req.obj_id) ∧
            (S3Random_find s req true).1.hit_on_ghost = true) ∧
        (s.small_random.resident req.obj_id →
          (S3Random_find s req true).1.random_ghost = s.random_ghost ∧
            (S3Random_find s req true).1.hit_on_ghost = false)) := by
  constructor
  · intro s req
    refine ⟨?_, ?_, ?_⟩
    · cases hs : s.small_random.find req.obj_id with
      | some o =>
        rw [S3Randomfreq_find_update_small s req o hs]
        have : s.small_random.resident req.obj_id :=
          (Tier.find_isSome_iff _ _).1 (by rw [hs]; rfl)
        simp [this]
      | none =>
        have hn : ¬ s.small_random.resident req.obj_id := (Tier.find_eq_none_iff _ _).1 hs
        rw [(S3Randomfreq_find_update_not_small s req hs).2.2.2.2, Option.isSome_map_incr,
          Tier.find_isSome_iff]
        exact ⟨fun h => Or.inr h, fun h => h.resolve_left hn⟩
    · intro hg hs hm hnodup
      have e1 : s.small_random.find req.obj_id = none := (Tier.find_eq_none_iff _ _).2 hs
      have e2 : s.main_random.find req.obj_id = none := (Tier.find_eq_none_iff _ _).2 hm
      obtain ⟨_, h2, h3, _, h5⟩ := S3Randomfreq_find_update_not_small s req e1
      refine ⟨by rw [h5, e2]; rfl, ?_, ?_⟩
      · rw [h2]; exact Tier.remove_not_mem _ _ hnodup
      · rw [h3]; exact (Tier.remove_snd _ _).2 hg
    · intro hs
      obtain ⟨o, ho⟩ := Option.isSome_iff_exists.1 ((Tier.find_isSome_iff _ _).2 hs)
      rw [S3Randomfreq_find_update_small s req o ho]
      exact ⟨rfl, rfl⟩
  · intro s req
    refine ⟨?_, ?_, ?_⟩
    · cases hs : s.small_random.find req.obj_id with
      | some o =>
        rw [S3Random_find_update_small s req o hs]
        have : s.small_random.resident req.obj_id :=
          (Tier.find_isSome_iff _ _).1 (by rw [hs]; rfl)
        simp [this]
      | none =>
        have hn : ¬ s.small_random.resident req.obj_id := (Tier.find_eq_none_iff _ _).1 hs
        rw [(S3Random_find_update_not_small s req hs).2.2.2.2, Tier.find_isSome_iff]
        exact ⟨fun h => Or.inr h, fun h => h.resolve_left hn⟩
    · intro ghost hgo hg hs hm hnodup
      have e1 : s.small_random.find req.obj_id = none := (Tier.find_eq_none_iff _ _).2 hs
      have e2 : s.main_random.find req.obj_id = none := (Tier.find_eq_none_iff _ _).2 hm
      obtain ⟨_, _, h3, h4, h5⟩ := S3Random_find_update_not_small s req e1
      refine ⟨by rw [h5, e2], ⟨(ghost.remove req.obj_id).1, ?_, ?_⟩, ?_⟩
      · rw [h3, hgo]; rfl
      · exact Tier.remove_not_mem _ _ hnodup
      · rw [h4, hgo]; exact (Tier.remove_snd _ _).2 hg
    · intro hs
      obtain ⟨o, ho⟩ := Option.isSome_iff_exists.1 ((Tier.find_isSome_iff _ _).2 hs)
      rw [S3Random_find_update_small s req o ho]
      exact ⟨rfl, rfl⟩

/-- Witness of C13: identifier 1 resident only in Ghost (`freqGhostOne`,
`plainGhostOne`) and resident in Small (`oneInsert`, `plainAccessed`). -/
theorem lookup_with_update_hit_iff_resident_witness :
    ((freqGhostOne.ghost_random.resident 1 ∧ ¬ freqGhostOne.small_random.resident 1 ∧
          ¬ freqGhostOne.main_random.resident 1 ∧ freqGhostOne.ghost_random.ids.Nodup) ∧
        ((S3Randomfreq_find freqGhostOne ⟨1, 5⟩ true).2 = none ∧
          ¬ (S3Randomfreq_find freqGhostOne ⟨1, 5⟩ true).1.ghost_random.resident 1 ∧
          (S3Randomfreq_find freqGhostOne ⟨1, 5⟩ true).1.hit_on_ghost = true)) ∧
      (oneInsert.small_random.resident 1 ∧
        ((S3Randomfreq_find oneInsert ⟨1, 5⟩ true).1.ghost_random = oneInsert.ghost_random ∧
          (S3Randomfreq_find oneInsert ⟨1, 5⟩ true).1.hit_on_ghost = false)) ∧
      ((plainGhostOne.random_ghost = some { cache_size := 90, objs := [CacheObj.ofRequest ⟨1, 5⟩] }
          ∧ ¬ plainGhostOne.small_random.resident 1 ∧ ¬ plainGhostOne.main_random.resident 1) ∧
        ((S3Random_find plainGhostOne ⟨1, 5⟩ true).2 = none ∧
          (∃ g, (S3Random_find plainGhostOne ⟨1, 5⟩ true).1.random_ghost = some g ∧
            ¬ g.resident 1) ∧
          (S3Random_find plainGhostOne ⟨1, 5⟩ true).1.hit_on_ghost = true)) ∧
      (plainAccessed.small_random.resident 1 ∧
        ((S3Random_find plainAccessed ⟨1, 5⟩ true).1.random_ghost = plainAccessed.random_ghost ∧
          (S3Random_find plainAccessed ⟨1, 5⟩ true).1.hit_on_ghost = false)) :=
  ⟨⟨⟨by decide, by decide, by decide, by decide⟩,
      (lookup_with_update_hit_iff_resident.1 freqGhostOne ⟨1, 5⟩).2.1
        (by decide) (by decide) (by decide) (by decide)⟩,
    ⟨by decide, (lookup_with_update_hit_iff_resident.1 oneInsert ⟨1, 5⟩).2.2 (by decide)⟩,
    ⟨⟨by decide, by decide, by decide⟩,
      (lookup_with_update_hit_iff_resident.2 plainGhostOne ⟨1, 5⟩).2.1
        { cache_size := 90, objs := [CacheObj.ofRequest ⟨1, 5⟩] }
        (by decide) (by decide) (by decide) (by decide) (by decide)⟩,
    ⟨by decide, (lookup_with_update_hit_iff_resident.2 plainAccessed ⟨1, 5⟩).2.2 (by decide)⟩⟩

/-- C14 (both variants): a lookup without metadata update leaves the whole
cache state as it was and returns the object found in Small, otherwise the
object found in Main, otherwise nothing. -/
theorem lookup_without_update_is_pure :
    (∀ (s : FreqCache) (req : Request),
      S3Randomfreq_find s req false
        = (s, (s.small_random.find req.obj_id).or (s.main_random.find req.obj_id))) ∧
    (∀ (s : PlainCache) (req : Request),
      S3Random_find s req false
        = (s, (s.small_random.find req.obj_id).or (s.main_random.find req.obj_id))) := by
  constructor
  · intro s req
    unfold S3Randomfreq_find
    cases hs : s.small_random.find req.obj_id <;>
      cases hm : s.main_random.find req.obj_id <;> simp [hs, hm]
  · intro s req
    unfold S3Random_find
    cases hs : s.small_random.find req.obj_id <;>
      cases hm : s.main_random.find req.obj_id <;> simp [hs, hm]

/-- C19 (both variants): lookup with update on two states that differ only in
`hit_on_ghost` gives the same result and the same state afterwards, and the
flag it leaves is true exactly when the identifier was not in Small and was
in Ghost. -/
theorem hit_on_ghost_does_not_leak :
    (∀ (s : FreqCache) (req : Request) (b : Bool),
      S3Randomfreq_find { s with hit_on_ghost := b } req true = S3Randomfreq_find s req true) ∧
    (∀ (s : FreqCache) (req : Request),
      (S3Randomfreq_find s req true).1.hit_on_ghost = true ↔
        (¬ s.small_random.resident req.obj_id ∧ s.ghost_random.resident req.obj_id)) ∧
    (∀ (s : PlainCache) (req : Request) (b : Bool),
      S3Random_find { s with hit_on_ghost := b } req true = S3Random_find s req true) ∧
    (∀ (s : PlainCache) (req : Request),
      (S3Random_find s req true).1.hit_on_ghost = true ↔
        (¬ s.small_random.resident req.obj_id ∧
          ∃ ghost, s.random_ghost = some ghost ∧ ghost.resident req.obj_id)) := by
  refine ⟨fun s req b => rfl, fun s req => ?_, fun s req b => rfl, fun s req => ?_⟩
  · cases hs : s.small_random.find req.obj_id with
    | some o =>
      rw [S3Randomfreq_find_update_small s req o hs]
      have : s.small_random.resident req.obj_id :=
        (Tier.find_isSome_iff _ _).1 (by rw [hs]; rfl)
      simp [this]
    | none =>
      have hn : ¬ s.small_random.resident req.obj_id := (Tier.find_eq_none_iff _ _).1 hs
      rw [(S3Randomfreq_find_update_not_small s req hs).2.2.1, Tier.remove_snd]
      exact ⟨fun h => ⟨hn, h⟩, fun h => h.2⟩
  · cases hs : s.small_random.find req.obj_id with
    | some o =>
      rw [S3Random_find_update_small s req o hs]
      have : s.small_random.resident req.obj_id :=
        (Tier.find_isSome_iff _ _).1 (by rw [hs]; rfl)
      simp [this]
    | none =>
      have hn : ¬ s.small_random.resident req.obj_id := (Tier.find_eq_none_iff _ _).1 hs
      rw [(S3Random_find_update_not_small s req hs).2.2.2.1]
      cases hgo : s.random_ghost with
      | none => simp
      | some g =>
        simp only [Tier.remove_snd, Option.some.injEq, exists_eq_left']
        exact ⟨fun h => ⟨hn, h⟩, fun h => h.2⟩

/-- Witness of C11: the Main object of `promotedHit` (`freq = 1`, spared) and
the Main object of `twoHitsPromoted` (`freq = 0`, removed). -/
theorem S3Randomfreq_evict_main_round_witness :
    ((0 < promotedHit.main_random.get_occupied_byte ∧
          promotedHit.main_random.to_evict (zeroRng 0)
            = some { obj_id := 1, obj_size := 5, freq := 1, promotion := false,
                     misc_freq := 0 } ∧
          promotedHit.main_random.ids.Nodup) ∧
        ((S3Randomfreq_spare promotedHit (zeroRng 0)
            { obj_id := 1, obj_size := 5, freq := 1, promotion := false,
              misc_freq := 0 }).main_random.objs
          = promotedHit.main_random.objs.set (promotedHit.main_random.slot (zeroRng 0))
              { obj_id := 1, obj_size := 5, freq := 0, promotion := false, misc_freq := 1 })) ∧
      ((0 < twoHitsPromoted.main_random.get_occupied_byte ∧
          twoHitsPromoted.main_random.to_evict (zeroRng 0)
            = some { obj_id := 1, obj_size := 5, freq := 0, promotion := false,
                     misc_freq := 0 } ∧
          twoHitsPromoted.main_random.ids.Nodup) ∧
        ¬ (S3Randomfreq_drop twoHitsPromoted
            { obj_id := 1, obj_size := 5, freq := 0, promotion := false,
              misc_freq := 0 }).main_random.resident 1) :=
  ⟨⟨⟨by decide, by decide, by decide⟩,
      ((S3Randomfreq_evict_main_round 0 promotedHit zeroRng
        { obj_id := 1, obj_size := 5, freq := 1, promotion := false, misc_freq := 0 }
        (by decide) (by decide) (by decide)).1 (by decide)).2.1⟩,
    ⟨⟨by decide, by decide, by decide⟩,
      ((S3Randomfreq_evict_main_round 0 twoHitsPromoted zeroRng
        { obj_id := 1, obj_size := 5, freq := 0, promotion := false, misc_freq := 0 }
        (by decide) (by decide) (by decide)).2 (by decide)).2.2.1⟩⟩

/-! ## Insert, remove and the admission gate -/

theorem updateFirst_head (req : Request) (f : CacheObj → CacheObj) (l : List CacheObj) :
    updateFirst req.obj_id f (CacheObj.ofRequest req :: l) = f (CacheObj.ofRequest req) :: l := by
  simp [updateFirst, CacheObj.ofRequest]

/-- C15 (frequency variant): `insert` returns NULL exactly when `hit_on_ghost`
is true and `size >= Main.capacity`, or `hit_on_ghost` is false and
`size >= Small.capacity`, and then Small, Main and Ghost are unchanged; in
every other case the new object, with `freq = 0`, is added to Main alone if
`hit_on_ghost` was true and to Small alone otherwise; `hit_on_ghost` is false
after every call. -/
theorem S3Randomfreq_insert_routing (s : FreqCache) (req : Request) :
    ((S3Randomfreq_insert s req).2 = none ↔
        ((s.hit_on_ghost = true ∧ req.obj_size ≥ s.main_random.cache_size) ∨
          (s.hit_on_ghost = false ∧ req.obj_size ≥ s.small_random.cache_size))) ∧
      ((S3Randomfreq_insert s req).2 = none →
        (S3Randomfreq_insert s req).1.small_random = s.small_random ∧
          (S3Randomfreq_insert s req).1.main_random = s.main_random ∧
          (S3Randomfreq_insert s req).1.ghost_random = s.ghost_random) ∧
      ((S3Randomfreq_insert s req).2 ≠ none → s.hit_on_ghost = true →
        (S3Randomfreq_insert s req).1.main_random.objs
            = { obj_id := req.obj_id, obj_size := req.obj_size, freq := 0, promotion := false,
                misc_freq := 0 } :: s.main_random.objs ∧
          (S3Randomfreq_insert s req).1.small_random = s.small_random ∧
          (S3Randomfreq_insert s req).1.ghost_random = s.ghost_random) ∧
      ((S3Randomfreq_insert s req).2 ≠ none → s.hit_on_ghost = false →
        (S3Randomfreq_insert s req).1.small_random.objs
            = { obj_id := req.obj_id, obj_size := req.obj_size, freq := 0, promotion := false,
                misc_freq := 0 } :: s.small_random.objs ∧
          (S3Randomfreq_insert s req).1.main_random = s.main_random ∧
          (S3Randomfreq_insert s req).1.ghost_random = s.ghost_random) ∧
      (S3Randomfreq_insert s req).1.hit_on_ghost = false := by
  unfold S3Randomfreq_insert
  cases hh : s.hit_on_ghost
  · by_cases hsz : req.obj_size ≥ s.small_random.cache_size
    · simp [hsz, hh]
    · simp only [Bool.false_eq_true, if_false, hsz, Tier.update, Tier.insert, updateFirst_head]
      simp [hh, CacheObj.reset_freq, CacheObj.ofRequest]
  · by_cases hsz : req.obj_size ≥ s.main_random.cache_size
    · simp [hsz]
    · simp only [if_true, hsz, if_false, Tier.update, Tier.insert, updateFirst_head]
      simp [CacheObj.reset_freq, CacheObj.ofRequest]

/-- Witness of C15: a refused insert (size 10 into Small of capacity 10), an
insert routed to Main (`hit_on_ghost` true) and one routed to Small. -/
theorem S3Randomfreq_insert_routing_witness :
    ((S3Randomfreq_insert (S3Randomfreq_init 100) ⟨1, 10⟩).2 = none ∧
        (S3Randomfreq_insert (S3Randomfreq_init 100) ⟨1, 10⟩).1.small_random
          = (S3Randomfreq_init 100).small_random) ∧
      (((S3Randomfreq_insert (S3Randomfreq_find freqGhostOne ⟨1, 5⟩ true).1 ⟨1, 5⟩).2 ≠ none ∧
          (S3Randomfreq_find freqGhostOne ⟨1, 5⟩ true).1.hit_on_ghost = true) ∧
        (S3Randomfreq_insert (S3Randomfreq_find freqGhostOne ⟨1, 5⟩ true).1
            ⟨1, 5⟩).1.small_random
          = (S3Randomfreq_find freqGhostOne ⟨1, 5⟩ true).1.small_random) ∧
      (((S3Randomfreq_insert (S3Randomfreq_init 100) ⟨1, 5⟩).2 ≠ none ∧
          (S3Randomfreq_init 100).hit_on_ghost = false) ∧
        (S3Randomfreq_insert (S3Randomfreq_init 100) ⟨1, 5⟩).1.main_random
          = (S3Randomfreq_init 100).main_random) :=
  ⟨⟨by decide,
      ((S3Randomfreq_insert_routing (S3Randomfreq_init 100) ⟨1, 10⟩).2.1 (by decide)).1⟩,
    ⟨⟨by decide, by decide⟩,
      ((S3Randomfreq_insert_routing (S3Randomfreq_find freqGhostOne ⟨1, 5⟩ true).1
        ⟨1, 5⟩).2.2.1 (by decide) (by decide)).2.1⟩,
    ⟨⟨by decide, by decide⟩,
      ((S3Randomfreq_insert_routing (S3Randomfreq_init 100) ⟨1, 5⟩).2.2.2.1
        (by decide) (by decide)).2.1⟩⟩

theorem S3Randomfreq_remove_in_small (s : FreqCache) (obj_id : Nat)
    (h : s.small_random.resident obj_id) :
    S3Randomfreq_remove s obj_id
      = ({ s with small_random := (s.small_random.remove obj_id).1 }, true) := by
  have e1 : (s.small_random.remove obj_id).2 = true := (Tier.remove_snd _ _).2 h
  unfold S3Randomfreq_remove
  simp only [e1, if_true]

theorem S3Randomfreq_remove_in_ghost (s : FreqCache) (obj_id : Nat)
    (h1 : ¬ s.small_random.resident obj_id) (h2 : s.ghost_random.resident obj_id) :
    S3Randomfreq_remove s obj_id
      = ({ s with ghost_random := (s.ghost_random.remove obj_id).1 }, true) := by
  have e1 : ¬ (s.small_random.remove obj_id).2 = true := fun h => h1 ((Tier.remove_snd _ _).1 h)
  have e2 : (s.ghost_random.remove obj_id).2 = true := (Tier.remove_snd _ _).2 h2
  unfold S3Randomfreq_remove
  simp only [e1, e2, if_true, Bool.false_eq_true, if_false]

theorem S3Randomfreq_remove_not_small_ghost (s : FreqCache) (obj_id : Nat)
    (h1 : ¬ s.small_random.resident obj_id) (h2 : ¬ s.ghost_random.resident obj_id) :
    S3Randomfreq_remove s obj_id
      = ({ s with main_random := (s.main_random.remove obj_id).1 },
          (s.main_random.remove obj_id).2) := by
  have e1 : ¬ (s.small_random.remove obj_id).2 = true := fun h => h1 ((Tier.remove_snd _ _).1 h)
  have e2 : ¬ (s.ghost_random.remove obj_id).2 = true := fun h => h2 ((Tier.remove_snd _ _).1 h)
  unfold S3Randomfreq_remove
  simp only [e1, e2, Bool.false_eq_true, if_false]

/-- C16 (frequency variant): `remove` returns true exactly when the identifier
is resident in Small, Ghost or Main.  It then takes one object with this
identifier out of the first tier that holds it, in the order Small, Ghost,
Main (after which the identifier is no longer resident there, the tier
storing it once), and leaves the other two tiers unchanged.  When it returns
false the cache is unchanged. -/
theorem S3Randomfreq_remove_first_tier (s : FreqCache) (obj_id : Nat) :
    ((S3Randomfreq_remove s obj_id).2 = true ↔
        (s.small_random.resident obj_id ∨ s.ghost_random.resident obj_id
          ∨ s.main_random.resident obj_id)) ∧
      (s.small_random.resident obj_id →
        (S3Randomfreq_remove s obj_id).1.small_random = (s.small_random.remove obj_id).1 ∧
          (S3Randomfreq_remove s obj_id).1.small_random.get_n_obj + 1
            = s.small_random.get_n_obj ∧
          (s.small_random.ids.Nodup →
            ¬ (S3Randomfreq_remove s obj_id).1.small_random.resident obj_id) ∧
          (S3Randomfreq_remove s obj_id).1.ghost_random = s.ghost_random ∧
          (S3Randomfreq_remove s obj_id).1.main_random = s.main_random) ∧
      (¬ s.small_random.resident obj_id → s.ghost_random.resident obj_id →
        (S3Randomfreq_remove s obj_id).1.ghost_random = (s.ghost_random.remove obj_id).1 ∧
          (S3Randomfreq_remove s obj_id).1.ghost_random.get_n_obj + 1
            = s.ghost_random.get_n_obj ∧
          (s.ghost_random.ids.Nodup →
            ¬ (S3Randomfreq_remove s obj_id).1.ghost_random.resident obj_id) ∧
          (S3Randomfreq_remove s obj_id).1.small_random = s.small_random ∧
          (S3Randomfreq_remove s obj_id).1.main_random = s.main_random) ∧
      (¬ s.small_random.resident obj_id → ¬ s.ghost_random.resident obj_id →
        s.main_random.resident obj_id →
        (S3Randomfreq_remove s obj_id).1.main_random = (s.main_random.remove obj_id).1 ∧
          (S3Randomfreq_remove s obj_id).1.main_random.get_n_obj + 1
            = s.main_random.get_n_obj ∧
          (s.main_random.ids.Nodup →
            ¬ (S3Randomfreq_remove s obj_id).1.main_random.resident obj_id) ∧
          (S3Randomfreq_remove s obj_id).1.small_random = s.small_random ∧
          (S3Randomfreq_remove s obj_id).1.ghost_random = s.ghost_random) ∧
      ((S3Randomfreq_remove s obj_id).2 = false → (S3Randomfreq_remove s obj_id).1 = s) := by
  refine ⟨?_, ?_, ?_, ?_, ?_⟩
  · by_cases h1 : s.small_random.resident obj_id
    · rw [S3Randomfreq_remove_in_small s obj_id h1]
      simp [h1]
    · by_cases h2 : s.ghost_random.resident obj_id
      · rw [S3Randomfreq_remove_in_ghost s obj_id h1 h2]
        simp [h2]
      · rw [S3Randomfreq_remove_not_small_ghost s obj_id h1 h2]
        simp only [h1, h2, false_or]
        exact Tier.remove_snd _ _
  · intro h1
    rw [S3Randomfreq_remove_in_small s obj_id h1]
    exact ⟨rfl, Tier.remove_length _ _ h1, fun hn => Tier.remove_not_mem _ _ hn, rfl, rfl⟩
  · intro h1 h2
    rw [S3Randomfreq_remove_in_ghost s obj_id h1 h2]
    exact ⟨rfl, Tier.remove_length _ _ h2, fun hn => Tier.remove_not_mem _ _ hn, rfl, rfl⟩
  · intro h1 h2 h3
    rw [S3Randomfreq_remove_not_small_ghost s obj_id h1 h2]
    exact ⟨rfl, Tier.remove_length _ _ h3, fun hn => Tier.remove_not_mem _ _ hn, rfl, rfl⟩
  · intro hf
    by_cases h1 : s.small_random.resident obj_id
    · rw [S3Randomfreq_remove_in_small s obj_id h1] at hf
      exact Bool.noConfusion hf
    · by_cases h2 : s.ghost_random.resident obj_id
      · rw [S3Randomfreq_remove_in_ghost s obj_id h1 h2] at hf
        exact Bool.noConfusion hf
      · rw [S3Randomfreq_remove_not_small_ghost s obj_id h1 h2] at hf ⊢
        have h3 : ¬ s.main_random.resident obj_id := by
          intro h
          have := (Tier.remove_snd s.main_random obj_id).2 h
          simp only at hf
          rw [this] at hf
          exact Bool.noConfusion hf
        simp only
        rw [Tier.remove_of_not_mem _ _ h3]

/-- Witness of C16: identifier 1 resident in Small (`oneInsert`), only in Ghost
(`freqGhostOne`) and only in Main (`twoHitsPromoted`). -/
theorem S3Randomfreq_remove_first_tier_witness :
    (oneInsert.small_random.resident 1 ∧
        ¬ (S3Randomfreq_remove oneInsert 1).1.small_random.resident 1) ∧
      ((¬ freqGhostOne.small_random.resident 1 ∧ freqGhostOne.ghost_random.resident 1) ∧
        ¬ (S3Randomfreq_remove freqGhostOne 1).1.ghost_random.resident 1) ∧
      ((¬ twoHitsPromoted.small_random.resident 1 ∧ ¬ twoHitsPromoted.ghost_random.resident 1 ∧
          twoHitsPromoted.main_random.resident 1) ∧
        ¬ (S3Randomfreq_remove twoHitsPromoted 1).1.main_random.resident 1) ∧
      ((S3Randomfreq_remove oneInsert 2).2 = false ∧
        (S3Randomfreq_remove oneInsert 2).1 = oneInsert) :=
  ⟨⟨by decide,
      ((S3Randomfreq_remove_first_tier oneInsert 1).2.1 (by decide)).2.2.1 (by decide)⟩,
    ⟨⟨by decide, by decide⟩,
      ((S3Randomfreq_remove_first_tier freqGhostOne 1).2.2.1 (by decide)
        (by decide)).2.2.1 (by decide)⟩,
    ⟨⟨by decide, by decide, by decide⟩,
      ((S3Randomfreq_remove_first_tier twoHitsPromoted 1).2.2.2.1 (by decide) (by decide)
        (by decide)).2.2.1 (by decide)⟩,
    ⟨by decide, (S3Randomfreq_remove_first_tier oneInsert 2).2.2.2.2 (by decide)⟩⟩

/-- C17 (frequency variant), the code at the failing input: on a fresh cache
of capacity 100 (Small capacity 10, `hit_on_ghost` false) the gate admits a
request of size 10 and `insert` refuses it as too big for Small.  For every
other size the gate and the size check of `insert` agree. -/
theorem S3Randomfreq_gate_admits_what_insert_refuses :
    ((S3Randomfreq_init 100).hit_on_ghost = false ∧
        (S3Randomfreq_init 100).small_random.cache_size = 10 ∧
        S3Randomfreq_can_insert (S3Randomfreq_init 100) ⟨1, 10⟩ = true ∧
        (S3Randomfreq_insert (S3Randomfreq_init 100) ⟨1, 10⟩).2 = none) ∧
      (∀ (s : FreqCache) (req : Request), s.hit_on_ghost = false →
        req.obj_size ≠ s.small_random.cache_size →
        (S3Randomfreq_can_insert s req = true ↔ (S3Randomfreq_insert s req).2 ≠ none)) := by
  refine ⟨by decide, ?_⟩
  intro s req hh hne
  unfold S3Randomfreq_can_insert S3Randomfreq_insert
  by_cases hsz : req.obj_size ≥ s.small_random.cache_size
  · simp only [hh, Bool.false_eq_true, if_false, hsz, if_true, ne_eq, not_true_eq_false,
      iff_false, decide_eq_true_eq]
    omega
  · simp only [hh, Bool.false_eq_true, if_false, hsz, ne_eq, decide_eq_true_eq]
    simp
    omega

/-- C18 (plain variant), the code for every total capacity `C`: `init` never
reads the default options, both ratios are still 0, so Small gets capacity 0,
Main gets `C` and no Ghost tier is created; for `C = 100` this is Small = 0,
Main = 100 and no Ghost, not Small = 10, Main = 90 and a Ghost tier. -/
theorem S3Random_init_ignores_default_options (C : Nat) :
    (S3Random_init C).small_random.cache_size = 0 ∧
      (S3Random_init C).main_random.cache_size = C ∧
      (S3Random_init C).random_ghost = none ∧
      (S3Random_init C).small_random_size_ratio = 0 ∧
      (S3Random_init C).ghost_size_ratio = 0 := by
  simp [S3Random_init, scaled_size]

/-! ## One access per lookup -/

/-- The write through a found pointer changes the first object with the
identifier and nothing else. -/
theorem updateFirst_split (id : Nat) (f : CacheObj → CacheObj) (l : List CacheObj)
    (h : id ∈ l.map CacheObj.obj_id) :
    ∃ pre o post, l = pre ++ o :: post ∧ o.obj_id = id ∧ id ∉ pre.map CacheObj.obj_id ∧
      updateFirst id f l = pre ++ f o :: post := by
  induction l with
  | nil => simp at h
  | cons a l ih =>
    by_cases ha : a.obj_id = id
    · exact ⟨[], a, l, rfl, ha, by simp, by simp [updateFirst, ha]⟩
    · have h2 : id ∈ l.map CacheObj.obj_id := by
        simp only [List.map_cons, List.mem_cons] at h
        rcases h with h | h
        · exact absurd h.symm ha
        · exact h
      obtain ⟨pre, o, post, e1, e2, e3, e4⟩ := ih h2
      refine ⟨a :: pre, o, post, by rw [e1]; rfl, e2, ?_, ?_⟩
      · simp only [List.map_cons, List.mem_cons, not_or]
        exact ⟨fun e => ha e.symm, e3⟩
      · simp [updateFirst, ha, e4]

/-! ## Tier sizes of the frequency variant -/

/-- C26, counterexample: for the total capacity 7000000000000009 the double
product with 0.1 rounds up to the next integer, and Small gets capacity
700000000000001 instead of floor(C / 10) = 700000000000000. -/
theorem S3Randomfreq_init_small_above_floor_tenth :
    (S3Randomfreq_init 7000000000000009).small_random.cache_size = 700000000000001 ∧
      7000000000000009 / 10 = 700000000000000 ∧
      (S3Randomfreq_init 7000000000000009).small_random.cache_size
        ≠ 7000000000000009 / 10 := by
  decide

/-- C26, amended: a cache initialised with total capacity `C` gets
Main.capacity = C - Small.capacity and Small.capacity + Main.capacity = C;
for `C < 2 ^ 49` moreover Small.capacity = floor(C / 10) and
Ghost.capacity = floor(9 * C / 10); for `C = 100` this is Small = 10,
Main = 90, Ghost = 90. -/
theorem S3Randomfreq_init_capacities (C : Nat) :
    ((S3Randomfreq_init C).main_random.cache_size
          = C - (S3Randomfreq_init C).small_random.cache_size ∧
        (S3Randomfreq_init C).small_random.cache_size
          + (S3Randomfreq_init C).main_random.cache_size = C) ∧
      (C < 2 ^ 49 →
        (S3Randomfreq_init C).small_random.cache_size = C / 10 ∧
          (S3Randomfreq_init C).ghost_random.cache_size = 9 * C / 10) ∧
      ((S3Randomfreq_init 100).small_random.cache_size = 10 ∧
        (S3Randomfreq_init 100).main_random.cache_size = 90 ∧
        (S3Randomfreq_init 100).ghost_random.cache_size = 90) := by
  have hle : double_mul_trunc C 3602879701896397 55 ≤ C :=
    double_mul_trunc_le _ _ _ (by norm_num)
  refine ⟨⟨rfl, ?_⟩, ?_, by decide⟩
  · show double_mul_trunc C 3602879701896397 55
      + (C - double_mul_trunc C 3602879701896397 55) = C
    omega
  · intro h
    refine ⟨double_mul_trunc_tenth C h, ?_⟩
    show double_mul_trunc C 8106479329266893 53 = 9 * C / 10
    rw [double_mul_trunc_nine_tenths C h, Nat.mul_comm]

/-- Witness of the amended C26 at `C = 1000`. -/
theorem S3Randomfreq_init_capacities_witness :
    (1000 < 2 ^ 49) ∧
      ((S3Randomfreq_init 1000).small_random.cache_size = 1000 / 10 ∧
        (S3Randomfreq_init 1000).ghost_random.cache_size = 9 * 1000 / 10) :=
  ⟨by decide, (S3Randomfreq_init_capacities 1000).2.1 (by decide)⟩

/-! ## Plain variant: Main hit, Main eviction, oversized ghost-hit insert -/

/-- The lookup of the plain variant on the hand-configured cache (a state that
`S3Random_init` cannot lead to, see `PlainReachable_empty`): object 1 is
resident in Main only, with its `promotion` (accessed) flag false; the lookup
with update returns it as a hit and the flag is still false afterwards. -/
theorem S3Random_main_hit_leaves_flag_false :
    ¬ plainMainOnly.small_random.resident 1 ∧
      (S3Random_find plainMainOnly ⟨1, 10⟩ true).2
        = some { obj_id := 1, obj_size := 10, freq := 0, promotion := false,
                 misc_freq := 0 } ∧
      (S3Random_find plainMainOnly ⟨1, 10⟩ true).1.main_random.find 1
        = some { obj_id := 1, obj_size := 10, freq := 0, promotion := false,
                 misc_freq := 0 } := by
  decide

/-- The lookup of the plain variant, for every state: a lookup with update that
finds the identifier in Main and not in Small returns the Main-resident
object as a hit and leaves Main unchanged, the `promotion` (accessed) flag of
the object included; Small is unchanged as well. -/
theorem S3Random_main_hit_changes_nothing (s : PlainCache) (req : Request)
    (hs : ¬ s.small_random.resident req.obj_id) (hm : s.main_random.resident req.obj_id) :
    (S3Random_find s req true).2 = s.main_random.find req.obj_id ∧
      (S3Random_find s req true).2.isSome = true ∧
      (S3Random_find s req true).1.main_random = s.main_random ∧
      (S3Random_find s req true).1.small_random = s.small_random := by
  have e1 : s.small_random.find req.obj_id = none := (Tier.find_eq_none_iff _ _).2 hs
  obtain ⟨h1, h2, _, _, h5⟩ := S3Random_find_update_not_small s req e1
  refine ⟨h5, ?_, h2, h1⟩
  rw [h5]
  exact (Tier.find_isSome_iff _ _).2 hm

/-- The Main-hit lemma applied to `plainMainOnly`. -/
theorem S3Random_main_hit_changes_nothing_witness :
    (¬ plainMainOnly.small_random.resident 1 ∧ plainMainOnly.main_random.resident 1) ∧
      ((S3Random_find plainMainOnly ⟨1, 10⟩ true).2 = plainMainOnly.main_random.find 1 ∧
        (S3Random_find plainMainOnly ⟨1, 10⟩ true).2.isSome = true ∧
        (S3Random_find plainMainOnly ⟨1, 10⟩ true).1.main_random = plainMainOnly.main_random ∧
        (S3Random_find plainMainOnly ⟨1, 10⟩ true).1.small_random
          = plainMainOnly.small_random) :=
  ⟨⟨by decide, by decide⟩,
    S3Random_main_hit_changes_nothing plainMainOnly ⟨1, 10⟩ (by decide) (by decide)⟩

/-- The Main eviction of the plain variant on the hand-configured cache (a
state that `S3Random_init` cannot lead to, see `PlainReachable_empty`): Main
of `plainMainOnly` holds 10 bytes and the first draw selects object 1.  The
identifier passed to `main->remove` is the one the mistyped
`copy_request_to_cache_obj(params->req_local, obj_to_evict)` leaves in
`req_local`: whenever that is not the candidate's identifier, Main is
unchanged and the candidate is still resident.  In general the Main after
the call is `main->remove` of that identifier. -/
theorem S3Random_evict_main_random_removes_req_local_id :
    (0 < plainMainOnly.main_random.get_occupied_byte ∧
        plainMainOnly.main_random.to_evict (zeroRng 0) = some (CacheObj.ofRequest ⟨1, 10⟩)) ∧
      (∀ confused_copy : Request → CacheObj → Request,
        (confused_copy plainMainOnly.req_local (CacheObj.ofRequest ⟨1, 10⟩)).obj_id ≠ 1 →
        (S3Random_evict_main_random confused_copy plainMainOnly zeroRng).1.main_random
            = plainMainOnly.main_random ∧
          (S3Random_evict_main_random confused_copy plainMainOnly
            zeroRng).1.main_random.resident 1) ∧
      (∀ (confused_copy : Request → CacheObj → Request) (s : PlainCache) (rs : Rng)
          (c : CacheObj),
        0 < s.main_random.get_occupied_byte → s.main_random.to_evict (rs 0) = some c →
        (S3Random_evict_main_random confused_copy s rs).1.main_random
          = (s.main_random.remove (confused_copy s.req_local c).obj_id).1) := by
  have hgen : ∀ (confused_copy : Request → CacheObj → Request) (s : PlainCache) (rs : Rng)
      (c : CacheObj),
      0 < s.main_random.get_occupied_byte → s.main_random.to_evict (rs 0) = some c →
      (S3Random_evict_main_random confused_copy s rs).1.main_random
        = (s.main_random.remove (confused_copy s.req_local c).obj_id).1 := by
    intro cc s rs c hocc hc
    unfold S3Random_evict_main_random
    rw [if_pos hocc, hc]
  refine ⟨⟨by decide, by decide⟩, ?_, hgen⟩
  intro cc hne
  have hmain : (S3Random_evict_main_random cc plainMainOnly zeroRng).1.main_random
      = plainMainOnly.main_random := by
    rw [hgen cc plainMainOnly zeroRng (CacheObj.ofRequest ⟨1, 10⟩) (by decide) (by decide)]
    apply Tier.remove_of_not_mem
    have hids : plainMainOnly.main_random.ids = [1] := by decide
    rw [hids]
    simpa using hne
  refine ⟨hmain, ?_⟩
  rw [hmain]
  decide

/-- The insert routine of the plain variant on the hand-configured cache with
a Ghost tier (a state that `S3Random_init` cannot lead to, see
`PlainReachable_empty`): identifier 1 is in Ghost and is requested with size
90, Main's capacity; the lookup sets `hit_on_ghost`, the insert returns NULL
and yet Main, empty before, now holds the object. -/
theorem S3Random_oversized_ghost_hit_lands_in_main :
    plainGhostHitBig.hit_on_ghost = true ∧
      plainGhostHitBig.main_random = { cache_size := 90, objs := [] } ∧
      (S3Random_insert plainGhostHitBig ⟨1, 90⟩).2 = none ∧
      (S3Random_insert plainGhostHitBig ⟨1, 90⟩).1.main_random
        = { cache_size := 90, objs := [CacheObj.ofRequest ⟨1, 90⟩] } := by
  decide

/-! ## The Small sweep: termination and what it discards -/

/-- More fuel than the number of objects in Small never changes the result of
the Small sweep. -/
theorem S3Randomfreq_evict_small_loop_fuel (n m : Nat) (s : FreqCache) (rs : Rng)
    (hn : s.small_random.objs.length ≤ n) (hm : s.small_random.objs.length ≤ m) :
    S3Randomfreq_evict_small_loop n s rs = S3Randomfreq_evict_small_loop m s rs := by
  induction n generalizing m s rs with
  | zero =>
    have h0 : s.small_random.objs = [] := List.length_eq_zero.1 (Nat.le_zero.1 hn)
    have hocc : ¬ 0 < s.small_random.get_occupied_byte := by
      simp [Tier.get_occupied_byte, h0]
    cases m with
    | zero => rfl
    | succ j =>
      rw [S3Randomfreq_evict_small_loop, S3Randomfreq_evict_small_loop, if_neg hocc]
  | succ k ih =>
    cases m with
    | zero =>
      have h0 : s.small_random.objs = [] := List.length_eq_zero.1 (Nat.le_zero.1 hm)
      have hocc : ¬ 0 < s.small_random.get_occupied_byte := by
        simp [Tier.get_occupied_byte, h0]
      rw [S3Randomfreq_evict_small_loop, S3Randomfreq_evict_small_loop, if_neg hocc]
    | succ j =>
      unfold S3Randomfreq_evict_small_loop
      split
      · split
        · rfl
        · rename_i o ho
          split
          · have hl := (S3Randomfreq_promote_lengths s (rs 0) o ho).1
            exact ih j _ _ (by omega) (by omega)
          · rfl
      · rfl

/-- What a Small sweep does to the identifiers: Main keeps what it had, and
either nothing left Small and Main (every candidate was promoted), or exactly
one object `d` of Small, below the threshold, was handed to Ghost. -/
theorem S3Randomfreq_evict_small_loop_sweep (fuel : Nat) (s : FreqCache) (rs : Rng) :
    (∀ id ∈ s.main_random.ids, id ∈ (S3Randomfreq_evict_small_loop fuel s rs).1.main_random.ids) ∧
      (((∀ id ∈ s.small_random.ids,
            id ∈ (S3Randomfreq_evict_small_loop fuel s rs).1.small_random.ids ∨
              id ∈ (S3Randomfreq_evict_small_loop fuel s rs).1.main_random.ids) ∧
          S3Randomfreq_get_n_obj (S3Randomfreq_evict_small_loop fuel s rs).1
            = S3Randomfreq_get_n_obj s ∧
          (S3Randomfreq_evict_small_loop fuel s rs).1.ghost_random = s.ghost_random) ∨
        (∃ (d : CacheObj) (rd : Rng), d ∈ s.small_random.objs ∧ d.freq < s.threshold ∧
          (∀ id ∈ s.small_random.ids,
            id ∈ (S3Randomfreq_evict_small_loop fuel s rs).1.small_random.ids ∨
              id ∈ (S3Randomfreq_evict_small_loop fuel s rs).1.main_random.ids ∨
              id = d.obj_id) ∧
          S3Randomfreq_get_n_obj (S3Randomfreq_evict_small_loop fuel s rs).1 + 1
            = S3Randomfreq_get_n_obj s ∧
          (S3Randomfreq_evict_small_loop fuel s rs).1.ghost_random
            = (s.ghost_random.get (copy_cache_obj_to_request d) rd).1)) := by
  induction fuel generalizing s rs with
  | zero => exact ⟨fun _ h => h, Or.inl ⟨fun _ h => Or.inl h, rfl, rfl⟩⟩
  | succ k ih =>
    unfold S3Randomfreq_evict_small_loop
    split
    · split
      · exact ⟨fun _ h => h, Or.inl ⟨fun _ h => Or.inl h, rfl, rfl⟩⟩
      · rename_i o ho
        have hmem : o ∈ s.small_random.objs := Tier.to_evict_mem _ _ _ ho
        split
        · obtain ⟨e1, e2, e3⟩ := S3Randomfreq_promote_ids s o
          obtain ⟨l1, l2⟩ := S3Randomfreq_promote_lengths s (rs 0) o ho
          have hn : S3Randomfreq_get_n_obj (S3Randomfreq_promote s o)
              = S3Randomfreq_get_n_obj s := by
            unfold S3Randomfreq_get_n_obj Tier.get_n_obj
            omega
          obtain ⟨im, ic⟩ := ih (S3Randomfreq_promote s o) rs.tail
          have hmain : ∀ id ∈ s.main_random.ids,
              id ∈ (S3Randomfreq_evict_small_loop k (S3Randomfreq_promote s o)
                rs.tail).1.main_random.ids := by
            intro id hid
            apply im
            rw [e3]
            exact List.mem_cons_of_mem _ hid
          have hoid : o.obj_id ∈ (S3Randomfreq_evict_small_loop k (S3Randomfreq_promote s o)
              rs.tail).1.main_random.ids := by
            apply im
            rw [e3]
            exact List.mem_cons_self _ _
          have hsmall : ∀ id ∈ s.small_random.ids, id ≠ o.obj_id →
              id ∈ (S3Randomfreq_promote s o).small_random.ids := by
            intro id hid hne
            rw [e1]
            exact (Tier.remove_mem_of_ne _ _ _ hne).2 hid
          refine ⟨hmain, ?_⟩
          rcases ic with ⟨ia, ib, ig⟩ | ⟨d, rd, hd, hdf, ia, ib, ig⟩
          · left
            refine ⟨?_, by rw [ib, hn], by rw [ig, e2]⟩
            intro id hid
            by_cases hne : id = o.obj_id
            · right; rw [hne]; exact hoid
            · exact ia id (hsmall id hid hne)
          · right
            refine ⟨d, rd, ?_, hdf, ?_, by rw [ib, hn], by rw [ig, e2]⟩
            · rw [e1] at hd
              exact (Tier.remove_objs_sublist _ _).subset hd
            · intro id hid
              by_cases hne : id = o.obj_id
              · right; left; rw [hne]; exact hoid
              · exact ia id (hsmall id hid hne)
        · rename_i hf
          obtain ⟨e1, e2, e3⟩ := S3Randomfreq_demote_ids s o rs.tail
          obtain ⟨l1, l2⟩ := S3Randomfreq_demote_lengths s (rs 0) o rs.tail ho
          refine ⟨fun id hid => by rw [e3]; exact hid, Or.inr ⟨o, rs.tail, hmem, by omega, ?_, ?_, e2⟩⟩
          · intro id hid
            by_cases hne : id = o.obj_id
            · right; right; exact hne
            · left
              rw [e1]
              exact (Tier.remove_mem_of_ne _ _ _ hne).2 hid
          · unfold S3Randomfreq_get_n_obj Tier.get_n_obj
            rw [l2]
            omega
    · exact ⟨fun _ h => h, Or.inl ⟨fun _ h => Or.inl h, rfl, rfl⟩⟩

/-- C25 (frequency variant): for every state and every sequence of candidate
selections the Small sweep terminates (more rounds than Small has objects
change nothing), and it discards at most one object: either every identifier
that was in Small is afterwards in Small or in Main and Ghost is untouched,
or exactly one object `d` of Small, below the threshold, was handed to Ghost
and every other identifier of Small is afterwards in Small or in Main; a
round that demotes ends the sweep. -/
theorem S3Randomfreq_evict_small_discards_at_most_one (s : FreqCache) (rs : Rng) :
    (∀ fuel, s.small_random.objs.length ≤ fuel →
        S3Randomfreq_evict_small_loop fuel s rs = S3Randomfreq_evict_small s rs) ∧
      (((∀ id, s.small_random.resident id →
            (S3Randomfreq_evict_small s rs).1.small_random.resident id ∨
              (S3Randomfreq_evict_small s rs).1.main_random.resident id) ∧
          S3Randomfreq_get_n_obj (S3Randomfreq_evict_small s rs).1
            = S3Randomfreq_get_n_obj s ∧
          (S3Randomfreq_evict_small s rs).1.ghost_random = s.ghost_random) ∨
        (∃ (d : CacheObj) (rd : Rng), d ∈ s.small_random.objs ∧ d.freq < s.threshold ∧
          (∀ id, s.small_random.resident id →
            (S3Randomfreq_evict_small s rs).1.small_random.resident id ∨
              (S3Randomfreq_evict_small s rs).1.main_random.resident id ∨
              id = d.obj_id) ∧
          S3Randomfreq_get_n_obj (S3Randomfreq_evict_small s rs).1 + 1
            = S3Randomfreq_get_n_obj s ∧
          (S3Randomfreq_evict_small s rs).1.ghost_random
            = (s.ghost_random.get (copy_cache_obj_to_request d) rd).1)) ∧
      (∀ (fuel : Nat) (t : FreqCache) (rt : Rng) (o : CacheObj),
        0 < t.small_random.get_occupied_byte → t.small_random.to_evict (rt 0) = some o →
        ¬ o.freq ≥ t.threshold →
        S3Randomfreq_evict_small_loop (fuel + 1) t rt = S3Randomfreq_demote t o rt.tail) := by
  refine ⟨?_, ?_, ?_⟩
  · intro fuel hfuel
    exact S3Randomfreq_evict_small_loop_fuel fuel _ s rs hfuel le_rfl
  · exact (S3Randomfreq_evict_small_loop_sweep s.small_random.objs.length s rs).2
  · intro fuel t rt o hocc ho hf
    exact S3Randomfreq_evict_small_loop_demote fuel t rt o hocc ho hf

/-! ## One `evict` call -/

/-- C23, counterexample: Small holds one object with `freq = 2` (5 bytes) and
Main is empty; `evict` runs the Small sweep, which promotes the object, and
the object count of Small plus Main is 1 before and 1 after the call. -/
theorem S3Randomfreq_evict_can_remove_nothing :
    0 < twoHits.small_random.get_occupied_byte + twoHits.main_random.get_occupied_byte ∧
      S3Randomfreq_get_n_obj twoHits = 1 ∧
      S3Randomfreq_get_n_obj (S3Randomfreq_evict twoHits zeroRng).1 = 1 := by
  decide

/-- C23, amended: for every state in which Small and Main hold a byte and
every choice of candidates, one call to `evict` removes at most one object
from Small and Main: their object count is exactly one lower afterwards, or
it is unchanged, which happens only when the call ran the Small sweep and the
sweep promoted candidates until Small held no byte. -/
theorem S3Randomfreq_evict_removes_at_most_one (s : FreqCache) (rs : Rng)
    (hocc : 0 < s.small_random.get_occupied_byte + s.main_random.get_occupied_byte) :
    S3Randomfreq_get_n_obj (S3Randomfreq_evict s rs).1 + 1 = S3Randomfreq_get_n_obj s ∨
      (S3Randomfreq_get_n_obj (S3Randomfreq_evict s rs).1 = S3Randomfreq_get_n_obj s ∧
        S3Randomfreq_evict s rs = S3Randomfreq_evict_small s rs ∧
        0 < s.small_random.get_occupied_byte ∧
        (S3Randomfreq_evict s rs).1.small_random.get_occupied_byte = 0) := by
  unfold S3Randomfreq_evict
  split
  · rename_i hc
    left
    have hm : 0 < s.main_random.get_occupied_byte := by
      rcases hc with hc | hc <;> omega
    obtain ⟨h1, h2, _⟩ := S3Randomfreq_evict_main_loop_removes
      (spareBudget s.main_random.objs + 1) s rs (by omega) hm
    unfold S3Randomfreq_evict_main S3Randomfreq_get_n_obj Tier.get_n_obj
    rw [h2]
    omega
  · rename_i hc
    have hs : 0 < s.small_random.get_occupied_byte := by omega
    unfold S3Randomfreq_evict_small
    rcases S3Randomfreq_evict_small_loop_progress s.small_random.objs.length s rs le_rfl
      with h | ⟨h, h0⟩
    · left; exact h
    · right; exact ⟨h, rfl, hs, h0⟩

/-- Witness of the amended C23 on `twoHits` (count unchanged) . -/
theorem S3Randomfreq_evict_removes_at_most_one_witness :
    0 < twoHits.small_random.get_occupied_byte + twoHits.main_random.get_occupied_byte ∧
      (S3Randomfreq_get_n_obj (S3Randomfreq_evict twoHits zeroRng).1 + 1
          = S3Randomfreq_get_n_obj twoHits ∨
        (S3Randomfreq_get_n_obj (S3Randomfreq_evict twoHits zeroRng).1
            = S3Randomfreq_get_n_obj twoHits ∧
          S3Randomfreq_evict twoHits zeroRng = S3Randomfreq_evict_small twoHits zeroRng ∧
          0 < twoHits.small_random.get_occupied_byte ∧
          (S3Randomfreq_evict twoHits zeroRng).1.small_random.get_occupied_byte = 0)) :=
  ⟨by decide, S3Randomfreq_evict_removes_at_most_one twoHits zeroRng (by decide)⟩

/-! ## Termination of `get` -/

theorem evictMeasure_zero_occupied (s : FreqCache) (h : evictMeasure s = 0) :
    S3Randomfreq_get_occupied_byte s = 0 := by
  unfold evictMeasure S3Randomfreq_get_n_obj Tier.get_n_obj at h
  have hs : s.small_random.objs = [] := List.length_eq_zero.1 (by omega)
  have hm : s.main_random.objs = [] := List.length_eq_zero.1 (by omega)
  simp [S3Randomfreq_get_occupied_byte, Tier.get_occupied_byte, hs, hm]

/-- More fuel than the measure never changes the result of the eviction loop
of `get`: within the measure the loop has left through its own exit. -/
theorem S3Randomfreq_make_room_fuel (n m : Nat) (s : FreqCache) (req : Request) (rs : Rng)
    (hn : evictMeasure s ≤ n) (hm : evictMeasure s ≤ m)
    (hsize : req.obj_size ≤ s.cache_size) :
    S3Randomfreq_make_room n s req rs = S3Randomfreq_make_room m s req rs := by
  induction n generalizing m s rs with
  | zero =>
    have h0 := evictMeasure_zero_occupied s (Nat.le_zero.1 hn)
    have hc : ¬ S3Randomfreq_get_occupied_byte s + req.obj_size > s.cache_size := by omega
    cases m with
    | zero => rfl
    | succ j => rw [S3Randomfreq_make_room, S3Randomfreq_make_room, if_neg hc]
  | succ k ih =>
    cases m with
    | zero =>
      have h0 := evictMeasure_zero_occupied s (Nat.le_zero.1 hm)
      have hc : ¬ S3Randomfreq_get_occupied_byte s + req.obj_size > s.cache_size := by omega
      rw [S3Randomfreq_make_room, S3Randomfreq_make_room, if_neg hc]
    | succ j =>
      unfold S3Randomfreq_make_room
      split
      · rename_i hgt
        have hocc : 0 < S3Randomfreq_get_occupied_byte s := by omega
        have hp := S3Randomfreq_evict_progress s rs hocc
        have hc := (S3Randomfreq_evict_sameConfig s rs).1
        exact ih j _ _ (by omega) (by omega) (by rw [hc]; exact hsize)
      · rfl

/-- C27 (frequency variant): in every state reachable by `get` calls, for a
request that passes the gate after its lookup and for every choice of
candidates, the eviction loop of `get` ends after at most `roomBudget`
calls of `evict` (more rounds change nothing) and ends with room for the
request; every `evict` call ends as well, since the Main loop and the Small
sweep leave through their own exits. -/
theorem S3Randomfreq_get_terminates (C : Nat) (s : FreqCache) (req : Request) (rs : Rng)
    (hreach : FreqReachableGet C s)
    (hgate : S3Randomfreq_can_insert (S3Randomfreq_find s req true).1 req = true) :
    (∀ fuel, roomBudget (S3Randomfreq_find s req true).1 ≤ fuel →
        S3Randomfreq_make_room fuel (S3Randomfreq_find s req true).1 req rs
          = S3Randomfreq_make_room (roomBudget (S3Randomfreq_find s req true).1)
              (S3Randomfreq_find s req true).1 req rs) ∧
      S3Randomfreq_get_occupied_byte
          (S3Randomfreq_make_room (roomBudget (S3Randomfreq_find s req true).1)
            (S3Randomfreq_find s req true).1 req rs).1 + req.obj_size ≤ C ∧
      (∀ (t : FreqCache) (rt : Rng) (fuel : Nat), spareBudget t.main_random.objs + 1 ≤ fuel →
        S3Randomfreq_evict_main_loop fuel t rt = S3Randomfreq_evict_main t rt) ∧
      (∀ (t : FreqCache) (rt : Rng) (fuel : Nat), t.small_random.objs.length ≤ fuel →
        S3Randomfreq_evict_small_loop fuel t rt = S3Randomfreq_evict_small t rt) := by
  obtain ⟨hC, hsmall, _⟩ := FreqReachableGet_fits C s hreach
  have hf := S3Randomfreq_find_sameConfig s req true
  have hsz : req.obj_size ≤ (S3Randomfreq_find s req true).1.small_random.cache_size := by
    simpa [S3Randomfreq_can_insert] using hgate
  have hcs : (S3Randomfreq_find s req true).1.cache_size = C := by rw [hf.1, hC]
  have hsize : req.obj_size ≤ (S3Randomfreq_find s req true).1.cache_size := by
    rw [hcs]
    rw [hf.2.1] at hsz
    exact hsz.trans hsmall
  refine ⟨?_, ?_, ?_, ?_⟩
  · intro fuel hfuel
    exact S3Randomfreq_make_room_fuel fuel _ _ req rs
      ((evictMeasure_le_roomBudget _).trans hfuel) (evictMeasure_le_roomBudget _) hsize
  · have := S3Randomfreq_make_room_fits (roomBudget (S3Randomfreq_find s req true).1)
      (S3Randomfreq_find s req true).1 req rs (evictMeasure_le_roomBudget _) hsize
    rw [hcs] at this
    exact this
  · intro t rt fuel hfuel
    exact S3Randomfreq_evict_main_loop_fuel fuel _ t rt (by omega) (by omega)
  · intro t rt fuel hfuel
    exact S3Randomfreq_evict_small_loop_fuel fuel _ t rt hfuel le_rfl

theorem fillSmall_reachable : FreqReachableGet 100 fillSmall :=
  FreqReachableGet_foldl 100 (fun i => ⟨i + 2, 9⟩) zeroRng (List.range 11) _
    (FreqReachableGet.get _ _ _ FreqReachableGet.init)

/-- Witness of C27: the request for object 13 on `fillSmall`, which needs two
evictions. -/
theorem S3Randomfreq_get_terminates_witness :
    (FreqReachableGet 100 fillSmall ∧
        S3Randomfreq_can_insert (S3Randomfreq_find fillSmall ⟨13, 9⟩ true).1 ⟨13, 9⟩ = true) ∧
      S3Randomfreq_get_occupied_byte
          (S3Randomfreq_make_room (roomBudget (S3Randomfreq_find fillSmall ⟨13, 9⟩ true).1)
            (S3Randomfreq_find fillSmall ⟨13, 9⟩ true).1 ⟨13, 9⟩ lastRng).1 + 9 ≤ 100 :=
  ⟨⟨fillSmall_reachable, by decide⟩,
    (S3Randomfreq_get_terminates 100 fillSmall ⟨13, 9⟩ lastRng fillSmall_reachable
      (by decide)).2.1⟩

/-! ## The 32-bit frequency counter -/

theorem wrap_int32_of_range (x : Int) (h1 : -2147483648 ≤ x) (h2 : x ≤ 2147483647) :
    wrap_int32 x = x := by
  unfold wrap_int32
  omega

theorem wrap_int32_range (x : Int) :
    -2147483648 ≤ wrap_int32 x ∧ wrap_int32 x ≤ 2147483647 := by
  unfold wrap_int32
  omega

theorem updateFirst_forall2 (P Q : CacheObj → Prop) (id : Nat) (f : CacheObj → CacheObj)
    (hmono : ∀ o, P o → Q o) (hf : ∀ o, P o → Q (f o)) (l : List CacheObj)
    (h : ∀ o ∈ l, P o) : ∀ o ∈ updateFirst id f l, Q o := by
  induction l with
  | nil => simp [updateFirst]
  | cons a l ih =>
    unfold updateFirst
    split
    · intro o ho
      rcases List.mem_cons.1 ho with rfl | ho
      · exact hf a (h a (List.mem_cons_self _ _))
      · exact hmono o (h o (List.mem_cons_of_mem _ ho))
    · intro o ho
      rcases List.mem_cons.1 ho with rfl | ho
      · exact hmono _ (h _ (List.mem_cons_self _ _))
      · exact ih (fun o ho => h o (List.mem_cons_of_mem _ ho)) o ho

theorem freq_between_step (lo hi : Int) (hlo : lo ≤ 0) (hhi : 0 ≤ hi) :
    FreqStepInv (FreqCache.freq_between lo hi) where
  promote := by
    rintro s r o ⟨h1, h2⟩ _
    refine ⟨fun x hx => h1 x ((Tier.remove_objs_sublist _ _).subset hx), ?_⟩
    apply updateFirst_forall (fun o => lo ≤ o.freq ∧ o.freq ≤ hi)
    · intro x hx; exact hx
    · intro x hx
      rcases List.mem_cons.1 hx with rfl | hx
      · exact ⟨hlo, hhi⟩
      · exact h2 x hx
  demote := by
    rintro s r o rs ⟨h1, h2⟩ _
    exact ⟨fun x hx => h1 x ((Tier.remove_objs_sublist _ _).subset hx), h2⟩
  spare := by
    rintro s r o ⟨h1, h2⟩ ho hf
    refine ⟨h1, ?_⟩
    have hb := h2 o (Tier.to_evict_mem _ _ _ ho)
    intro x hx
    rcases List.mem_or_eq_of_mem_set hx with hx | rfl
    · exact h2 x hx
    · simp only
      omega
  drop := by
    rintro s r o ⟨h1, h2⟩ _
    exact ⟨h1, fun x hx => h2 x ((Tier.remove_objs_sublist _ _).subset hx)⟩

theorem S3Randomfreq_find_freq_between (lo hi lo2 hi2 : Int) (s : FreqCache) (req : Request)
    (hmono : ∀ x : Int, lo ≤ x ∧ x ≤ hi → lo2 ≤ x ∧ x ≤ hi2)
    (hincr : ∀ x : Int, lo ≤ x ∧ x ≤ hi → lo2 ≤ wrap_int32 (x + 1) ∧ wrap_int32 (x + 1) ≤ hi2)
    (h : s.freq_between lo hi) : (S3Randomfreq_find s req true).1.freq_between lo2 hi2 := by
  obtain ⟨h1, h2⟩ := h
  have h1m : ∀ o ∈ s.small_random.objs, lo2 ≤ o.freq ∧ o.freq ≤ hi2 :=
    fun o ho => hmono _ (h1 o ho)
  have h2m : ∀ o ∈ s.main_random.objs, lo2 ≤ o.freq ∧ o.freq ≤ hi2 :=
    fun o ho => hmono _ (h2 o ho)
  have hup : ∀ l : List CacheObj, (∀ o ∈ l, lo ≤ o.freq ∧ o.freq ≤ hi) →
      ∀ o ∈ updateFirst req.obj_id CacheObj.incr_freq l, lo2 ≤ o.freq ∧ o.freq ≤ hi2 :=
    fun l hl => updateFirst_forall2 (fun o => lo ≤ o.freq ∧ o.freq ≤ hi)
      (fun o => lo2 ≤ o.freq ∧ o.freq ≤ hi2) _ _ (fun o ho => hmono _ ho)
      (fun o ho => hincr _ ho) l hl
  unfold S3Randomfreq_find
  simp only [Bool.not_true, Bool.false_eq_true, if_false]
  split
  · exact ⟨hup _ h1, h2m⟩
  · split
    · refine ⟨by split <;> exact h1m, ?_⟩
      apply hup
      split <;> exact h2
    · exact ⟨by split <;> exact h1m, by split <;> exact h2m⟩

theorem S3Randomfreq_insert_freq_between (lo hi : Int) (hlo : lo ≤ 0) (hhi : 0 ≤ hi)
    (s : FreqCache) (req : Request)
    (h : s.freq_between lo hi) : (S3Randomfreq_insert s req).1.freq_between lo hi := by
  obtain ⟨h1, h2⟩ := h
  have hreset : ∀ o : CacheObj, lo ≤ o.freq ∧ o.freq ≤ hi →
      lo ≤ o.reset_freq.freq ∧ o.reset_freq.freq ≤ hi := fun _ _ => ⟨hlo, hhi⟩
  unfold S3Randomfreq_insert
  split
  · simp only
    split
    · exact ⟨h1, h2⟩
    · refine ⟨h1, ?_⟩
      apply updateFirst_forall (fun o => lo ≤ o.freq ∧ o.freq ≤ hi) _ _ hreset
      intro x hx
      rcases List.mem_cons.1 hx with rfl | hx
      · exact ⟨hlo, hhi⟩
      · exact h2 x hx
  · split
    · exact ⟨h1, h2⟩
    · refine ⟨?_, h2⟩
      apply updateFirst_forall (fun o => lo ≤ o.freq ∧ o.freq ≤ hi) _ _ hreset
      intro x hx
      rcases List.mem_cons.1 hx with rfl | hx
      · exact ⟨hlo, hhi⟩
      · exact h1 x hx

theorem FreqReachableOpsN_int32 (C n : Nat) (s : FreqCache) (h : FreqReachableOpsN C n s) :
    s.freq_between (-2147483648) 2147483647 := by
  induction h with
  | init => exact ⟨by simp [S3Randomfreq_init], by simp [S3Randomfreq_init]⟩
  | find s n req _ ih =>
    exact S3Randomfreq_find_freq_between _ _ _ _ s req (fun _ hx => hx)
      (fun x _ => wrap_int32_range (x + 1)) ih
  | insert s n req _ ih =>
    exact S3Randomfreq_insert_freq_between _ _ (by decide) (by decide) s req ih
  | evict s n rs _ ih =>
    exact S3Randomfreq_evict_inv _ (freq_between_step _ _ (by decide) (by decide)) s rs ih

theorem FreqReachableOpsN_count (C n : Nat) (s : FreqCache) (h : FreqReachableOpsN C n s)
    (hn : n < 2147483648) : s.freq_between 0 n := by
  induction h with
  | init => exact ⟨by simp [S3Randomfreq_init], by simp [S3Randomfreq_init]⟩
  | find s n req _ ih =>
    refine S3Randomfreq_find_freq_between 0 n 0 _ s req ?_ ?_ (ih (by omega))
    · intro x hx
      push_cast
      omega
    · intro x hx
      rw [wrap_int32_of_range _ (by omega) (by omega)]
      push_cast
      omega
  | insert s n req _ ih =>
    exact S3Randomfreq_insert_freq_between _ _ (le_refl _) (by omega) s req (ih hn)
  | evict s n rs _ ih =>
    exact S3Randomfreq_evict_inv _ (freq_between_step _ _ (le_refl _) (by omega)) s rs (ih hn)

theorem FreqReachableOpsN_of_ops (C : Nat) (s : FreqCache) (h : FreqReachableOps C s) :
    ∃ n, FreqReachableOpsN C n s := by
  induction h with
  | init => exact ⟨0, FreqReachableOpsN.init⟩
  | find s req _ ih => obtain ⟨n, hn⟩ := ih; exact ⟨n + 1, FreqReachableOpsN.find s n req hn⟩
  | insert s req _ ih => obtain ⟨n, hn⟩ := ih; exact ⟨n, FreqReachableOpsN.insert s n req hn⟩
  | evict s rs _ ih => obtain ⟨n, hn⟩ := ih; exact ⟨n, FreqReachableOpsN.evict s n rs hn⟩

theorem FreqReachableOps_of_opsN (C n : Nat) (s : FreqCache) (h : FreqReachableOpsN C n s) :
    FreqReachableOps C s := by
  induction h with
  | init => exact FreqReachableOps.init
  | find s n req _ ih => exact FreqReachableOps.find s req ih
  | insert s n req _ ih => exact FreqReachableOps.insert s req ih
  | evict s n rs _ ih => exact FreqReachableOps.evict s rs ih

theorem hitTimes_reachable (n : Nat) : FreqReachableOpsN 100 n (hitTimes n oneInsert) := by
  induction n with
  | zero => exact FreqReachableOpsN.insert _ _ _ FreqReachableOpsN.init
  | succ n ih => exact FreqReachableOpsN.find _ _ _ ih

theorem hitTimes_small (n : Nat) (hn : n ≤ 2147483647) :
    (hitTimes n oneInsert).small_random
      = { cache_size := 10,
          objs := [{ obj_id := 1, obj_size := 5, freq := n, promotion := false,
                     misc_freq := 0 }] } := by
  induction n with
  | zero => decide
  | succ n ih =>
    have ih2 := ih (by omega)
    have hf : (hitTimes n oneInsert).small_random.find ({ obj_id := 1, obj_size := 5 } : Request).obj_id
        = some { obj_id := 1, obj_size := 5, freq := n, promotion := false, misc_freq := 0 } := by
      rw [ih2]; rfl
    show (S3Randomfreq_find (hitTimes n oneInsert) { obj_id := 1, obj_size := 5 } true).1.small_random
      = _
    rw [S3Randomfreq_find_update_small _ _ _ hf]
    simp only [ih2, Tier.update, updateFirst, CacheObj.incr_freq, if_true]
    rw [wrap_int32_of_range _ (by omega) (by omega)]
    push_cast
    rfl

theorem S3Randomfreq_find_single_small (s : FreqCache) (f : Int)
    (h : s.small_random
      = { cache_size := 10,
          objs := [{ obj_id := 1, obj_size := 5, freq := f, promotion := false,
                     misc_freq := 0 }] }) :
    (S3Randomfreq_find s { obj_id := 1, obj_size := 5 } true).1.small_random.objs
      = [{ obj_id := 1, obj_size := 5, freq := wrap_int32 (f + 1), promotion := false,
           misc_freq := 0 }] := by
  have hf : s.small_random.find ({ obj_id := 1, obj_size := 5 } : Request).obj_id
      = some { obj_id := 1, obj_size := 5, freq := f, promotion := false, misc_freq := 0 } := by
    rw [h]; rfl
  rw [S3Randomfreq_find_update_small _ _ _ hf]
  simp only [h, Tier.update, updateFirst, CacheObj.incr_freq, if_true]

theorem hitTimes_max_reachable : FreqReachableOps 100 (hitTimes 2147483647 oneInsert) :=
  FreqReachableOps_of_opsN 100 _ _ (hitTimes_reachable 2147483647)

/-- C3, counterexample: an object inserted into a fresh cache and hit by four
lookups with update is resident in Small with `freq = 4`, so the bound
`freq <= 3` fails in a state reached by insert and lookup calls; and after
2147483648 lookups with update the 32-bit counter has wrapped around to
`freq = -2147483648`, so the bound `0 <= freq` fails in a reachable state as
well. -/
theorem S3Randomfreq_freq_exceeds_three :
    (FreqReachableOps 100 fourHits ∧
      fourHits.small_random.find 1
        = some { obj_id := 1, obj_size := 5, freq := 4, promotion := false, misc_freq := 0 } ∧
      ¬ (∀ o ∈ fourHits.small_random.objs, 0 ≤ o.freq ∧ o.freq ≤ 3)) ∧
    (FreqReachableOps 100
        (S3Randomfreq_find (hitTimes 2147483647 oneInsert) { obj_id := 1, obj_size := 5 } true).1 ∧
      (S3Randomfreq_find (hitTimes 2147483647 oneInsert) { obj_id := 1, obj_size := 5 }
          true).1.small_random.objs
        = [{ obj_id := 1, obj_size := 5, freq := -2147483648, promotion := false,
             misc_freq := 0 }] ∧
      ¬ (∀ o ∈ (S3Randomfreq_find (hitTimes 2147483647 oneInsert) { obj_id := 1, obj_size := 5 }
          true).1.small_random.objs, 0 ≤ o.freq ∧ o.freq ≤ 3)) := by
  have h := hitTimes_small 2147483647 (le_refl _)
  have e := S3Randomfreq_find_single_small _ _ h
  have e2 : (S3Randomfreq_find (hitTimes 2147483647 oneInsert) { obj_id := 1, obj_size := 5 }
      true).1.small_random.objs
        = [{ obj_id := 1, obj_size := 5, freq := -2147483648, promotion := false,
             misc_freq := 0 }] := by
    rw [e]; rfl
  refine ⟨⟨fourHits_reachable, by decide, by decide⟩,
    FreqReachableOps.find _ _ hitTimes_max_reachable, e2, ?_⟩
  rw [e2]
  intro hall
  exact absurd (hall _ (List.mem_singleton.2 rfl)).1 (by decide)

/-- C3, amended: in a state reached from a fresh cache by lookup-with-update,
`insert` and `evict` calls of which `n` are lookups, the counter of every
object resident in Small or Main lies in the range of its 32-bit field, and
for `n < 2^31` it lies between 0 and `n`.  (Lookups add one without a cap;
the cap `MIN(freq, 3)` is applied by the Main eviction when it spares an
object.) -/
theorem S3Randomfreq_freq_within_counter (C n : Nat) (s : FreqCache) (o : CacheObj)
    (h : FreqReachableOpsN C n s)
    (ho : o ∈ s.small_random.objs ∨ o ∈ s.main_random.objs) :
    (-2147483648 ≤ o.freq ∧ o.freq ≤ 2147483647) ∧
      (n < 2147483648 → 0 ≤ o.freq ∧ o.freq ≤ n) := by
  refine ⟨?_, fun hn => ?_⟩
  · obtain ⟨h1, h2⟩ := FreqReachableOpsN_int32 C n s h
    rcases ho with ho | ho
    · exact h1 o ho
    · exact h2 o ho
  · obtain ⟨h1, h2⟩ := FreqReachableOpsN_count C n s h hn
    rcases ho with ho | ho
    · exact h1 o ho
    · exact h2 o ho

theorem fourHits_reachableN : FreqReachableOpsN 100 4 fourHits :=
  FreqReachableOpsN.find _ _ _ (FreqReachableOpsN.find _ _ _ (FreqReachableOpsN.find _ _ _
    (FreqReachableOpsN.find _ _ _ (FreqReachableOpsN.insert _ _ _ FreqReachableOpsN.init))))

/-- Witness of the amended C3 on the object hit four times: the state is
reached with four lookups, and the counter 4 lies in the 32-bit range and
between 0 and the number of lookups. -/
theorem S3Randomfreq_freq_within_counter_witness :
    FreqReachableOpsN 100 4 fourHits ∧
      (({ obj_id := 1, obj_size := 5, freq := 4, promotion := false, misc_freq := 0 } : CacheObj)
          ∈ fourHits.small_random.objs ∨
        ({ obj_id := 1, obj_size := 5, freq := 4, promotion := false, misc_freq := 0 } : CacheObj)
          ∈ fourHits.main_random.objs) ∧
      4 < 2147483648 ∧
      ((-2147483648 : Int) ≤ 4 ∧ (4 : Int) ≤ 2147483647) ∧
      ((0 : Int) ≤ 4 ∧ (4 : Int) ≤ (4 : Nat)) :=
  ⟨fourHits_reachableN, Or.inl (by decide), by decide,
    (S3Randomfreq_freq_within_counter 100 4 fourHits
      { obj_id := 1, obj_size := 5, freq := 4, promotion := false, misc_freq := 0 }
      fourHits_reachableN (Or.inl (by decide))).1,
    (S3Randomfreq_freq_within_counter 100 4 fourHits
      { obj_id := 1, obj_size := 5, freq := 4, promotion := false, misc_freq := 0 }
      fourHits_reachableN (Or.inl (by decide))).2 (by decide)⟩

/-! ## One access per lookup, on the 32-bit counter -/

/-- C20, counterexample: after an insert and 2147483647 lookups with update the
object is resident in Small with `freq = 2147483647`; one more lookup with
update leaves it with `freq = -2147483648`, which is not one more than
before. -/
theorem S3Randomfreq_find_wraps_at_max :
    FreqReachableOps 100 (hitTimes 2147483647 oneInsert) ∧
      (hitTimes 2147483647 oneInsert).small_random.objs
        = [{ obj_id := 1, obj_size := 5, freq := 2147483647, promotion := false,
             misc_freq := 0 }] ∧
      (S3Randomfreq_find (hitTimes 2147483647 oneInsert) { obj_id := 1, obj_size := 5 }
          true).1.small_random.objs
        = [{ obj_id := 1, obj_size := 5, freq := -2147483648, promotion := false,
             misc_freq := 0 }] ∧
      (-2147483648 : Int) ≠ 2147483647 + 1 := by
  have h := hitTimes_small 2147483647 (le_refl _)
  refine ⟨hitTimes_max_reachable, by rw [h]; rfl, ?_, by decide⟩
  rw [S3Randomfreq_find_single_small _ _ h]
  rfl

/-- C20, amended (frequency variant): a lookup with update changes at most one
resident object.  On a Small hit it is the first object of Small with the
requested identifier, whose `freq` becomes the 32-bit increment of its old
value, all other objects of Small and all of Main being unchanged; on a Main
hit the same holds with the roles of Small and Main exchanged; on a miss
Small and Main are unchanged.  The 32-bit increment of `x` is `x + 1` for
`-2147483648 <= x < 2147483647` and `-2147483648` for `x = 2147483647`. -/
theorem S3Randomfreq_find_records_one_access (s : FreqCache) (req : Request) :
    ((∃ pre o post, s.small_random.objs = pre ++ o :: post ∧ o.obj_id = req.obj_id ∧
          req.obj_id ∉ pre.map CacheObj.obj_id ∧
          (S3Randomfreq_find s req true).1.small_random.objs
            = pre ++ { o with freq := wrap_int32 (o.freq + 1) } :: post ∧
          (S3Randomfreq_find s req true).1.main_random = s.main_random) ∨
        (¬ s.small_random.resident req.obj_id ∧
          ∃ pre o post, s.main_random.objs = pre ++ o :: post ∧ o.obj_id = req.obj_id ∧
            req.obj_id ∉ pre.map CacheObj.obj_id ∧
            (S3Randomfreq_find s req true).1.main_random.objs
              = pre ++ { o with freq := wrap_int32 (o.freq + 1) } :: post ∧
            (S3Randomfreq_find s req true).1.small_random = s.small_random) ∨
        (¬ s.small_random.resident req.obj_id ∧ ¬ s.main_random.resident req.obj_id ∧
          (S3Randomfreq_find s req true).1.small_random = s.small_random ∧
          (S3Randomfreq_find s req true).1.main_random = s.main_random)) ∧
      (∀ x : Int, -2147483648 ≤ x → x < 2147483647 → wrap_int32 (x + 1) = x + 1) ∧
      wrap_int32 (2147483647 + 1) = -2147483648 := by
  refine ⟨?_, fun x h1 h2 => wrap_int32_of_range _ (by omega) (by omega), by decide⟩
  cases hs : s.small_random.find req.obj_id with
  | some o =>
    left
    have hres : req.obj_id ∈ s.small_random.objs.map CacheObj.obj_id :=
      (Tier.find_isSome_iff _ _).1 (by rw [hs]; rfl)
    obtain ⟨pre, c, post, e1, e2, e3, e4⟩ :=
      updateFirst_split req.obj_id CacheObj.incr_freq s.small_random.objs hres
    rw [S3Randomfreq_find_update_small s req o hs]
    exact ⟨pre, c, post, e1, e2, e3, e4, rfl⟩
  | none =>
    right
    have hn : ¬ s.small_random.resident req.obj_id := (Tier.find_eq_none_iff _ _).1 hs
    obtain ⟨h1, _, _, h4, _⟩ := S3Randomfreq_find_update_not_small s req hs
    by_cases hm : s.main_random.resident req.obj_id
    · left
      obtain ⟨pre, c, post, e1, e2, e3, e4⟩ :=
        updateFirst_split req.obj_id CacheObj.incr_freq s.main_random.objs hm
      refine ⟨hn, pre, c, post, e1, e2, e3, ?_, h1⟩
      rw [h4, if_pos ((Tier.find_isSome_iff _ _).2 hm)]
      exact e4
    · right
      refine ⟨hn, hm, h1, ?_⟩
      rw [h4, if_neg]
      rw [Tier.find_isSome_iff]
      exact hm

/-- Witness of the amended C20: object 1 of `fourHits` is resident in Small, and
the characterisation holds for the lookup of request (1, 5) there. -/
theorem S3Randomfreq_find_records_one_access_witness :
    fourHits.small_random.objs
        = [{ obj_id := 1, obj_size := 5, freq := 4, promotion := false, misc_freq := 0 }] ∧
      (S3Randomfreq_find fourHits ⟨1, 5⟩ true).1.small_random.objs
        = [{ obj_id := 1, obj_size := 5, freq := 5, promotion := false, misc_freq := 0 }] ∧
      wrap_int32 (4 + 1) = 4 + 1 :=
  ⟨by decide, by decide,
    (S3Randomfreq_find_records_one_access fourHits ⟨1, 5⟩).2.1 4 (by decide) (by decide)⟩

/-! ## The plain variant after `S3Random_init` -/

theorem S3Random_init_eq (C : Nat) :
    S3Random_init C =
      { cache_size := C
        small_random := { cache_size := 0, objs := [] }
        main_random := { cache_size := C, objs := [] }
        random_ghost := none
        hit_on_ghost := false
        n_obj_admit_to_small_random := 0
        n_obj_admit_to_main_random := 0
        n_obj_move_to_main := 0
        n_byte_admit_to_small_random := 0
        n_byte_admit_to_main_random := 0
        n_byte_move_to_main := 0
        move_to_main_threshold := 0
        small_random_size_ratio := 0
        ghost_size_ratio := 0
        req_local := { obj_id := 0, obj_size := 0 } } := by
  simp [S3Random_init, scaled_size]

theorem S3Random_find_init (C : Nat) (req : Request) (update_cache : Bool) :
    S3Random_find (S3Random_init C) req update_cache = (S3Random_init C, none) := by
  rw [S3Random_init_eq]
  cases update_cache <;> rfl

theorem S3Random_insert_init (C : Nat) (req : Request) :
    S3Random_insert (S3Random_init C) req = (S3Random_init C, none) := by
  rw [S3Random_init_eq]
  simp [S3Random_insert]

theorem S3Random_evict_small_random_init (C : Nat) (rs : Rng) :
    S3Random_evict_small_random (S3Random_init C) rs = (S3Random_init C, rs) := by
  rw [S3Random_init_eq]
  rfl

theorem S3Random_evict_main_random_init (confused_copy : Request → CacheObj → Request)
    (C : Nat) (rs : Rng) :
    S3Random_evict_main_random confused_copy (S3Random_init C) rs = (S3Random_init C, rs) := by
  rw [S3Random_init_eq]
  rfl

theorem S3Random_evict_init (confused_copy : Request → CacheObj → Request)
    (C : Nat) (rs : Rng) :
    S3Random_evict confused_copy (S3Random_init C) rs = (S3Random_init C, rs) := by
  unfold S3Random_evict
  split
  · exact S3Random_evict_main_random_init confused_copy C rs
  · exact S3Random_evict_small_random_init C rs

/-- A plain cache never leaves the state `S3Random_init` gives it: with Small
of capacity 0 every insert is refused, without a Ghost tier no lookup sets
`hit_on_ghost`, and with both tiers empty the eviction routines do nothing. -/
theorem PlainReachable_eq_init (C : Nat) (s : PlainCache) (h : PlainReachable C s) :
    s = S3Random_init C := by
  induction h with
  | init => rfl
  | find s req u _ ih => rw [ih, S3Random_find_init]
  | insert s req _ ih => rw [ih, S3Random_insert_init]
  | evict cc s rs _ ih => rw [ih, S3Random_evict_init]
  | evict_small s rs _ ih => rw [ih, S3Random_evict_small_random_init]
  | evict_main cc s rs _ ih => rw [ih, S3Random_evict_main_random_init]

/-- In every state a plain cache can reach, Small has capacity 0 and holds
nothing, Main holds nothing, there is no Ghost tier and `hit_on_ghost` is
false. -/
theorem PlainReachable_empty (C : Nat) (s : PlainCache) (h : PlainReachable C s) :
    s.small_random = { cache_size := 0, objs := [] } ∧
      s.main_random = { cache_size := C, objs := [] } ∧
      s.random_ghost = none ∧ s.hit_on_ghost = false := by
  rw [PlainReachable_eq_init C s h, S3Random_init_eq]
  exact ⟨rfl, rfl, rfl, rfl⟩

end S3
